import Mathlib

/-!
# teamd: a shallow embedding of `teamd/teamd.c`

The daemon's lifecycle code (`teamd_init`, `teamd_fini`, `teamd_run` and the
helpers they call) is translated function by function.  Everything the daemon
obtains from outside (libteam, libdaemon, json, libc allocation and file I/O)
is supplied by a `World` record of answers; every call that leaves the program
is appended to a trace of `Event`s, so that statements about which calls are
made, how often and in which order are statements about lists.

Conventions
* C strings are `String` (no embedded NUL); character-level code works on
  `List Char`.
* `int` values are `Int`; `uint32_t` values are `Nat` reduced modulo `2^32`
  where the C code stores into them.
* pointers are `Option`, with `none` for `NULL`.
* debug and info log lines are not recorded; error and warning lines are, by
  their format string.
-/

namespace Teamd

/-! ## Constants (Linux) -/

def EPERM : Int := 1
def ENOENT : Int := 2
def EINTR : Nat := 4
def EIO : Int := 5
def ENOMEM : Int := 12
def EEXIST : Int := 17
def EINVAL : Int := 22
def ERANGE : Nat := 34

def SIGINT : Int := 2
def SIGQUIT : Int := 3
def SIGTERM : Int := 15

/-- Largest `unsigned long` (LP64). -/
def ULONG_MAX : Nat := 2 ^ 64 - 1

/-- An error number as left in `errno` by a failing library call: positive. -/
structure Errno where
  val : Nat
  pos : 0 < val
  deriving DecidableEq

/-! ## Data model -/

/-- The `enum teamd_command` of `teamd.h`. -/
inductive teamd_command where
  | DAEMON_CMD_RUN
  | DAEMON_CMD_KILL
  | DAEMON_CMD_VERSION
  | DAEMON_CMD_HELP
  | DAEMON_CMD_CHECK
  deriving DecidableEq, Repr

inductive json_type where
  | json_type_null
  | json_type_boolean
  | json_type_double
  | json_type_int
  | json_type_object
  | json_type_array
  | json_type_string
  deriving DecidableEq, Repr

/-- A `json_object *` as the daemon sees it: an identity, the type
`json_object_get_type` reports and the text `json_object_get_string` returns.
Containers are only ever inspected through the query functions of `World`. -/
structure json_object where
  id : Nat
  type : json_type
  string : String
  deriving DecidableEq, Repr

/-- The `struct teamd_runner` descriptor.  `init` is the entry point (`none`
for `NULL`), represented by the value it returns when `teamd_runner_init`
invokes it; `fini` tells whether a finalizer is present. -/
structure teamd_runner where
  name : String
  team_mode_name : Option String
  priv_size : Nat
  init : Option Int
  fini : Bool
  deriving DecidableEq, Repr

/-- The fields of `struct teamd_context` that `teamd.c` reads or writes. -/
structure teamd_context where
  cmd : teamd_command
  daemonize : Bool
  debug : Nat
  force_recreate : Bool
  config_file : Option String
  config_text : Option String
  config_jso : Option json_object
  pid_file : Option String
  argv0 : Option String
  th : Option Nat
  runner : Option teamd_runner
  runner_priv : Option Nat
  ifindex : Nat
  hwaddr_len : Nat
  deriving DecidableEq, Repr

/-- The context `teamd_context_init` produces: all bytes zero. -/
def teamd_context_zero : teamd_context :=
  { cmd := teamd_command.DAEMON_CMD_RUN, daemonize := false, debug := 0,
    force_recreate := false, config_file := none, config_text := none,
    config_jso := none, pid_file := none, argv0 := none, th := none,
    runner := none, runner_priv := none, ifindex := 0, hwaddr_len := 0 }

/-- Calls that leave the program, in the order they are made. -/
inductive Event where
  | log_err (fmt : String)
  | log_warn (fmt : String)
  | fopen (filename : String)
  | fclose (filename : String)
  | json_tokener_parse (text : String)
  | team_alloc
  | team_set_log_priority (th : Option Nat)
  | team_set_log_fn (th : Option Nat)
  | team_create (th : Option Nat) (team_name : String)
  | team_recreate (th : Option Nat) (team_name : String)
  | team_ifname2ifindex (th : Option Nat) (ifname : String)
  | team_init (th : Option Nat) (ifindex : Nat)
  | team_hwaddr_len_get (th : Option Nat) (ifindex : Nat)
  | team_hwaddr_set (th : Option Nat) (ifindex : Nat) (hwaddr : List Nat) (len : Nat)
  | team_set_mode_name (th : Option Nat) (mode : String)
  | malloc (size : Nat)
  | free (ptr : Option Nat)
  | runner_init (name : String)
  | runner_fini (name : String)
  | team_port_add (th : Option Nat) (ifindex : Nat)
  | team_destroy (th : Option Nat)
  | team_free (th : Option Nat)
  | select
  | daemon_signal_next
  | team_process_event (th : Option Nat)
  | stderr (fmt : String)
  | print_help
  | print_version
  | daemon_reset_sigs
  | daemon_unblock_sigs
  | daemon_pid_file_is_running
  | daemon_pid_file_kill_wait
  | daemon_retval_init
  | daemon_fork
  | daemon_retval_done
  | daemon_retval_wait
  | daemon_retval_send (value : Int)
  | daemon_close_all
  | daemon_pid_file_create
  | daemon_pid_file_remove
  | daemon_signal_init
  | daemon_signal_done
  deriving DecidableEq, Repr

/-- What the libc calls of `load_file` answer for one file. -/
structure file_io where
  /-- Errno with which `fopen` fails, if it does. -/
  fopen_errno : Option Errno
  /-- Errno with which `fseek` fails, if it does. -/
  fseek_errno : Option Errno
  /-- Value of `errno` tested after `ftell` (it is not cleared beforehand). -/
  ftell_errno : Nat
  /-- Whether `malloc` of the buffer succeeds. -/
  malloc_ok : Bool
  /-- Content `fread` returns in full, or the `errno` (possibly 0) left by a
  short read. -/
  fread : Except Nat String

/-- Answers of everything outside `teamd.c`.  Each function is called at most
once per argument in one run of `teamd_init`, except the kernel port add,
which therefore also receives the number of the request. -/
structure World where
  /-- Errno with which `vasprintf` fails when building the query, if it does. -/
  vasprintf_errno : String → Option Errno
  /-- Pointer `malloc(size)` returns for the runner private data. -/
  malloc : Nat → Option Nat
  /-- Whether `realloc(hwaddr, n)` in `parse_hwaddr` succeeds. -/
  realloc_ok : Nat → Bool
  file : String → file_io
  json_tokener_parse : String → Option json_object
  json_object_simple_query : Option json_object → String → Option json_object
  /-- Port names visited by `teamd_for_each_port`. -/
  ports : Option json_object → List String
  team_alloc : Option Nat
  team_create : String → Int
  team_recreate : String → Int
  team_ifname2ifindex : String → Nat
  team_init : Nat → Int
  team_hwaddr_len_get : Nat → Int
  team_hwaddr_set : Nat → List Nat → Nat → Int
  team_set_mode_name : String → Int
  /-- Answer of `team_port_add` to request number n (from 0) for an interface index. -/
  team_port_add : Nat → Nat → Int
  /-- The compiled-in `teamd_runner_list`. -/
  teamd_runner_list : List teamd_runner

/-- What a function returning `int` and working on the context leaves behind. -/
structure Result where
  err : Int
  ctx : teamd_context
  trace : List Event
  deriving DecidableEq, Repr

/-! ## Runner lookup -/

/-- The loop of `teamd_find_runner` over a runner list, comparing with `strcmp`. -/
def find_runner_in : List teamd_runner → String → Option teamd_runner
  | [], _ => none
  | r :: rest, runner_name =>
    if r.name = runner_name then some r else find_runner_in rest runner_name

def teamd_find_runner (w : World) (runner_name : String) : Option teamd_runner :=
  find_runner_in w.teamd_runner_list runner_name

/-! ## Configuration queries -/

/-- Config string query `teamd_cfg_get_str`: the error value, or the string
stored through `dst`.
The queries of `teamd.c` carry no conversion, so the buffer `vasprintf` builds
is the query itself. -/
def teamd_cfg_get_str (w : World) (ctx : teamd_context) (query : String) :
    Except Int String :=
  match w.vasprintf_errno query with
  | some errno => Except.error (-(errno.val : Int))
  | none =>
    match w.json_object_simple_query ctx.config_jso query with
    | none => Except.error (-ENOENT)
    | some jso =>
      if jso.type ≠ json_type.json_type_string then Except.error (-EINVAL)
      else Except.ok jso.string

/-- Modelled from the spec: the `teamd_for_each_port` macro is not part of the
given `teamd.h`; it visits "an ordered list of member port names" of the
configuration document, here the list the world reports for the parsed
document. -/
def teamd_for_each_port (w : World) (ctx : teamd_context) : List String :=
  w.ports ctx.config_jso

/-! ## Hardware address parsing -/

/-- The `isspace` of the C locale. -/
def isspace (c : Char) : Bool :=
  c.toNat = 32 || (9 ≤ c.toNat && c.toNat ≤ 13)

/-- Value of a hexadecimal digit. -/
def hexval (c : Char) : Option Nat :=
  if 48 ≤ c.toNat ∧ c.toNat ≤ 57 then some (c.toNat - 48)
  else if 97 ≤ c.toNat ∧ c.toNat ≤ 102 then some (c.toNat - 87)
  else if 65 ≤ c.toNat ∧ c.toNat ≤ 70 then some (c.toNat - 55)
  else none

/-- Digits of `strtoul`: the value of the longest run of hexadecimal digits and
what follows it. -/
def strtoul_digits : List Char → Nat → Nat × List Char
  | [], acc => (acc, [])
  | c :: cs, acc =>
    match hexval c with
    | some d => strtoul_digits cs (acc * 16 + d)
    | none => (acc, c :: cs)

/-- Sign of `strtoul`: the text after an optional `+` or `-`. -/
def strtoul_skip_sign (s : List Char) : List Char :=
  if s.head? = some (Char.ofNat 45) ∨ s.head? = some (Char.ofNat 43) then s.tail else s

/-- Prefix of `strtoul` in base 16: the text after an optional `0x` or `0X`,
which is skipped only when a hexadecimal digit follows it. -/
def strtoul_skip_0x (s : List Char) : List Char :=
  match s with
  | z :: x :: h :: r =>
    if z.toNat = 48 ∧ (x.toNat = 120 ∨ x.toNat = 88) ∧ (hexval h).isSome
    then h :: r else s
  | _ => s

/-- The libc function `strtoul(nptr, &endptr, 16)` (glibc, LP64): the value
returned, `endptr`, and the `errno` it leaves (0 or `ERANGE`).  Leading white
space, an optional sign and an optional `0x` followed by a digit are skipped;
without any digit the result is 0 with `endptr = nptr`; a negated value wraps
modulo `2^64`; too large a value gives `ULONG_MAX` and `ERANGE`. -/
def strtoul (nptr : List Char) : Nat × List Char × Nat :=
  let s1 := nptr.dropWhile isspace
  let neg := s1.head? = some (Char.ofNat 45)
  let s3 := strtoul_skip_0x (strtoul_skip_sign s1)
  match s3 with
  | [] => (0, nptr, 0)
  | c :: _ =>
    if (hexval c).isSome then
      let r := strtoul_digits s3 0
      if r.1 > ULONG_MAX then (ULONG_MAX, r.2, ERANGE)
      else ((if neg then (2 ^ 64 - r.1) % 2 ^ 64 else r.1), r.2, 0)
    else (0, nptr, 0)

/-- The `while (true)` loop of `parse_hwaddr`: `pos` is the text still to read,
`hwaddr` the bytes stored so far (`byte_count` is their number).  The first
argument bounds the number of iterations; every iteration that continues
consumes a `:`, so `pos.length + 1` iterations always suffice. -/
def parse_hwaddr_loop (realloc_ok : Nat → Bool) :
    Nat → List Char → List Nat → Except Int (List Nat)
  | 0, _, _ => Except.error (-EINVAL)
  | fuel + 1, pos, hwaddr =>
    let r := strtoul pos
    let tmp := r.1 % 2 ^ 32
    if r.2.2 ≠ 0 ∨ tmp > 255 then Except.error (-EINVAL)
    else
      let byte_count := hwaddr.length + 1
      if realloc_ok byte_count = false then Except.error (-ENOMEM)
      else
        let hwaddr := hwaddr ++ [tmp]
        match r.2.1.dropWhile isspace with
        | [] => Except.ok hwaddr
        | c :: rest =>
          if c.toNat = 58 then parse_hwaddr_loop realloc_ok fuel rest hwaddr
          else Except.error (-EINVAL)

/-- The function `parse_hwaddr`: the error, or the bytes stored through
`phwaddr` (`*plen` is their number). -/
def parse_hwaddr (realloc_ok : Nat → Bool) (hwaddr_str : String) :
    Except Int (List Nat) :=
  parse_hwaddr_loop realloc_ok (hwaddr_str.length + 1) hwaddr_str.data []

/-- The function `teamd_check_change_hwaddr`. -/
def teamd_check_change_hwaddr (w : World) (ctx : teamd_context) : Int × List Event :=
  match teamd_cfg_get_str w ctx "['hwaddr']" with
  | Except.error _ => (0, [])
  | Except.ok hwaddr_str =>
    match parse_hwaddr w.realloc_ok hwaddr_str with
    | Except.error err => (err, [Event.log_err "Failed to parse hardware address."])
    | Except.ok hwaddr =>
      let hwaddr_len := hwaddr.length % 2 ^ 32
      if hwaddr_len ≠ ctx.hwaddr_len then
        (-EINVAL, [Event.log_err
          "Passed hardware address has different length (%d) than team device has (%d)."])
      else
        (w.team_hwaddr_set ctx.ifindex hwaddr hwaddr_len,
         [Event.team_hwaddr_set ctx.th ctx.ifindex hwaddr hwaddr_len])

/-! ## Ports and runner -/

/-- The loop body of `teamd_add_ports` over the configured port names; `i` is
the loop counter. -/
def teamd_add_ports_loop (w : World) (th : Option Nat) :
    Nat → List String → Int × List Event
  | _, [] => (0, [])
  | i, port_name :: rest =>
    let ifindex := w.team_ifname2ifindex port_name
    let err := w.team_port_add i ifindex
    if err ≠ 0 then
      (err, [Event.team_ifname2ifindex th port_name, Event.team_port_add th ifindex,
             Event.log_err "Failed to add port \"%s\"."])
    else
      let r := teamd_add_ports_loop w th (i + 1) rest
      (r.1, [Event.team_ifname2ifindex th port_name, Event.team_port_add th ifindex] ++ r.2)

/-- The function `teamd_add_ports`. -/
def teamd_add_ports (w : World) (ctx : teamd_context) : Int × List Event :=
  teamd_add_ports_loop w ctx.th 0 (teamd_for_each_port w ctx)

/-- Last block of `teamd_runner_init`: `if (ctx->runner->init)`. -/
def teamd_runner_init_call (runner : teamd_runner) (ctx : teamd_context)
    (tr : List Event) : Result :=
  match runner.init with
  | some err =>
    if err ≠ 0 then
      ⟨err, ctx, tr ++ [Event.runner_init runner.name, Event.free ctx.runner_priv]⟩
    else ⟨0, ctx, tr ++ [Event.runner_init runner.name]⟩
  | none => ⟨0, ctx, tr⟩

/-- Block `if (ctx->runner->priv_size)` of `teamd_runner_init` and what follows. -/
def teamd_runner_init_priv (w : World) (runner : teamd_runner) (ctx : teamd_context)
    (tr : List Event) : Result :=
  if runner.priv_size ≠ 0 then
    let ctx := { ctx with runner_priv := w.malloc runner.priv_size }
    if ctx.runner_priv = none then ⟨-ENOMEM, ctx, tr ++ [Event.malloc runner.priv_size]⟩
    else teamd_runner_init_call runner ctx (tr ++ [Event.malloc runner.priv_size])
  else teamd_runner_init_call runner ctx tr

/-- The function `teamd_runner_init`. -/
def teamd_runner_init (w : World) (ctx : teamd_context) : Result :=
  match teamd_cfg_get_str w ctx "['runner']" with
  | Except.error err =>
    ⟨err, ctx, [Event.log_err "Failed to get team runner name from config."]⟩
  | Except.ok runner_name =>
    let ctx := { ctx with runner := teamd_find_runner w runner_name }
    match ctx.runner with
    | none => ⟨-ENOENT, ctx, [Event.log_err "No runner named \"%s\" available."]⟩
    | some runner =>
      match runner.team_mode_name with
      | some team_mode_name =>
        let err := w.team_set_mode_name team_mode_name
        if err ≠ 0 then
          ⟨err, ctx, [Event.team_set_mode_name ctx.th team_mode_name,
                      Event.log_err "Failed to set team mode \"%s\"."]⟩
        else
          teamd_runner_init_priv w runner ctx [Event.team_set_mode_name ctx.th team_mode_name]
      | none =>
        teamd_runner_init_priv w runner ctx [Event.log_warn
          "Note \"%s\" runner does not select team mode resulting in no functionality!"]

/-- The function `teamd_runner_fini`: `none` when `ctx->runner` is `NULL` (the
code dereferences it), otherwise the calls made. -/
def teamd_runner_fini (ctx : teamd_context) : Option (List Event) :=
  match ctx.runner with
  | none => none
  | some runner =>
    some ((if runner.fini then [Event.runner_fini runner.name] else []) ++
      [Event.free ctx.runner_priv])

/-! ## Configuration loading -/

/-- The function `load_file`: the value returned, the string stored through
`pstr` if any, and the calls on the file. -/
def load_file (w : World) (filename : String) : Int × Option String × List Event :=
  let io := w.file filename
  match io.fopen_errno with
  | some e => (-(e.val : Int), none, [Event.fopen filename])
  | none =>
    match io.fseek_errno with
    | some e => (-(e.val : Int), none, [Event.fopen filename, Event.fclose filename])
    | none =>
      if io.ftell_errno ≠ 0 then
        (-(io.ftell_errno : Int), none, [Event.fopen filename, Event.fclose filename])
      else if io.malloc_ok = false then
        (-ENOMEM, none, [Event.fopen filename, Event.fclose filename])
      else
        match io.fread with
        | Except.error errno =>
          (-(errno : Int), none, [Event.fopen filename, Event.fclose filename])
        | Except.ok str => (0, some str, [Event.fopen filename, Event.fclose filename])

/-- The second half of `load_config`: parse `ctx->config_text`. -/
def load_config_parse (w : World) (ctx : teamd_context) (tr : List Event) : Result :=
  match ctx.config_text with
  | some text =>
    let ctx := { ctx with config_jso := w.json_tokener_parse text }
    match ctx.config_jso with
    | none =>
      ⟨- EIO, ctx, tr ++ [Event.json_tokener_parse text,
        Event.log_err "Failed to parse configuration."]⟩
    | some _ => ⟨0, ctx, tr ++ [Event.json_tokener_parse text]⟩
  | none =>
    ⟨-ENOENT, ctx, tr ++ [Event.log_err
      "Either configuration file or command line configuration string must be present."]⟩

/-- The function `load_config`. -/
def load_config (w : World) (ctx : teamd_context) : Result :=
  match ctx.config_file with
  | some config_file =>
    match ctx.config_text with
    | some _ =>
      load_config_parse w ctx [Event.log_warn
        "Command line configuration is present, ignoring given config file."]
    | none =>
      let r := load_file w config_file
      let ctx := match r.2.1 with
        | some str => { ctx with config_text := some str }
        | none => ctx
      if r.1 ≠ 0 then
        ⟨r.1, ctx, r.2.2 ++ [Event.log_err "Failed to read file \"%s\"."]⟩
      else load_config_parse w ctx r.2.2
  | none => load_config_parse w ctx []

/-! ## Initialization and shutdown -/

/-- Label `team_free:` of `teamd_init`. -/
def teamd_init_team_free (err : Int) (ctx : teamd_context) (tr : List Event) : Result :=
  ⟨err, ctx, tr ++ [Event.team_free ctx.th]⟩

/-- Label `team_destroy:` of `teamd_init`, falling through to `team_free:`. -/
def teamd_init_team_destroy (err : Int) (ctx : teamd_context) (tr : List Event) : Result :=
  teamd_init_team_free err ctx (tr ++ [Event.team_destroy ctx.th])

/-- Label `runner_fini:` of `teamd_init`, falling through to `team_destroy:`. -/
def teamd_init_runner_fini (err : Int) (ctx : teamd_context) (tr : List Event) :
    Option Result :=
  match teamd_runner_fini ctx with
  | none => none
  | some t => some (teamd_init_team_destroy err ctx (tr ++ t))

/-- The conversion of a `uint32_t` to `int`. -/
def int_of_uint32 (n : Nat) : Int :=
  if n % 2 ^ 32 < 2 ^ 31 then (n % 2 ^ 32 : Nat) else (n % 2 ^ 32 : Nat) - 2 ^ 32

/-- The conversion of an `int` to `uint32_t`. -/
def uint32_of_int (i : Int) : Nat := (i % 2 ^ 32).toNat

/-- The function `teamd_init`; `none` only if a `NULL` runner were
dereferenced. -/
def teamd_init (w : World) (ctx : teamd_context) : Option Result :=
  let r := load_config w ctx
  if r.err ≠ 0 then
    some ⟨r.err, r.ctx, r.trace ++ [Event.log_err "Failed to load config."]⟩
  else
  let ctx := r.ctx
  let tr := r.trace
  match teamd_cfg_get_str w ctx "['device']" with
  | Except.error err =>
    some ⟨err, ctx, tr ++ [Event.log_err "Failed to get team device name."]⟩
  | Except.ok team_name =>
  let ctx := { ctx with th := w.team_alloc }
  let tr := tr ++ [Event.team_alloc]
  if ctx.th = none then
    some ⟨-ENOMEM, ctx, tr ++ [Event.log_err "Team alloc failed."]⟩
  else
  let tr := tr ++ (if ctx.debug ≠ 0 then [Event.team_set_log_priority ctx.th] else [])
    ++ [Event.team_set_log_fn ctx.th]
  let err := if ctx.force_recreate then w.team_recreate team_name
             else w.team_create team_name
  let tr := tr ++ [if ctx.force_recreate then Event.team_recreate ctx.th team_name
                   else Event.team_create ctx.th team_name]
  if err ≠ 0 then
    some (teamd_init_team_free err ctx
      (tr ++ [Event.log_err "Failed to create team device."]))
  else
  let ctx := { ctx with ifindex := w.team_ifname2ifindex team_name }
  let tr := tr ++ [Event.team_ifname2ifindex ctx.th team_name]
  if ctx.ifindex = 0 then
    some (teamd_init_team_destroy (-ENOENT) ctx
      (tr ++ [Event.log_err "Netdevice \"%s\" not found."]))
  else
  let err := w.team_init ctx.ifindex
  let tr := tr ++ [Event.team_init ctx.th ctx.ifindex]
  if err ≠ 0 then
    some (teamd_init_team_destroy err ctx (tr ++ [Event.log_err "Team init failed."]))
  else
  let ctx := { ctx with hwaddr_len := uint32_of_int (w.team_hwaddr_len_get ctx.ifindex) }
  let tr := tr ++ [Event.team_hwaddr_len_get ctx.th ctx.ifindex]
  if ctx.hwaddr_len < 0 then
    some (teamd_init_team_destroy (int_of_uint32 ctx.hwaddr_len) ctx
      (tr ++ [Event.log_err "Failed to get hardware address length."]))
  else
  let h := teamd_check_change_hwaddr w ctx
  let tr := tr ++ h.2
  if h.1 ≠ 0 then
    some (teamd_init_team_destroy h.1 ctx
      (tr ++ [Event.log_err "Hardware address change failed."]))
  else
  let r := teamd_runner_init w ctx
  let ctx := r.ctx
  let tr := tr ++ r.trace
  if r.err ≠ 0 then
    some (teamd_init_team_destroy r.err ctx (tr ++ [Event.log_err "Failed to init runner."]))
  else
  let p := teamd_add_ports w ctx
  let tr := tr ++ p.2
  if p.1 ≠ 0 then
    teamd_init_runner_fini p.1 ctx (tr ++ [Event.log_err "Failed to add ports."])
  else
  some ⟨0, ctx, tr⟩

/-- The function `teamd_fini`: the calls made, `none` when `ctx->runner` is
`NULL`. -/
def teamd_fini (ctx : teamd_context) : Option (List Event) :=
  match teamd_runner_fini ctx with
  | none => none
  | some t => some (t ++ [Event.team_destroy ctx.th, Event.team_free ctx.th])

/-! ## Main loop -/

/-- One return of `select` in `teamd_run`, with the answers of the calls made
in the pass that follows it. -/
structure wakeup where
  /-- Errno with which `select` fails, if it does. -/
  select_errno : Option Errno
  /-- Whether `sig_fd` is set in the returned descriptor set. -/
  sig_ready : Bool
  /-- Whether `team_event_fd` is set in the returned descriptor set. -/
  event_ready : Bool
  /-- Value `daemon_signal_next` returns. -/
  sig : Int
  /-- Value of `errno` after `daemon_signal_next` failed. -/
  sig_errno : Nat
  /-- Value `team_process_event` returns. -/
  process_event : Int
  deriving DecidableEq

/-- The `while (!quit)` loop of `teamd_run` over the wake-ups still to come:
the value returned (`none` while the loop is blocked in `select` with no
wake-up left) and the calls made. -/
def teamd_run_loop (th : Option Nat) : Bool → List wakeup → Option Int × List Event
  | true, _ => (some 0, [])
  | false, [] => (none, [])
  | false, wk :: rest =>
    match wk.select_errno with
    | some errno =>
      if errno.val = EINTR then
        let r := teamd_run_loop th false rest
        (r.1, Event.select :: r.2)
      else (some (-(errno.val : Int)), [Event.select, Event.log_err "select() failed."])
    | none =>
      if wk.sig_ready ∧ wk.sig ≤ 0 then
        (some (-(wk.sig_errno : Int)),
         [Event.select, Event.daemon_signal_next,
          Event.log_err "daemon_signal_next() failed."])
      else
        let quit : Bool := wk.sig_ready ∧ (wk.sig = SIGINT ∨ wk.sig = SIGQUIT ∨ wk.sig = SIGTERM)
        let sig_tr : List Event :=
          if wk.sig_ready then
            Event.daemon_signal_next ::
              (if wk.sig = SIGINT ∨ wk.sig = SIGQUIT ∨ wk.sig = SIGTERM
               then [Event.log_warn "Got SIGINT, SIGQUIT or SIGTERM."] else [])
          else []
        let ev_tr : List Event :=
          if wk.event_ready then [Event.team_process_event th] else []
        let r := teamd_run_loop th quit rest
        (r.1, Event.select :: (sig_tr ++ ev_tr ++ r.2))

/-- The function `teamd_run`. -/
def teamd_run (ctx : teamd_context) (wakeups : List wakeup) : Option Int × List Event :=
  teamd_run_loop ctx.th false wakeups


/-! ## Starting the daemon -/

def EXIT_SUCCESS : Int := 0
def EXIT_FAILURE : Int := 1

/-- Answers of libdaemon and of the process environment to `teamd_start` and
`main`.  A failing call leaves a positive `errno`; `daemon_log` preserves
`errno`, `daemon_retval_send` may replace it. -/
structure daemon_world where
  /-- Value of `getuid()`. -/
  getuid : Nat
  /-- Errno with which `daemon_reset_sigs` fails, if it does. -/
  reset_sigs_errno : Option Errno
  /-- Errno with which `daemon_unblock_sigs` fails, if it does. -/
  unblock_sigs_errno : Option Errno
  /-- Value `daemon_pid_file_is_running` returns. -/
  pid_file_is_running : Int
  /-- Value `daemon_fork` returns. -/
  fork : Int
  /-- Value of `errno` read after a failed `daemon_fork`. -/
  fork_errno : Nat
  /-- Value `daemon_retval_wait` returns in the parent. -/
  retval_wait : Int
  /-- Value of `errno` read after a failed `daemon_retval_wait`. -/
  retval_wait_errno : Nat
  /-- Errno with which `daemon_close_all` fails, if it does. -/
  close_all_errno : Option Errno
  /-- Errno with which `daemon_pid_file_create` fails, if it does. -/
  pid_file_create_errno : Option Errno
  /-- Errno with which `daemon_signal_init` fails, if it does. -/
  signal_init_errno : Option Errno
  /-- Errno a failing `daemon_retval_send` leaves (`none`: `errno` unchanged). -/
  retval_send_errno : Option Errno
  /-- Value `daemon_pid_file_kill_wait` returns. -/
  kill_wait : Int
  /-- Whether the `malloc` of `teamd_context_init` succeeds. -/
  context_malloc_ok : Bool
  /-- Wake-ups of `select` once the daemon runs. -/
  wakeups : List wakeup

/-- Value of `-errno` read after `daemon_retval_send(errno)`. -/
def neg_errno_after_send (d : daemon_world) (e : Errno) : Int :=
  match d.retval_send_errno with
  | some e2 => -(e2.val : Int)
  | none => -(e.val : Int)

/-- The part of `teamd_start` from `daemon_close_all` on (run by the process
itself, or by the child after `daemon_fork`); `none` when it does not
return. -/
def teamd_start_child (d : daemon_world) (w : World) (ctx : teamd_context) :
    Option Result :=
  match d.close_all_errno with
  | some e =>
    some ⟨neg_errno_after_send d e, ctx,
      [Event.daemon_close_all, Event.log_err "Failed to close all file descriptors.",
       Event.daemon_retval_send e.val]⟩
  | none =>
  match d.pid_file_create_errno with
  | some e =>
    some ⟨neg_errno_after_send d e, ctx,
      [Event.daemon_close_all, Event.daemon_pid_file_create,
       Event.log_err "Could not create PID file.", Event.daemon_retval_send e.val]⟩
  | none =>
  match d.signal_init_errno with
  | some e =>
    some ⟨neg_errno_after_send d e, ctx,
      [Event.daemon_close_all, Event.daemon_pid_file_create, Event.daemon_signal_init,
       Event.log_err "Could not register signal handlers.", Event.daemon_retval_send e.val,
       Event.daemon_pid_file_remove]⟩
  | none =>
  match teamd_init w ctx with
  | none => none
  | some r =>
    let tr := [Event.daemon_close_all, Event.daemon_pid_file_create,
      Event.daemon_signal_init] ++ r.trace
    if r.err ≠ 0 then
      some ⟨r.err, r.ctx, tr ++
        [Event.log_err "teamd_init() failed.", Event.daemon_retval_send (-r.err),
         Event.daemon_signal_done, Event.daemon_pid_file_remove]⟩
    else
      let run := teamd_run r.ctx d.wakeups
      match run.1 with
      | none => none
      | some err =>
        match teamd_fini r.ctx with
        | none => none
        | some fini =>
          some ⟨err, r.ctx, tr ++ [Event.daemon_retval_send 0] ++ run.2 ++ fini ++
            [Event.daemon_signal_done, Event.daemon_pid_file_remove]⟩

/-- The calls of `teamd_start` before it may daemonize. -/
def teamd_start_checks : List Event :=
  [Event.daemon_reset_sigs, Event.daemon_unblock_sigs, Event.daemon_pid_file_is_running]

/-- The function `teamd_start`; `none` when it does not return. -/
def teamd_start (d : daemon_world) (w : World) (ctx : teamd_context) : Option Result :=
  if d.getuid ≠ 0 then
    some ⟨-EPERM, ctx, [Event.log_err "This program is intended to be run as root."]⟩
  else
  match d.reset_sigs_errno with
  | some e =>
    some ⟨-(e.val : Int), ctx,
      [Event.daemon_reset_sigs, Event.log_err "Failed to reset all signal handlers."]⟩
  | none =>
  match d.unblock_sigs_errno with
  | some e =>
    some ⟨-(e.val : Int), ctx,
      [Event.daemon_reset_sigs, Event.daemon_unblock_sigs,
       Event.log_err "Failed to unblock all signals."]⟩
  | none =>
  if d.pid_file_is_running ≥ 0 then
    some ⟨-EEXIST, ctx,
      teamd_start_checks ++ [Event.log_err "Daemon already running on PID %u."]⟩
  else
  if ctx.daemonize then
    if d.fork < 0 then
      some ⟨-(d.fork_errno : Int), ctx,
        teamd_start_checks ++ [Event.daemon_retval_init, Event.daemon_fork,
          Event.log_err "Daemon fork failed.", Event.daemon_retval_done]⟩
    else if d.fork ≠ 0 then
      if d.retval_wait < 0 then
        some ⟨-(d.retval_wait_errno : Int), ctx,
          teamd_start_checks ++ [Event.daemon_retval_init, Event.daemon_fork,
            Event.daemon_retval_wait,
            Event.log_err "Could not receive return value from daemon process."]⟩
      else
        some ⟨-d.retval_wait, ctx,
          teamd_start_checks ++ [Event.daemon_retval_init, Event.daemon_fork,
            Event.daemon_retval_wait] ++
            (if d.retval_wait > 0 then [Event.log_err "Daemon process failed."] else [])⟩
    else
      match teamd_start_child d w ctx with
      | none => none
      | some r =>
        some { r with trace := teamd_start_checks ++
          [Event.daemon_retval_init, Event.daemon_fork] ++ r.trace }
  else
    match teamd_start_child d w ctx with
    | none => none
    | some r => some { r with trace := teamd_start_checks ++ r.trace }

/-! ## Command line -/

/-- One entry of the `long_options` table: name, whether it takes an argument
(`required_argument`) and the value returned for it. -/
structure long_option where
  name : String
  has_arg : Bool
  val : Char
  deriving DecidableEq, Repr

/-- The `long_options` table of `parse_command_line`. -/
def long_options : List long_option :=
  [⟨"help", false, 'h'⟩, ⟨"daemonize", false, 'd'⟩, ⟨"kill", false, 'k'⟩,
   ⟨"check", false, 'e'⟩, ⟨"version", false, 'v'⟩, ⟨"config-file", true, 'f'⟩,
   ⟨"config", true, 'c'⟩, ⟨"pid-file", true, 'p'⟩, ⟨"debug", false, 'g'⟩,
   ⟨"force-recreate", false, 'r'⟩]

/-- The option string handed to `getopt_long`. -/
def optstring : String := "hdkevf:c:p:gr"

/-- Lookup of a short option in an option string: `none` when the character is
not an option, otherwise whether it takes an argument (a `:` follows it). -/
def optstring_lookup : List Char → Char → Option Bool
  | [], _ => none
  | o :: rest, c =>
    if o = c ∧ c ≠ ':' then some (rest.head? = some ':')
    else optstring_lookup rest c

/-- Lookup of a long option name: an exact match, or else the only entry the
name abbreviates. -/
def long_option_lookup (opts : List long_option) (name : String) : Option long_option :=
  match opts.filter (fun o => o.name = name) with
  | o :: _ => some o
  | [] =>
    match opts.filter (fun o => name.data.isPrefixOf o.name.data) with
    | [o] => some o
    | _ => none

/-- What `getopt_long` returns for the characters of one cluster of short
options (the argument without its leading `-`), followed by the arguments
still to scan.  An unknown option or a missing argument gives `?`. -/
def getopt_short (os : List Char) :
    List Char → List String → List (Char × Option String) × List String
  | [], rest => ([], rest)
  | c :: cs, rest =>
    match optstring_lookup os c with
    | none =>
      let r := getopt_short os cs rest
      (('?', none) :: r.1, r.2)
    | some false =>
      let r := getopt_short os cs rest
      ((c, none) :: r.1, r.2)
    | some true =>
      if cs ≠ [] then ([(c, some (String.mk cs))], rest)
      else
        match rest with
        | a :: rest2 => ([(c, some a)], rest2)
        | [] => ([('?', none)], [])

/-- What `getopt_long` returns for one long option (the argument without its
leading `--`), followed by the arguments still to scan. -/
def getopt_long_option (opts : List long_option) (body : List Char) (rest : List String) :
    (Char × Option String) × List String :=
  let name := String.mk (body.takeWhile (fun c => c ≠ '='))
  let value : Option String :=
    match body.dropWhile (fun c => c ≠ '=') with
    | [] => none
    | _ :: v => some (String.mk v)
  match long_option_lookup opts name with
  | none => (('?', none), rest)
  | some o =>
    if o.has_arg then
      match value with
      | some v => ((o.val, some v), rest)
      | none =>
        match rest with
        | a :: rest2 => ((o.val, some a), rest2)
        | [] => (('?', none), [])
    else
      match value with
      | some _ => (('?', none), rest)
      | none => ((o.val, none), rest)

/-- The libc function `getopt_long` (GNU, permuting) run over the arguments
after `argv[0]`: the values it returns in turn with their `optarg`, and
whether an argument is left that is not an option (`optind < argc` at the
end).  The bound is the number of arguments still to scan. -/
def getopt_long (os : List Char) (opts : List long_option) :
    Nat → List String → List (Char × Option String) × Bool
  | 0, _ => ([], false)
  | _ + 1, [] => ([], false)
  | fuel + 1, arg :: rest =>
    match arg.data with
    | '-' :: '-' :: [] => ([], decide (rest ≠ []))
    | '-' :: '-' :: body =>
      let r := getopt_long_option opts body rest
      let t := getopt_long os opts fuel r.2
      (r.1 :: t.1, t.2)
    | '-' :: c :: cs =>
      let r := getopt_short os (c :: cs) rest
      let t := getopt_long os opts fuel r.2
      (r.1 ++ t.1, t.2)
    | _ =>
      let t := getopt_long os opts fuel rest
      (t.1, true)

/-- Answers of libc to `parse_command_line`. -/
structure cmdline_world where
  /-- Result of `realpath(optarg, NULL)`. -/
  realpath : String → Option String
  /-- Result of `strdup(optarg)`. -/
  strdup : String → Option String

/-- The `switch` of `parse_command_line` run over the values `getopt_long`
returns: the context, the calls made, and whether the `default` case was
reached. -/
def parse_command_line_loop (c : cmdline_world) :
    List (Char × Option String) → teamd_context → teamd_context × List Event × Bool
  | [], ctx => (ctx, [], false)
  | (opt, optarg) :: rest, ctx =>
    if opt = 'h' then
      parse_command_line_loop c rest { ctx with cmd := teamd_command.DAEMON_CMD_HELP }
    else if opt = 'd' then parse_command_line_loop c rest { ctx with daemonize := true }
    else if opt = 'k' then
      parse_command_line_loop c rest { ctx with cmd := teamd_command.DAEMON_CMD_KILL }
    else if opt = 'e' then
      parse_command_line_loop c rest { ctx with cmd := teamd_command.DAEMON_CMD_CHECK }
    else if opt = 'v' then
      parse_command_line_loop c rest { ctx with cmd := teamd_command.DAEMON_CMD_VERSION }
    else if opt = 'f' then
      let config_file := c.realpath (optarg.getD "")
      let r := parse_command_line_loop c rest { ctx with config_file := config_file }
      if config_file = none then
        (r.1, Event.stderr "Failed to get absolute path of \"%s\": %s\n" :: r.2.1, r.2.2)
      else r
    else if opt = 'c' then
      parse_command_line_loop c rest { ctx with config_text := c.strdup (optarg.getD "") }
    else if opt = 'p' then
      parse_command_line_loop c rest { ctx with pid_file := c.strdup (optarg.getD "") }
    else if opt = 'g' then parse_command_line_loop c rest { ctx with debug := 1 }
    else if opt = 'r' then parse_command_line_loop c rest { ctx with force_recreate := true }
    else (ctx, [], true)

/-- The function `parse_command_line`; `argv` includes `argv[0]`. -/
def parse_command_line (c : cmdline_world) (ctx : teamd_context) (argv : List String) :
    Result :=
  let g := getopt_long optstring.data long_options argv.tail.length argv.tail
  let r := parse_command_line_loop c g.1 ctx
  if r.2.2 then ⟨-1, r.1, r.2.1⟩
  else if g.2 then ⟨-1, r.1, r.2.1 ++ [Event.stderr "Too many arguments\n"]⟩
  else ⟨0, r.1, r.2.1⟩

/-- The function `main`: exit status and calls made; `none` when it does not
return.  The identity `daemon_ident_from_argv0` derives is kept as `argv[0]`. -/
def main (d : daemon_world) (w : World) (c : cmdline_world) (argv : List String) :
    Option (Int × List Event) :=
  if d.context_malloc_ok = false then
    some (EXIT_FAILURE, [Event.stderr "Failed to init daemon context\n"])
  else
    let p := parse_command_line c teamd_context_zero argv
    if p.err ≠ 0 then some (EXIT_FAILURE, p.trace)
    else
      let ctx := { p.ctx with argv0 := argv.head? }
      match ctx.cmd with
      | teamd_command.DAEMON_CMD_HELP => some (EXIT_SUCCESS, p.trace ++ [Event.print_help])
      | teamd_command.DAEMON_CMD_VERSION => some (0, p.trace ++ [Event.print_version])
      | teamd_command.DAEMON_CMD_KILL =>
        if d.kill_wait ≠ 0 then
          some (EXIT_FAILURE, p.trace ++
            [Event.daemon_pid_file_kill_wait, Event.log_warn "Failed to kill daemon: %s"])
        else some (EXIT_SUCCESS, p.trace ++ [Event.daemon_pid_file_kill_wait])
      | teamd_command.DAEMON_CMD_CHECK =>
        some ((if d.pid_file_is_running ≥ 0 then 0 else 1),
          p.trace ++ [Event.daemon_pid_file_is_running])
      | teamd_command.DAEMON_CMD_RUN =>
        match teamd_start d w ctx with
        | none => none
        | some r =>
          if r.err ≠ 0 then
            some (EXIT_FAILURE, p.trace ++ r.trace ++
              [Event.log_err "Failed to start daemon: %s"])
          else some (EXIT_SUCCESS, p.trace ++ r.trace)

/-! ## Checkpoints of `teamd_init`

The context and the trace `teamd_init` has built when it reaches each of its
stages, written out so that statements about a run can name them. -/

/-- The exits of `teamd_init`, in source order. -/
inductive Stage where
  | load_config
  | device_name
  | team_alloc
  | team_create
  | ifindex
  | team_init
  | hwaddr_len
  | hwaddr_reconcile
  | runner_init
  | add_ports
  deriving DecidableEq, Repr

/-- The diagnostic `teamd_init` logs when it leaves through an exit. -/
def Stage.message : Stage → String
  | Stage.load_config => "Failed to load config."
  | Stage.device_name => "Failed to get team device name."
  | Stage.team_alloc => "Team alloc failed."
  | Stage.team_create => "Failed to create team device."
  | Stage.ifindex => "Netdevice \"%s\" not found."
  | Stage.team_init => "Team init failed."
  | Stage.hwaddr_len => "Failed to get hardware address length."
  | Stage.hwaddr_reconcile => "Hardware address change failed."
  | Stage.runner_init => "Failed to init runner."
  | Stage.add_ports => "Failed to add ports."

/-- A release call: the runner finalizer, `team_destroy` or `team_free`. -/
def Event.is_release : Event → Bool
  | Event.runner_fini _ => true
  | Event.team_destroy _ => true
  | Event.team_free _ => true
  | _ => false

/-- One of the diagnostics of `Stage.message`. -/
def Event.is_exit_message : Event → Bool
  | Event.log_err m =>
    m = "Failed to load config." || m = "Failed to get team device name." ||
    m = "Team alloc failed." || m = "Failed to create team device." ||
    m = "Netdevice \"%s\" not found." || m = "Team init failed." ||
    m = "Failed to get hardware address length." ||
    m = "Hardware address change failed." || m = "Failed to init runner." ||
    m = "Failed to add ports."
  | _ => false

/-- A kernel port add request. -/
def Event.is_port_add : Event → Bool
  | Event.team_port_add _ _ => true
  | _ => false

/-- A hardware address change request. -/
def Event.is_hwaddr_set : Event → Bool
  | Event.team_hwaddr_set _ _ _ _ => true
  | _ => false

/-- A call or diagnostic of `teamd_start` itself. -/
def Event.is_start_event : Event → Bool
  | Event.daemon_reset_sigs => true
  | Event.daemon_unblock_sigs => true
  | Event.daemon_pid_file_is_running => true
  | Event.daemon_retval_init => true
  | Event.daemon_fork => true
  | Event.daemon_retval_done => true
  | Event.daemon_retval_wait => true
  | Event.daemon_retval_send _ => true
  | Event.daemon_close_all => true
  | Event.daemon_pid_file_create => true
  | Event.daemon_pid_file_remove => true
  | Event.daemon_signal_init => true
  | Event.daemon_signal_done => true
  | Event.log_err m => m = "teamd_init() failed."
  | _ => false

/-- An event that is none of the above. -/
def Event.plain (e : Event) : Bool :=
  !(e.is_release || e.is_exit_message || e.is_port_add || e.is_hwaddr_set) &&
    !e.is_start_event

/-- The trace holds no release call and no exit diagnostic. -/
def quiet (tr : List Event) : Prop :=
  ∀ e ∈ tr, e.is_release = false ∧ e.is_exit_message = false

/-- Every event of the list is plain, up to the exceptions `ex` allows. -/
def all_plain_or (ex : Event → Bool) (tr : List Event) : Prop :=
  ∀ e ∈ tr, e.plain = true ∨ ex e = true

/-- The kernel port add requests of a trace, in order. -/
def port_add_calls (tr : List Event) : List Event := tr.filter Event.is_port_add

/-- Context after `load_config`. -/
def at_config (w : World) (ctx : teamd_context) : teamd_context := (load_config w ctx).ctx

/-- Context after `team_alloc`. -/
def at_alloc (w : World) (ctx : teamd_context) : teamd_context :=
  { at_config w ctx with th := w.team_alloc }

/-- Context after the interface index of the device was stored. -/
def at_ifindex (w : World) (ctx : teamd_context) (team_name : String) : teamd_context :=
  { at_alloc w ctx with ifindex := w.team_ifname2ifindex team_name }

/-- Context after the hardware-address length was stored. -/
def at_hwaddr_len (w : World) (ctx : teamd_context) (team_name : String) : teamd_context :=
  { at_ifindex w ctx team_name with
    hwaddr_len := uint32_of_int (w.team_hwaddr_len_get (w.team_ifname2ifindex team_name)) }

/-- Context after `teamd_runner_init`. -/
def at_runner (w : World) (ctx : teamd_context) (team_name : String) : teamd_context :=
  (teamd_runner_init w (at_hwaddr_len w ctx team_name)).ctx

/-- Value of `err` after the device was created or recreated. -/
def create_err (w : World) (ctx : teamd_context) (team_name : String) : Int :=
  if ctx.force_recreate then w.team_recreate team_name else w.team_create team_name

/-- Calls made up to and including the creation of the device. -/
def upto_create (w : World) (ctx : teamd_context) (team_name : String) : List Event :=
  (load_config w ctx).trace ++ [Event.team_alloc]
    ++ (if ctx.debug ≠ 0 then [Event.team_set_log_priority w.team_alloc] else [])
    ++ [Event.team_set_log_fn w.team_alloc]
    ++ [if ctx.force_recreate then Event.team_recreate w.team_alloc team_name
        else Event.team_create w.team_alloc team_name]

/-- Calls made up to and including the query of the hardware-address length. -/
def upto_hwaddr_len (w : World) (ctx : teamd_context) (team_name : String) : List Event :=
  upto_create w ctx team_name ++
    [Event.team_ifname2ifindex w.team_alloc team_name,
     Event.team_init w.team_alloc (w.team_ifname2ifindex team_name),
     Event.team_hwaddr_len_get w.team_alloc (w.team_ifname2ifindex team_name)]

/-- Calls made up to and including `teamd_check_change_hwaddr`. -/
def upto_hwaddr (w : World) (ctx : teamd_context) (team_name : String) : List Event :=
  upto_hwaddr_len w ctx team_name ++
    (teamd_check_change_hwaddr w (at_hwaddr_len w ctx team_name)).2

/-- Calls made up to and including `teamd_runner_init`. -/
def upto_runner (w : World) (ctx : teamd_context) (team_name : String) : List Event :=
  upto_hwaddr w ctx team_name ++ (teamd_runner_init w (at_hwaddr_len w ctx team_name)).trace

/-- Calls made up to and including `teamd_add_ports`. -/
def upto_ports (w : World) (ctx : teamd_context) (team_name : String) : List Event :=
  upto_runner w ctx team_name ++ (teamd_add_ports w (at_runner w ctx team_name)).2

/-- The release calls each exit of `teamd_init` makes after its diagnostic:
the rollback table of the lifecycle controller. -/
def Stage.rollback (ctx : teamd_context) : Stage → List Event
  | Stage.load_config => []
  | Stage.device_name => []
  | Stage.team_alloc => []
  | Stage.team_create => [Event.team_free ctx.th]
  | Stage.ifindex => [Event.team_destroy ctx.th, Event.team_free ctx.th]
  | Stage.team_init => [Event.team_destroy ctx.th, Event.team_free ctx.th]
  | Stage.hwaddr_len => [Event.team_destroy ctx.th, Event.team_free ctx.th]
  | Stage.hwaddr_reconcile => [Event.team_destroy ctx.th, Event.team_free ctx.th]
  | Stage.runner_init => [Event.team_destroy ctx.th, Event.team_free ctx.th]
  | Stage.add_ports =>
    (teamd_runner_fini ctx).getD [] ++ [Event.team_destroy ctx.th, Event.team_free ctx.th]

/-- The value an exit of `teamd_init` returns is the error of its stage; `ctx0`
is the context the run started from, `r` what it returned. -/
def Stage.returns (w : World) (ctx0 : teamd_context) (r : Result) : Stage → Prop
  | Stage.load_config => r.err = (Teamd.load_config w ctx0).err
  | Stage.device_name => teamd_cfg_get_str w r.ctx "['device']" = Except.error r.err
  | Stage.team_alloc => r.err = -ENOMEM ∧ w.team_alloc = none
  | Stage.team_create =>
    ∃ team_name, teamd_cfg_get_str w r.ctx "['device']" = Except.ok team_name ∧
      r.err = create_err w ctx0 team_name
  | Stage.ifindex => r.err = -ENOENT ∧ r.ctx.ifindex = 0
  | Stage.team_init => r.err = w.team_init r.ctx.ifindex
  | Stage.hwaddr_len => r.err = int_of_uint32 r.ctx.hwaddr_len
  | Stage.hwaddr_reconcile => r.err = (teamd_check_change_hwaddr w r.ctx).1
  | Stage.runner_init =>
    r.err = (teamd_runner_init w
      { r.ctx with runner := ctx0.runner, runner_priv := ctx0.runner_priv }).err
  | Stage.add_ports => r.err = (teamd_add_ports w r.ctx).1

/-- The run got past the creation of the device. -/
def created (w : World) (ctx : teamd_context) (team_name : String) : Prop :=
  (load_config w ctx).err = 0 ∧
  teamd_cfg_get_str w (at_config w ctx) "['device']" = Except.ok team_name ∧
  w.team_alloc ≠ none ∧ create_err w ctx team_name = 0

/-- The run got past the stores of interface index and hardware-address length. -/
def device_ready (w : World) (ctx : teamd_context) (team_name : String) : Prop :=
  created w ctx team_name ∧ w.team_ifname2ifindex team_name ≠ 0 ∧
  w.team_init (w.team_ifname2ifindex team_name) = 0

/-- The paths through `teamd_init`: the exit taken (`none` for `return 0`) and
the result returned. -/
inductive init_path (w : World) (ctx : teamd_context) : Option Stage → Result → Prop
  | load_config (h : (load_config w ctx).err ≠ 0) :
      init_path w ctx (some Stage.load_config)
        ⟨(load_config w ctx).err, at_config w ctx,
         (load_config w ctx).trace ++ [Event.log_err "Failed to load config."]⟩
  | device_name (err : Int) (h : (load_config w ctx).err = 0)
      (hd : teamd_cfg_get_str w (at_config w ctx) "['device']" = Except.error err) :
      init_path w ctx (some Stage.device_name)
        ⟨err, at_config w ctx,
         (load_config w ctx).trace ++ [Event.log_err "Failed to get team device name."]⟩
  | team_alloc (team_name : String) (h : (load_config w ctx).err = 0)
      (hd : teamd_cfg_get_str w (at_config w ctx) "['device']" = Except.ok team_name)
      (ha : w.team_alloc = none) :
      init_path w ctx (some Stage.team_alloc)
        ⟨-ENOMEM, at_alloc w ctx,
         (load_config w ctx).trace ++ [Event.team_alloc, Event.log_err "Team alloc failed."]⟩
  | team_create (team_name : String) (h : (load_config w ctx).err = 0)
      (hd : teamd_cfg_get_str w (at_config w ctx) "['device']" = Except.ok team_name)
      (ha : w.team_alloc ≠ none) (hc : create_err w ctx team_name ≠ 0) :
      init_path w ctx (some Stage.team_create)
        ⟨create_err w ctx team_name, at_alloc w ctx,
         upto_create w ctx team_name ++
           [Event.log_err "Failed to create team device.", Event.team_free w.team_alloc]⟩
  | ifindex (team_name : String) (h : created w ctx team_name)
      (hi : w.team_ifname2ifindex team_name = 0) :
      init_path w ctx (some Stage.ifindex)
        ⟨-ENOENT, at_ifindex w ctx team_name,
         upto_create w ctx team_name ++
           [Event.team_ifname2ifindex w.team_alloc team_name,
            Event.log_err "Netdevice \"%s\" not found.",
            Event.team_destroy w.team_alloc, Event.team_free w.team_alloc]⟩
  | team_init (team_name : String) (h : created w ctx team_name)
      (hi : w.team_ifname2ifindex team_name ≠ 0)
      (ht : w.team_init (w.team_ifname2ifindex team_name) ≠ 0) :
      init_path w ctx (some Stage.team_init)
        ⟨w.team_init (w.team_ifname2ifindex team_name), at_ifindex w ctx team_name,
         upto_create w ctx team_name ++
           [Event.team_ifname2ifindex w.team_alloc team_name,
            Event.team_init w.team_alloc (w.team_ifname2ifindex team_name),
            Event.log_err "Team init failed.",
            Event.team_destroy w.team_alloc, Event.team_free w.team_alloc]⟩
  | hwaddr_reconcile (team_name : String) (h : device_ready w ctx team_name)
      (hh : (teamd_check_change_hwaddr w (at_hwaddr_len w ctx team_name)).1 ≠ 0) :
      init_path w ctx (some Stage.hwaddr_reconcile)
        ⟨(teamd_check_change_hwaddr w (at_hwaddr_len w ctx team_name)).1,
         at_hwaddr_len w ctx team_name,
         upto_hwaddr w ctx team_name ++
           [Event.log_err "Hardware address change failed.",
            Event.team_destroy w.team_alloc, Event.team_free w.team_alloc]⟩
  | runner_init (team_name : String) (h : device_ready w ctx team_name)
      (hh : (teamd_check_change_hwaddr w (at_hwaddr_len w ctx team_name)).1 = 0)
      (hr : (teamd_runner_init w (at_hwaddr_len w ctx team_name)).err ≠ 0) :
      init_path w ctx (some Stage.runner_init)
        ⟨(teamd_runner_init w (at_hwaddr_len w ctx team_name)).err,
         at_runner w ctx team_name,
         upto_runner w ctx team_name ++
           [Event.log_err "Failed to init runner.",
            Event.team_destroy w.team_alloc, Event.team_free w.team_alloc]⟩
  | add_ports (team_name : String) (fini : List Event) (h : device_ready w ctx team_name)
      (hh : (teamd_check_change_hwaddr w (at_hwaddr_len w ctx team_name)).1 = 0)
      (hr : (teamd_runner_init w (at_hwaddr_len w ctx team_name)).err = 0)
      (hp : (teamd_add_ports w (at_runner w ctx team_name)).1 ≠ 0)
      (hf : teamd_runner_fini (at_runner w ctx team_name) = some fini) :
      init_path w ctx (some Stage.add_ports)
        ⟨(teamd_add_ports w (at_runner w ctx team_name)).1, at_runner w ctx team_name,
         upto_ports w ctx team_name ++ Event.log_err "Failed to add ports." :: fini ++
           [Event.team_destroy w.team_alloc, Event.team_free w.team_alloc]⟩
  | success (team_name : String) (h : device_ready w ctx team_name)
      (hh : (teamd_check_change_hwaddr w (at_hwaddr_len w ctx team_name)).1 = 0)
      (hr : (teamd_runner_init w (at_hwaddr_len w ctx team_name)).err = 0)
      (hp : (teamd_add_ports w (at_runner w ctx team_name)).1 = 0) :
      init_path w ctx none ⟨0, at_runner w ctx team_name, upto_ports w ctx team_name⟩


/-! ## The textual form of a hardware address -/

/-- The hexadecimal digit of a value below 16, in lower or upper case. -/
def hexdigit (upper : Bool) (d : Nat) : Char :=
  if d < 10 then Char.ofNat (48 + d)
  else if upper then Char.ofNat (55 + d) else Char.ofNat (87 + d)

/-- The two-digit hexadecimal rendering of a byte. -/
def hex2 (upper : Bool) (b : Nat) : List Char :=
  [hexdigit upper (b / 16), hexdigit upper (b % 16)]

/-- The usual textual form of a hardware address: the two-digit renderings of
its bytes joined by `:`. -/
def hwaddr_text (upper : Bool) : List Nat → List Char
  | [] => []
  | [b] => hex2 upper b
  | b :: b2 :: bs => hex2 upper b ++ Char.ofNat 58 :: hwaddr_text upper (b2 :: bs)

/-! ## Vocabulary for `teamd_start` -/

/-- The trace holds no call or diagnostic of `teamd_start` itself. -/
def no_start (tr : List Event) : Prop := ∀ e ∈ tr, e.is_start_event = false

/-- A `daemon_retval_send` call. -/
def Event.is_retval_send : Event → Bool
  | Event.daemon_retval_send _ => true
  | _ => false

/-- The `daemon_retval_send` calls of a trace, in order. -/
def retval_sends (tr : List Event) : List Event := tr.filter Event.is_retval_send

/-- A call made by the part of `teamd_start` from `daemon_close_all` on. -/
def Event.is_child_call : Event → Bool
  | Event.daemon_retval_send _ => true
  | Event.daemon_close_all => true
  | Event.daemon_pid_file_create => true
  | Event.daemon_pid_file_remove => true
  | Event.daemon_signal_init => true
  | Event.daemon_signal_done => true
  | _ => false

/-- The trace holds only calls and diagnostics of `teamd_start` itself, none of
them from `daemon_close_all` on. -/
def before_child (tr : List Event) : Prop :=
  ∀ e ∈ tr, e.is_child_call = false ∧
    (e.is_start_event = true ∨ ∃ m, e = Event.log_err m)

/-! ## Sample inputs -/

/-- A readable configuration file. -/
def sample_io : file_io :=
  { fopen_errno := none, fseek_errno := none, ftell_errno := 0, malloc_ok := true,
    fread := Except.ok "cfg" }

/-- The parsed configuration document. -/
def sample_doc : json_object := ⟨0, json_type.json_type_object, ""⟩

/-- A world in which every call succeeds: device `team0` with runner
`activebackup`, no hardware address configured, ports `p0` and `p1`. -/
def sample_world : World :=
  { vasprintf_errno := fun _ => none
    malloc := fun _ => some 2000
    realloc_ok := fun _ => true
    file := fun _ => sample_io
    json_tokener_parse := fun _ => some sample_doc
    json_object_simple_query := fun _ q =>
      if q = "['device']" then some ⟨1, json_type.json_type_string, "team0"⟩
      else if q = "['runner']" then some ⟨2, json_type.json_type_string, "activebackup"⟩
      else none
    ports := fun _ => ["p0", "p1"]
    team_alloc := some 1000
    team_create := fun _ => 0
    team_recreate := fun _ => 0
    team_ifname2ifindex := fun n =>
      if n = "team0" then 5 else if n = "p0" then 2 else if n = "p1" then 3 else 0
    team_init := fun _ => 0
    team_hwaddr_len_get := fun _ => 6
    team_hwaddr_set := fun _ _ _ => 0
    team_set_mode_name := fun _ => 0
    team_port_add := fun _ _ => 0
    teamd_runner_list :=
      [⟨"dummy", none, 0, none, false⟩,
       ⟨"roundrobin", some "roundrobin", 0, none, false⟩,
       ⟨"activebackup", some "activebackup", 16, some 0, true⟩] }

/-- A fresh context with a configuration file given. -/
def sample_ctx : teamd_context :=
  { teamd_context_zero with config_file := some "/etc/teamd.conf" }

/-- A context of a running daemon. -/
def running_ctx : teamd_context :=
  { sample_ctx with th := some 1000,
                    runner := some ⟨"activebackup", some "activebackup", 16, some 0, true⟩,
                    runner_priv := some 2000, ifindex := 5, hwaddr_len := 6 }

/-- A wake-up with only the device event source ready; processing succeeds. -/
def wake_event : wakeup :=
  { select_errno := none, sig_ready := false, event_ready := true, sig := 0,
    sig_errno := 0, process_event := 0 }

/-- A wake-up with only the device event source ready; processing fails. -/
def wake_event_fail : wakeup := { wake_event with process_event := -1 }

/-- A wake-up delivering `SIGTERM` while the device event source is ready. -/
def wake_term : wakeup :=
  { select_errno := none, sig_ready := true, event_ready := true, sig := 15,
    sig_errno := 0, process_event := 0 }

/-- A wake-up in which `select` was interrupted. -/
def wake_eintr : wakeup :=
  { select_errno := some ⟨4, by decide⟩, sig_ready := false, event_ready := false, sig := 0,
    sig_errno := 0, process_event := 0 }

/-- A wake-up in which `select` failed with `EBADF`. -/
def wake_ebadf : wakeup :=
  { select_errno := some ⟨9, by decide⟩, sig_ready := false, event_ready := false, sig := 0,
    sig_errno := 0, process_event := 0 }

/-- The sample world with a configuration naming the runner `X`, which is not
in the runner list. -/
def sample_world_unknown_runner : World :=
  { sample_world with
    json_object_simple_query := fun _ q =>
      if q = "['device']" then some ⟨1, json_type.json_type_string, "team0"⟩
      else if q = "['runner']" then some ⟨2, json_type.json_type_string, "X"⟩
      else none }

/-- The sample world in which the kernel refuses the second port add. -/
def sample_world_port_fails : World :=
  { sample_world with team_port_add := fun i _ => if i = 1 then -16 else 0 }

/-- The sample world in which the device cannot be created. -/
def sample_world_create_fails : World :=
  { sample_world with team_create := fun _ => -17 }

/-- The sample world in which `team_hwaddr_len_get` fails with `-ENODEV`. -/
def sample_world_hwaddr_len_fails : World :=
  { sample_world with team_hwaddr_len_get := fun _ => -19 }

/-- The sample world with a hardware address configured. -/
def sample_world_hwaddr : World :=
  { sample_world with
    json_object_simple_query := fun _ q =>
      if q = "['device']" then some ⟨1, json_type.json_type_string, "team0"⟩
      else if q = "['runner']" then some ⟨2, json_type.json_type_string, "activebackup"⟩
      else if q = "['hwaddr']" then some ⟨3, json_type.json_type_string, "00:11:22:aa:BB:ff"⟩
      else none }

/-- A command-line world in which paths resolve to themselves and copies
succeed. -/
def sample_cmdline : cmdline_world :=
  { realpath := fun p => some p, strdup := fun s => some s }

/-- A process environment: root, no daemon running yet, every libdaemon call
succeeds, and the daemon receives `SIGTERM` at its second wake-up. -/
def sample_daemon : daemon_world :=
  { getuid := 0, reset_sigs_errno := none, unblock_sigs_errno := none,
    pid_file_is_running := -1, fork := 0, fork_errno := 0, retval_wait := 0,
    retval_wait_errno := 0, close_all_errno := none, pid_file_create_errno := none,
    signal_init_errno := none, retval_send_errno := none, kill_wait := 0,
    context_malloc_ok := true, wakeups := [wake_event, wake_term] }
/-! ## Lemmas on the helpers -/

theorem load_config_parse_ctx (w : World) (ctx : teamd_context) (tr : List Event) :
    (load_config_parse w ctx tr).ctx =
      { ctx with config_jso := (load_config_parse w ctx tr).ctx.config_jso } := by
  unfold load_config_parse
  split
  · simp only []
    split <;> simp
  · simp

theorem load_config_ctx (w : World) (ctx : teamd_context) :
    (load_config w ctx).ctx =
      { ctx with config_text := (load_config w ctx).ctx.config_text,
                 config_jso := (load_config w ctx).ctx.config_jso } := by
  unfold load_config
  split
  · split
    · rw [load_config_parse_ctx]
    · simp only []
      split
      · split <;> simp
      · rw [load_config_parse_ctx]
        split <;> simp
  · rw [load_config_parse_ctx]

theorem load_config_debug (w : World) (ctx : teamd_context) :
    (load_config w ctx).ctx.debug = ctx.debug := by
  rw [load_config_ctx]

theorem load_config_force_recreate (w : World) (ctx : teamd_context) :
    (load_config w ctx).ctx.force_recreate = ctx.force_recreate := by
  rw [load_config_ctx]

/-- Every error value of `teamd_cfg_get_str` is non-zero, so the `if (err)` of
its callers is taken exactly on `Except.error`. -/
theorem teamd_cfg_get_str_err_ne_zero (w : World) (ctx : teamd_context) (query : String)
    (err : Int) (h : teamd_cfg_get_str w ctx query = Except.error err) : err ≠ 0 := by
  unfold teamd_cfg_get_str at h
  split at h
  · rename_i errno _
    have := errno.pos
    simp at h
    omega
  · split at h
    · simp [ENOENT] at h; omega
    · split at h
      · simp [EINVAL] at h; omega
      · simp at h

/-- The query only reads the parsed configuration. -/
theorem teamd_cfg_get_str_congr (w : World) (c1 c2 : teamd_context) (query : String)
    (h : c1.config_jso = c2.config_jso) :
    teamd_cfg_get_str w c1 query = teamd_cfg_get_str w c2 query := by
  unfold teamd_cfg_get_str
  rw [h]

/-- The only field the last block of `teamd_runner_init` could write is none. -/
theorem teamd_runner_init_call_ctx (runner : teamd_runner) (ctx : teamd_context)
    (tr : List Event) : (teamd_runner_init_call runner ctx tr).ctx = ctx := by
  unfold teamd_runner_init_call
  split
  · split <;> rfl
  · rfl

theorem teamd_runner_init_priv_ctx (w : World) (runner : teamd_runner)
    (ctx : teamd_context) (tr : List Event) :
    (teamd_runner_init_priv w runner ctx tr).ctx =
      { ctx with runner_priv := (teamd_runner_init_priv w runner ctx tr).ctx.runner_priv } := by
  unfold teamd_runner_init_priv
  split
  · simp only []
    split
    · rfl
    · rw [teamd_runner_init_call_ctx]
  · rw [teamd_runner_init_call_ctx]

/-- The only fields `teamd_runner_init` writes are `runner` and `runner_priv`. -/
theorem teamd_runner_init_ctx (w : World) (ctx : teamd_context) :
    (teamd_runner_init w ctx).ctx =
      { ctx with runner := (teamd_runner_init w ctx).ctx.runner,
                 runner_priv := (teamd_runner_init w ctx).ctx.runner_priv } := by
  unfold teamd_runner_init
  split
  · rfl
  · simp only []
    split
    · rfl
    · split
      · split
        · rfl
        · rw [teamd_runner_init_priv_ctx]
      · rw [teamd_runner_init_priv_ctx]

theorem teamd_runner_init_th (w : World) (ctx : teamd_context) :
    (teamd_runner_init w ctx).ctx.th = ctx.th := by
  rw [teamd_runner_init_ctx]

/-- A runner that initialized is recorded in the context. -/
theorem teamd_runner_init_runner (w : World) (ctx : teamd_context)
    (h : (teamd_runner_init w ctx).err = 0) :
    ∃ r, (teamd_runner_init w ctx).ctx.runner = some r := by
  cases hq : teamd_cfg_get_str w ctx "['runner']" with
  | error e =>
    have he := teamd_cfg_get_str_err_ne_zero w ctx _ e hq
    simp [teamd_runner_init, hq, he] at h
  | ok name =>
    cases hf : teamd_find_runner w name with
    | none => simp [teamd_runner_init, hq, hf, ENOENT] at h
    | some r =>
      refine ⟨r, ?_⟩
      rw [teamd_runner_init_ctx]
      simp only [teamd_runner_init, hq, hf]
      split
      · split
        · rfl
        · rw [teamd_runner_init_priv_ctx]
      · rw [teamd_runner_init_priv_ctx]

/-- The path `teamd_init` takes. -/
theorem teamd_init_path (w : World) (ctx : teamd_context) :
    ∃ st r, teamd_init w ctx = some r ∧ init_path w ctx st r := by
  by_cases h : (load_config w ctx).err = 0
  swap
  · exact ⟨_, _, by simp [teamd_init, h, at_config], init_path.load_config h⟩
  cases hd : teamd_cfg_get_str w (at_config w ctx) "['device']" with
  | error err =>
    refine ⟨_, _, ?_, init_path.device_name err h hd⟩
    simp only [at_config] at hd
    simp [teamd_init, h, hd, at_config]
  | ok team_name =>
    have hd2 := hd
    simp only [at_config] at hd2
    by_cases ha : w.team_alloc = none
    · refine ⟨_, _, ?_, init_path.team_alloc team_name h hd ha⟩
      simp [teamd_init, h, hd2, ha, at_config, at_alloc]
    by_cases hc : create_err w ctx team_name = 0
    swap
    · refine ⟨_, _, ?_, init_path.team_create team_name h hd ha hc⟩
      have hc2 := hc
      simp only [create_err] at hc2
      simp [teamd_init, h, hd2, ha, at_config, at_alloc, teamd_init_team_free, upto_create,
        load_config_debug, load_config_force_recreate, create_err, hc2]
    have hcr : created w ctx team_name := ⟨h, hd, ha, hc⟩
    have hc2 := hc
    simp only [create_err] at hc2
    by_cases hi : w.team_ifname2ifindex team_name = 0
    · refine ⟨_, _, ?_, init_path.ifindex team_name hcr hi⟩
      simp [teamd_init, h, hd2, ha, at_config, at_alloc, at_ifindex, teamd_init_team_free,
        teamd_init_team_destroy, upto_create, load_config_debug, load_config_force_recreate,
        hc2, hi]
    by_cases ht : w.team_init (w.team_ifname2ifindex team_name) = 0
    swap
    · refine ⟨_, _, ?_, init_path.team_init team_name hcr hi ht⟩
      simp [teamd_init, h, hd2, ha, at_config, at_alloc, at_ifindex, teamd_init_team_free,
        teamd_init_team_destroy, upto_create, load_config_debug, load_config_force_recreate,
        hc2, hi, ht]
    have hdr : device_ready w ctx team_name := ⟨hcr, hi, ht⟩
    by_cases hh : (teamd_check_change_hwaddr w (at_hwaddr_len w ctx team_name)).1 = 0
    swap
    · refine ⟨_, _, ?_, init_path.hwaddr_reconcile team_name hdr hh⟩
      have hh2 := hh
      simp only [at_hwaddr_len, at_ifindex, at_alloc, at_config, load_config_debug,
      load_config_force_recreate] at hh2
      simp [teamd_init, h, hd2, ha, at_config, at_alloc, at_ifindex, at_hwaddr_len,
        teamd_init_team_free, teamd_init_team_destroy, upto_create, upto_hwaddr_len,
        upto_hwaddr, load_config_debug, load_config_force_recreate, hc2, hi, ht, hh2]
    have hh2 := hh
    simp only [at_hwaddr_len, at_ifindex, at_alloc, at_config, load_config_debug,
      load_config_force_recreate] at hh2
    by_cases hr : (teamd_runner_init w (at_hwaddr_len w ctx team_name)).err = 0
    swap
    · refine ⟨_, _, ?_, init_path.runner_init team_name hdr hh hr⟩
      have hr2 := hr
      simp only [at_hwaddr_len, at_ifindex, at_alloc, at_config, load_config_debug,
      load_config_force_recreate] at hr2
      simp [teamd_init, h, hd2, ha, at_config, at_alloc, at_ifindex, at_hwaddr_len, at_runner,
        teamd_init_team_free, teamd_init_team_destroy, upto_create, upto_hwaddr_len,
        upto_hwaddr, upto_runner, load_config_debug, load_config_force_recreate, hc2, hi, ht,
        hh2, hr2, teamd_runner_init_th]
    have hr2 := hr
    simp only [at_hwaddr_len, at_ifindex, at_alloc, at_config, load_config_debug,
      load_config_force_recreate] at hr2
    by_cases hp : (teamd_add_ports w (at_runner w ctx team_name)).1 = 0
    swap
    · obtain ⟨r, hrun⟩ := teamd_runner_init_runner w _ hr
      have hf : teamd_runner_fini (at_runner w ctx team_name) =
          some ((if r.fini then [Event.runner_fini r.name] else []) ++
            [Event.free (at_runner w ctx team_name).runner_priv]) := by
        simp [teamd_runner_fini, at_runner, hrun]
      refine ⟨_, _, ?_, init_path.add_ports team_name _ hdr hh hr hp hf⟩
      have hp2 := hp
      have hf2 := hf
      simp only [at_runner, at_hwaddr_len, at_ifindex, at_alloc, at_config, load_config_debug,
        load_config_force_recreate] at hp2 hf2
      simp [teamd_init, h, hd2, ha, at_config, at_alloc, at_ifindex, at_hwaddr_len, at_runner,
        teamd_init_team_free, teamd_init_team_destroy, teamd_init_runner_fini, upto_create,
        upto_hwaddr_len, upto_hwaddr, upto_runner, upto_ports, load_config_debug,
        load_config_force_recreate, hc2, hi, ht, hh2, hr2, hp2, hf2, teamd_runner_init_th]
    · refine ⟨_, _, ?_, init_path.success team_name hdr hh hr hp⟩
      have hp2 := hp
      simp only [at_runner, at_hwaddr_len, at_ifindex, at_alloc, at_config, load_config_debug,
        load_config_force_recreate] at hp2
      simp [teamd_init, h, hd2, ha, at_config, at_alloc, at_ifindex, at_hwaddr_len, at_runner,
        upto_create, upto_hwaddr_len, upto_hwaddr, upto_runner, upto_ports, load_config_debug,
        load_config_force_recreate, hc2, hi, ht, hh2, hr2, hp2]

/-! ## `parse_hwaddr` terminates within its iteration bound -/

theorem dropWhile_length_le (p : Char → Bool) (s : List Char) :
    (s.dropWhile p).length ≤ s.length :=
  (List.dropWhile_sublist p).length_le

theorem strtoul_digits_length :
    ∀ (s : List Char) (acc : Nat), (strtoul_digits s acc).2.length ≤ s.length := by
  intro s
  induction s with
  | nil => intro acc; simp [strtoul_digits]
  | cons c cs ih =>
    intro acc
    simp only [strtoul_digits]
    split
    · exact Nat.le_succ_of_le (ih _)
    · simp

theorem strtoul_skip_sign_length (s : List Char) :
    (strtoul_skip_sign s).length ≤ s.length := by
  unfold strtoul_skip_sign
  split
  · simp
  · exact Nat.le_refl _

theorem strtoul_skip_0x_length (s : List Char) :
    (strtoul_skip_0x s).length ≤ s.length := by
  unfold strtoul_skip_0x
  split
  · split
    · simp only [List.length_cons]
      omega
    · exact Nat.le_refl _
  · exact Nat.le_refl _

theorem strtoul_endptr_length (nptr : List Char) :
    (strtoul nptr).2.1.length ≤ nptr.length := by
  have h3 : (strtoul_skip_0x (strtoul_skip_sign (nptr.dropWhile isspace))).length ≤
      nptr.length :=
    le_trans (strtoul_skip_0x_length _)
      (le_trans (strtoul_skip_sign_length _) (dropWhile_length_le _ _))
  unfold strtoul
  simp only []
  split
  · exact Nat.le_refl _
  · rename_i c cs hs3
    have hd := strtoul_digits_length
      (strtoul_skip_0x (strtoul_skip_sign (nptr.dropWhile isspace))) 0
    split
    · split
      · exact le_trans hd h3
      · exact le_trans hd h3
    · exact Nat.le_refl _

/-- Any two iteration bounds above the length of the text give the same result:
the bound of `parse_hwaddr` is never what stops the loop. -/
theorem parse_hwaddr_loop_fuel (realloc_ok : Nat → Bool) :
    ∀ (f1 f2 : Nat) (pos : List Char) (hwaddr : List Nat),
      pos.length < f1 → pos.length < f2 →
      parse_hwaddr_loop realloc_ok f1 pos hwaddr =
        parse_hwaddr_loop realloc_ok f2 pos hwaddr := by
  intro f1
  induction f1 with
  | zero => intro f2 pos hwaddr h1; omega
  | succ k ih =>
    intro f2 pos hwaddr h1 h2
    cases f2 with
    | zero => omega
    | succ m =>
      simp only [parse_hwaddr_loop]
      split
      · rfl
      · split
        · rfl
        · split
          · rfl
          · rename_i c rest hrest
            split
            · have hlen : (c :: rest).length ≤ pos.length := by
                rw [← hrest]
                exact le_trans (dropWhile_length_le _ _) (strtoul_endptr_length pos)
              simp only [List.length_cons] at hlen
              exact ih m rest _ (by omega) (by omega)
            · rfl

/-- The result of `parse_hwaddr` is that of its loop under any larger bound. -/
theorem parse_hwaddr_fuel (realloc_ok : Nat → Bool) (hwaddr_str : String) (fuel : Nat)
    (h : hwaddr_str.length < fuel) :
    parse_hwaddr realloc_ok hwaddr_str =
      parse_hwaddr_loop realloc_ok fuel hwaddr_str.data [] :=
  parse_hwaddr_loop_fuel realloc_ok _ _ _ _ (Nat.lt_succ_self _) h

/-! ## What the helpers can put on the trace -/

theorem all_plain_or_nil (ex : Event → Bool) : all_plain_or ex [] := by
  intro e he
  cases he

theorem all_plain_or_cons (ex : Event → Bool) (e : Event) (tr : List Event)
    (h1 : e.plain = true ∨ ex e = true) (h2 : all_plain_or ex tr) :
    all_plain_or ex (e :: tr) := by
  intro x hx
  rcases List.mem_cons.mp hx with h | h
  · rw [h]; exact h1
  · exact h2 x h

theorem all_plain_or_append (ex : Event → Bool) (t1 t2 : List Event)
    (h1 : all_plain_or ex t1) (h2 : all_plain_or ex t2) : all_plain_or ex (t1 ++ t2) := by
  intro x hx
  rcases List.mem_append.mp hx with h | h
  · exact h1 x h
  · exact h2 x h

theorem all_plain_or_mono (ex ex2 : Event → Bool) (tr : List Event)
    (h : all_plain_or ex tr) (hex : ∀ e, ex e = true → ex2 e = true) :
    all_plain_or ex2 tr := by
  intro x hx
  rcases h x hx with h | h
  · exact Or.inl h
  · exact Or.inr (hex x h)

theorem load_file_plain (w : World) (filename : String) :
    all_plain_or (fun _ => false) (load_file w filename).2.2 := by
  unfold load_file
  simp only []
  repeat' split
  all_goals
    repeat (first
      | exact all_plain_or_nil _
      | refine all_plain_or_cons _ _ _ (Or.inl rfl) ?_)

theorem load_config_parse_plain (w : World) (ctx : teamd_context) (tr : List Event)
    (h : all_plain_or (fun _ => false) tr) :
    all_plain_or (fun _ => false) (load_config_parse w ctx tr).trace := by
  unfold load_config_parse
  split
  · simp only []
    split
    all_goals
      refine all_plain_or_append _ _ _ h ?_
      repeat (first
        | exact all_plain_or_nil _
        | refine all_plain_or_cons _ _ _ (Or.inl rfl) ?_)
  · refine all_plain_or_append _ _ _ h ?_
    repeat (first
      | exact all_plain_or_nil _
      | refine all_plain_or_cons _ _ _ (Or.inl rfl) ?_)

theorem load_config_plain (w : World) (ctx : teamd_context) :
    all_plain_or (fun _ => false) (load_config w ctx).trace := by
  unfold load_config
  split
  · split
    · exact load_config_parse_plain w ctx _
        (all_plain_or_cons _ _ _ (Or.inl rfl) (all_plain_or_nil _))
    · simp only []
      split
      · refine all_plain_or_append _ _ _ (load_file_plain w _) ?_
        exact all_plain_or_cons _ _ _ (Or.inl rfl) (all_plain_or_nil _)
      · exact load_config_parse_plain w _ _ (load_file_plain w _)
  · exact load_config_parse_plain w ctx _ (all_plain_or_nil _)

theorem teamd_check_change_hwaddr_plain (w : World) (ctx : teamd_context) :
    all_plain_or Event.is_hwaddr_set (teamd_check_change_hwaddr w ctx).2 := by
  unfold teamd_check_change_hwaddr
  split
  · exact all_plain_or_nil _
  · split
    · exact all_plain_or_cons _ _ _ (Or.inl rfl) (all_plain_or_nil _)
    · simp only []
      split
      · exact all_plain_or_cons _ _ _ (Or.inl rfl) (all_plain_or_nil _)
      · exact all_plain_or_cons _ _ _ (Or.inr rfl) (all_plain_or_nil _)

theorem teamd_runner_init_call_plain (runner : teamd_runner) (ctx : teamd_context)
    (tr : List Event) (h : all_plain_or (fun _ => false) tr) :
    all_plain_or (fun _ => false) (teamd_runner_init_call runner ctx tr).trace := by
  unfold teamd_runner_init_call
  repeat' split
  all_goals
    first
      | exact h
      | (refine all_plain_or_append _ _ _ h ?_
         repeat (first
           | exact all_plain_or_nil _
           | refine all_plain_or_cons _ _ _ (Or.inl rfl) ?_))

theorem teamd_runner_init_priv_plain (w : World) (runner : teamd_runner)
    (ctx : teamd_context) (tr : List Event) (h : all_plain_or (fun _ => false) tr) :
    all_plain_or (fun _ => false) (teamd_runner_init_priv w runner ctx tr).trace := by
  have hm : all_plain_or (fun _ => false) (tr ++ [Event.malloc runner.priv_size]) :=
    all_plain_or_append _ _ _ h (all_plain_or_cons _ _ _ (Or.inl rfl) (all_plain_or_nil _))
  unfold teamd_runner_init_priv
  split
  · simp only []
    split
    · exact hm
    · exact teamd_runner_init_call_plain _ _ _ hm
  · exact teamd_runner_init_call_plain _ _ _ h

theorem teamd_runner_init_plain (w : World) (ctx : teamd_context) :
    all_plain_or (fun _ => false) (teamd_runner_init w ctx).trace := by
  unfold teamd_runner_init
  split
  · exact all_plain_or_cons _ _ _ (Or.inl rfl) (all_plain_or_nil _)
  · simp only []
    split
    · exact all_plain_or_cons _ _ _ (Or.inl rfl) (all_plain_or_nil _)
    · split
      · split
        · exact all_plain_or_cons _ _ _ (Or.inl rfl)
            (all_plain_or_cons _ _ _ (Or.inl rfl) (all_plain_or_nil _))
        · exact teamd_runner_init_priv_plain _ _ _ _
            (all_plain_or_cons _ _ _ (Or.inl rfl) (all_plain_or_nil _))
      · exact teamd_runner_init_priv_plain _ _ _ _
          (all_plain_or_cons _ _ _ (Or.inl rfl) (all_plain_or_nil _))

theorem teamd_add_ports_loop_plain (w : World) (th : Option Nat) :
    ∀ (ports : List String) (i : Nat),
      all_plain_or Event.is_port_add (teamd_add_ports_loop w th i ports).2 := by
  intro ports
  induction ports with
  | nil =>
    intro i
    exact all_plain_or_nil _
  | cons p ports ih =>
    intro i
    simp only [teamd_add_ports_loop]
    split
    · exact all_plain_or_cons _ _ _ (Or.inl rfl)
        (all_plain_or_cons _ _ _ (Or.inr rfl)
          (all_plain_or_cons _ _ _ (Or.inl rfl) (all_plain_or_nil _)))
    · exact all_plain_or_cons _ _ _ (Or.inl rfl)
        (all_plain_or_cons _ _ _ (Or.inr rfl) (ih (i + 1)))

/-! ## Adding the configured ports -/

theorem teamd_add_ports_loop_first_failure (w : World) (th : Option Nat) :
    ∀ (ports : List String) (k j : Nat) (pj : String), ports[j]? = some pj →
      (∀ i p, i < j → ports[i]? = some p →
        w.team_port_add (k + i) (w.team_ifname2ifindex p) = 0) →
      w.team_port_add (k + j) (w.team_ifname2ifindex pj) ≠ 0 →
      (teamd_add_ports_loop w th k ports).1 =
          w.team_port_add (k + j) (w.team_ifname2ifindex pj) ∧
      port_add_calls (teamd_add_ports_loop w th k ports).2 =
          (ports.take (j + 1)).map
            (fun p => Event.team_port_add th (w.team_ifname2ifindex p)) := by
  intro ports
  induction ports with
  | nil =>
    intro k j pj hj
    simp at hj
  | cons p ports ih =>
    intro k j pj hj hok hfail
    cases j with
    | zero =>
      simp only [List.getElem?_cons_zero, Option.some.injEq] at hj
      subst hj
      simp only [Nat.add_zero] at hfail
      simp [teamd_add_ports_loop, hfail, port_add_calls, Event.is_port_add]
    | succ j =>
      simp only [List.getElem?_cons_succ] at hj
      have h0 : w.team_port_add k (w.team_ifname2ifindex p) = 0 := by
        have := hok 0 p (Nat.succ_pos j) (by simp)
        simpa using this
      have hok2 : ∀ i q, i < j → ports[i]? = some q →
          w.team_port_add (k + 1 + i) (w.team_ifname2ifindex q) = 0 := by
        intro i q hi hq
        have := hok (i + 1) q (by omega) (by simpa using hq)
        rw [show k + 1 + i = k + (i + 1) by omega]
        exact this
      have hfail2 : w.team_port_add (k + 1 + j) (w.team_ifname2ifindex pj) ≠ 0 := by
        rw [show k + 1 + j = k + (j + 1) by omega]
        exact hfail
      obtain ⟨he, hc⟩ := ih (k + 1) j pj hj hok2 hfail2
      simp only [teamd_add_ports_loop, h0, ne_eq, not_true_eq_false, if_false]
      refine ⟨?_, ?_⟩
      · rw [he, show k + 1 + j = k + (j + 1) by omega]
      · simp only [port_add_calls] at hc ⊢
        simp [List.filter_cons, Event.is_port_add, hc]

theorem teamd_add_ports_loop_all_added (w : World) (th : Option Nat) :
    ∀ (ports : List String) (k : Nat),
      (∀ i p, ports[i]? = some p →
        w.team_port_add (k + i) (w.team_ifname2ifindex p) = 0) →
      (teamd_add_ports_loop w th k ports).1 = 0 ∧
      port_add_calls (teamd_add_ports_loop w th k ports).2 =
          ports.map (fun p => Event.team_port_add th (w.team_ifname2ifindex p)) := by
  intro ports
  induction ports with
  | nil =>
    intro k _
    simp [teamd_add_ports_loop, port_add_calls]
  | cons p ports ih =>
    intro k hok
    have h0 : w.team_port_add k (w.team_ifname2ifindex p) = 0 := by
      have := hok 0 p (by simp)
      simpa using this
    have hok2 : ∀ i q, ports[i]? = some q →
        w.team_port_add (k + 1 + i) (w.team_ifname2ifindex q) = 0 := by
      intro i q hq
      have := hok (i + 1) q (by simpa using hq)
      rw [show k + 1 + i = k + (i + 1) by omega]
      exact this
    obtain ⟨he, hc⟩ := ih (k + 1) hok2
    simp only [teamd_add_ports_loop, h0, ne_eq, not_true_eq_false, if_false]
    refine ⟨he, ?_⟩
    simp only [port_add_calls] at hc ⊢
    simp [List.filter_cons, Event.is_port_add, hc]

/-! ## Initialization: what precedes an exit -/

theorem quiet_of_all_plain_or (ex : Event → Bool) (tr : List Event)
    (h : all_plain_or ex tr)
    (hex : ∀ e, ex e = true → e.is_release = false ∧ e.is_exit_message = false) :
    quiet tr := by
  intro e he
  rcases h e he with hp | hx
  · simp only [Event.plain, Bool.and_eq_true, Bool.not_eq_true', Bool.or_eq_false_iff] at hp
    exact ⟨hp.1.1.1.1, hp.1.1.1.2⟩
  · exact hex e hx

theorem quiet_append (t1 t2 : List Event) (h1 : quiet t1) (h2 : quiet t2) :
    quiet (t1 ++ t2) := by
  intro e he
  rcases List.mem_append.mp he with h | h
  · exact h1 e h
  · exact h2 e h

theorem is_hwaddr_set_quiet (e : Event) (h : e.is_hwaddr_set = true) :
    e.is_release = false ∧ e.is_exit_message = false := by
  cases e <;> simp_all [Event.is_hwaddr_set, Event.is_release, Event.is_exit_message]

theorem is_port_add_quiet (e : Event) (h : e.is_port_add = true) :
    e.is_release = false ∧ e.is_exit_message = false := by
  cases e <;> simp_all [Event.is_port_add, Event.is_release, Event.is_exit_message]

theorem upto_create_plain (w : World) (ctx : teamd_context) (team_name : String) :
    all_plain_or (fun _ => false) (upto_create w ctx team_name) := by
  unfold upto_create
  refine all_plain_or_append _ _ _ (all_plain_or_append _ _ _ (all_plain_or_append _ _ _
    (all_plain_or_append _ _ _ (load_config_plain w ctx) ?_) ?_) ?_) ?_
  · exact all_plain_or_cons _ _ _ (Or.inl rfl) (all_plain_or_nil _)
  · split
    · exact all_plain_or_cons _ _ _ (Or.inl rfl) (all_plain_or_nil _)
    · exact all_plain_or_nil _
  · exact all_plain_or_cons _ _ _ (Or.inl rfl) (all_plain_or_nil _)
  · split <;> exact all_plain_or_cons _ _ _ (Or.inl rfl) (all_plain_or_nil _)

theorem upto_hwaddr_len_plain (w : World) (ctx : teamd_context) (team_name : String) :
    all_plain_or (fun _ => false) (upto_hwaddr_len w ctx team_name) := by
  unfold upto_hwaddr_len
  refine all_plain_or_append _ _ _ (upto_create_plain w ctx team_name) ?_
  exact all_plain_or_cons _ _ _ (Or.inl rfl) (all_plain_or_cons _ _ _ (Or.inl rfl)
    (all_plain_or_cons _ _ _ (Or.inl rfl) (all_plain_or_nil _)))

theorem upto_hwaddr_plain (w : World) (ctx : teamd_context) (team_name : String) :
    all_plain_or Event.is_hwaddr_set (upto_hwaddr w ctx team_name) := by
  unfold upto_hwaddr
  refine all_plain_or_append _ _ _ ?_ (teamd_check_change_hwaddr_plain w _)
  exact all_plain_or_mono _ _ _ (upto_hwaddr_len_plain w ctx team_name)
    (by intro e he; cases he)

theorem upto_runner_plain (w : World) (ctx : teamd_context) (team_name : String) :
    all_plain_or Event.is_hwaddr_set (upto_runner w ctx team_name) := by
  unfold upto_runner
  refine all_plain_or_append _ _ _ (upto_hwaddr_plain w ctx team_name) ?_
  exact all_plain_or_mono _ _ _ (teamd_runner_init_plain w _) (by intro e he; cases he)

theorem upto_ports_plain (w : World) (ctx : teamd_context) (team_name : String) :
    all_plain_or (fun e => e.is_hwaddr_set || e.is_port_add)
      (upto_ports w ctx team_name) := by
  unfold upto_ports teamd_add_ports
  refine all_plain_or_append _ _ _ ?_ ?_
  · exact all_plain_or_mono _ _ _ (upto_runner_plain w ctx team_name)
      (by intro e he; simp [he])
  · exact all_plain_or_mono _ _ _ (teamd_add_ports_loop_plain w _ _ _)
      (by intro e he; simp [he])

theorem load_config_quiet (w : World) (ctx : teamd_context) :
    quiet (load_config w ctx).trace :=
  quiet_of_all_plain_or _ _ (load_config_plain w ctx) (by intro e he; cases he)

theorem upto_create_quiet (w : World) (ctx : teamd_context) (team_name : String) :
    quiet (upto_create w ctx team_name) :=
  quiet_of_all_plain_or _ _ (upto_create_plain w ctx team_name) (by intro e he; cases he)

theorem upto_hwaddr_quiet (w : World) (ctx : teamd_context) (team_name : String) :
    quiet (upto_hwaddr w ctx team_name) :=
  quiet_of_all_plain_or _ _ (upto_hwaddr_plain w ctx team_name) is_hwaddr_set_quiet

theorem upto_runner_quiet (w : World) (ctx : teamd_context) (team_name : String) :
    quiet (upto_runner w ctx team_name) :=
  quiet_of_all_plain_or _ _ (upto_runner_plain w ctx team_name) is_hwaddr_set_quiet

theorem upto_ports_quiet (w : World) (ctx : teamd_context) (team_name : String) :
    quiet (upto_ports w ctx team_name) := by
  refine quiet_of_all_plain_or _ _ (upto_ports_plain w ctx team_name) ?_
  intro e he
  simp only [Bool.or_eq_true] at he
  rcases he with h | h
  · exact is_hwaddr_set_quiet e h
  · exact is_port_add_quiet e h

theorem quiet_snoc (tr : List Event) (e : Event) (h : quiet tr)
    (h1 : e.is_release = false) (h2 : e.is_exit_message = false) : quiet (tr ++ [e]) := by
  refine quiet_append _ _ h ?_
  intro x hx
  simp only [List.mem_singleton] at hx
  subst hx
  exact ⟨h1, h2⟩

/-- The checkpoint before `teamd_runner_init`, recovered from the one after it. -/
theorem at_hwaddr_len_of_at_runner (w : World) (ctx : teamd_context) (team_name : String) :
    { at_runner w ctx team_name with runner := ctx.runner, runner_priv := ctx.runner_priv } =
      at_hwaddr_len w ctx team_name := by
  have h1 : (at_hwaddr_len w ctx team_name).runner = ctx.runner := by
    simp only [at_hwaddr_len, at_ifindex, at_alloc, at_config]
    rw [load_config_ctx]
  have h2 : (at_hwaddr_len w ctx team_name).runner_priv = ctx.runner_priv := by
    simp only [at_hwaddr_len, at_ifindex, at_alloc, at_config]
    rw [load_config_ctx]
  unfold at_runner
  rw [teamd_runner_init_ctx]
  simp only [h1, h2]
  rw [← h1, ← h2]

theorem at_runner_th (w : World) (ctx : teamd_context) (team_name : String) :
    (at_runner w ctx team_name).th = w.team_alloc := by
  simp [at_runner, teamd_runner_init_th, at_hwaddr_len, at_ifindex, at_alloc]

theorem teamd_runner_fini_no_exit_message (ctx : teamd_context) :
    ∀ e ∈ (teamd_runner_fini ctx).getD [], e.is_exit_message = false := by
  intro e he
  unfold teamd_runner_fini at he
  split at he
  · simp at he
  · simp only [Option.getD_some, List.mem_append, List.mem_singleton] at he
    rcases he with h | h
    · split at h
      · simp only [List.mem_singleton] at h
        subst h
        rfl
      · simp at h
    · subst h
      rfl

theorem rollback_no_exit_message (ctx : teamd_context) (stage : Stage) :
    ∀ e ∈ stage.rollback ctx, e.is_exit_message = false := by
  intro e he
  cases stage <;>
    simp only [Stage.rollback, List.mem_append, List.mem_cons, List.mem_singleton,
      List.not_mem_nil, or_false] at he
  all_goals
    first
      | (subst he; rfl)
      | (rcases he with h | h <;> subst h <;> rfl)
      | (rcases he with h | h | h
         · exact teamd_runner_fini_no_exit_message ctx e h
         · subst h; rfl
         · subst h; rfl)

theorem stage_message_is_exit_message (stage : Stage) :
    (Event.log_err stage.message).is_exit_message = true := by
  cases stage <;> decide

theorem stage_message_injective (s1 s2 : Stage) (h : s1.message = s2.message) : s1 = s2 := by
  cases s1 <;> cases s2 <;> first | rfl | (exact absurd h (by decide))

/-- In a trace made of a quiet part, one exit diagnostic and a rollback, that
diagnostic is the only exit diagnostic. -/
theorem exit_message_unique (ctx : teamd_context) (pre : List Event) (stage s2 : Stage)
    (hq : quiet pre)
    (h : Event.log_err s2.message ∈ pre ++ Event.log_err stage.message :: stage.rollback ctx) :
    s2 = stage := by
  have hx := stage_message_is_exit_message s2
  rcases List.mem_append.mp h with h1 | h1
  · have := (hq _ h1).2
    rw [hx] at this
    cases this
  · rcases List.mem_cons.mp h1 with h2 | h2
    · simp only [Event.log_err.injEq] at h2
      exact stage_message_injective _ _ h2
    · have := rollback_no_exit_message ctx stage _ h2
      rw [hx] at this
      cases this

/-- What a run of `teamd_init` looks like: it returns; it is one of the paths;
if it took no exit it returned 0 and made no release call; if it took an exit
it returned that stage's non-zero error after the diagnostic of the exit and
its release calls, with no release call earlier. -/
theorem teamd_init_exit (w : World) (ctx : teamd_context) :
    ∃ st r, teamd_init w ctx = some r ∧ init_path w ctx st r ∧
      (st = none → r.err = 0 ∧ quiet r.trace) ∧
      (∀ stage, st = some stage →
        r.err ≠ 0 ∧ stage.returns w ctx r ∧
        (stage = Stage.add_ports → ∃ fini, teamd_runner_fini r.ctx = some fini) ∧
        ∃ pre, quiet pre ∧
          r.trace = pre ++ Event.log_err stage.message :: stage.rollback r.ctx) := by
  obtain ⟨st, r, hrun, hp⟩ := teamd_init_path w ctx
  refine ⟨st, r, hrun, hp, ?_, ?_⟩
  · intro hst
    subst hst
    cases hp with
    | success team_name h hh hr hp => exact ⟨rfl, upto_ports_quiet w ctx team_name⟩
  · intro stage hst
    subst hst
    cases hp with
    | load_config h =>
      exact ⟨h, rfl, by simp, _, load_config_quiet w ctx,
        by simp [Stage.message, Stage.rollback]⟩
    | device_name err h hd =>
      exact ⟨teamd_cfg_get_str_err_ne_zero w _ _ err hd, hd, by simp, _,
        load_config_quiet w ctx, by simp [Stage.message, Stage.rollback]⟩
    | team_alloc team_name h hd ha =>
      refine ⟨by simp [ENOMEM], ⟨rfl, ha⟩, by simp,
        (load_config w ctx).trace ++ [Event.team_alloc], ?_,
        by simp [Stage.message, Stage.rollback]⟩
      exact quiet_snoc _ _ (load_config_quiet w ctx) rfl rfl
    | team_create team_name h hd ha hc =>
      refine ⟨hc, ⟨team_name, ?_, rfl⟩, by simp, upto_create w ctx team_name,
        upto_create_quiet w ctx team_name, by simp [Stage.message, Stage.rollback, at_alloc]⟩
      rw [← hd]
      exact teamd_cfg_get_str_congr w _ _ _ rfl
    | ifindex team_name h hi =>
      refine ⟨by simp [ENOENT], ⟨rfl, hi⟩, by simp,
        upto_create w ctx team_name ++ [Event.team_ifname2ifindex w.team_alloc team_name],
        ?_, by simp [Stage.message, Stage.rollback, at_alloc, at_ifindex]⟩
      exact quiet_snoc _ _ (upto_create_quiet w ctx team_name) rfl rfl
    | team_init team_name h hi ht =>
      refine ⟨ht, rfl, by simp,
        upto_create w ctx team_name ++ [Event.team_ifname2ifindex w.team_alloc team_name] ++
          [Event.team_init w.team_alloc (w.team_ifname2ifindex team_name)],
        ?_, by simp [Stage.message, Stage.rollback, at_alloc, at_ifindex]⟩
      exact quiet_snoc _ _ (quiet_snoc _ _ (upto_create_quiet w ctx team_name) rfl rfl)
        rfl rfl
    | hwaddr_reconcile team_name h hh =>
      exact ⟨hh, rfl, by simp, upto_hwaddr w ctx team_name,
        upto_hwaddr_quiet w ctx team_name,
        by simp [Stage.message, Stage.rollback, at_alloc, at_ifindex, at_hwaddr_len]⟩
    | runner_init team_name h hh hr =>
      refine ⟨hr, ?_, by simp, upto_runner w ctx team_name,
        upto_runner_quiet w ctx team_name, ?_⟩
      · simp only [Stage.returns]
        rw [at_hwaddr_len_of_at_runner]
      · simp only [Stage.message, Stage.rollback, at_runner_th]
    | add_ports team_name fini h hh hr hp hf =>
      refine ⟨hp, rfl, fun _ => ⟨fini, hf⟩, upto_ports w ctx team_name,
        upto_ports_quiet w ctx team_name, ?_⟩
      simp only [Stage.message, Stage.rollback, at_runner_th, hf, Option.getD_some]
      simp

/-- The exit a run took can be read off the diagnostic on its trace. -/
theorem teamd_init_stage_of_message (w : World) (ctx : teamd_context) (r : Result)
    (hr : teamd_init w ctx = some r) (stage : Stage)
    (hm : Event.log_err stage.message ∈ r.trace) :
    init_path w ctx (some stage) r := by
  obtain ⟨st, r2, hr2, hp, hnone, hsome⟩ := teamd_init_exit w ctx
  rw [hr] at hr2
  cases hr2
  cases st with
  | none =>
    have := ((hnone rfl).2 _ hm).2
    rw [stage_message_is_exit_message] at this
    cases this
  | some s =>
    obtain ⟨_, _, _, pre, hq, htr⟩ := hsome s rfl
    rw [htr] at hm
    have := exit_message_unique r.ctx pre s stage hq hm
    subst this
    exact hp

/-- C1: `teamd_init` always returns, and whenever it returns an error it has
logged the diagnostic of exactly one exit and then made that exit's release
calls, each once and in this order: none for a failure of config load,
device-name lookup or `team_alloc`; `team_free` alone for a failed create or
recreate; `team_destroy` then `team_free` for a failure of interface-index
resolution, `team_init`, the hardware-address length test, hardware-address
reconcile or runner init; the calls of `teamd_runner_fini`, then
`team_destroy`, then `team_free` for a failure of `teamd_add_ports`.  No
release call precedes the diagnostic, and the value returned is the error of
the failing stage. -/
theorem teamd_init_rollback (w : World) (ctx : teamd_context) :
    ∃ r, teamd_init w ctx = some r ∧
      (r.err ≠ 0 →
        ∃ (stage : Stage) (pre : List Event),
          r.trace = pre ++ Event.log_err stage.message :: stage.rollback r.ctx ∧
          quiet pre ∧ stage.returns w ctx r ∧
          (stage = Stage.add_ports → ∃ fini, teamd_runner_fini r.ctx = some fini)) := by
  obtain ⟨st, r, hr, _, hnone, hsome⟩ := teamd_init_exit w ctx
  refine ⟨r, hr, ?_⟩
  intro herr
  cases st with
  | none => exact absurd (hnone rfl).1 herr
  | some stage =>
    obtain ⟨_, hret, hfini, pre, hq, htr⟩ := hsome stage rfl
    exact ⟨stage, pre, htr, hq, hret, hfini⟩

theorem teamd_init_rollback_witness :
    (teamd_init sample_world_port_fails sample_ctx).map (fun r => r.err) = some (-16) ∧
    ∃ r, teamd_init sample_world_port_fails sample_ctx = some r ∧
      (r.err ≠ 0 →
        ∃ (stage : Stage) (pre : List Event),
          r.trace = pre ++ Event.log_err stage.message :: stage.rollback r.ctx ∧
          quiet pre ∧ stage.returns sample_world_port_fails sample_ctx r ∧
          (stage = Stage.add_ports → ∃ fini, teamd_runner_fini r.ctx = some fini)) :=
  ⟨by decide, teamd_init_rollback sample_world_port_fails sample_ctx⟩

/-! ## Runner selection -/

theorem find_runner_in_some (name : String) (r : teamd_runner) :
    ∀ (l : List teamd_runner), find_runner_in l name = some r ↔
      ∃ pre post, l = pre ++ r :: post ∧ r.name = name ∧ ∀ x ∈ pre, x.name ≠ name := by
  intro l
  induction l with
  | nil => simp [find_runner_in]
  | cons a l ih =>
    by_cases ha : a.name = name
    · simp only [find_runner_in, ha, if_true, Option.some.injEq]
      constructor
      · intro h
        subst h
        exact ⟨[], l, rfl, ha, by simp⟩
      · rintro ⟨pre, post, hl, _, hpre⟩
        cases pre with
        | nil =>
          simp only [List.nil_append, List.cons.injEq] at hl
          exact hl.1
        | cons b pre =>
          simp only [List.cons_append, List.cons.injEq] at hl
          exact absurd (hl.1 ▸ ha) (hpre b (by simp))
    · simp only [find_runner_in, ha, if_false, ih]
      constructor
      · rintro ⟨pre, post, hl, hr, hpre⟩
        refine ⟨a :: pre, post, by simp [hl], hr, ?_⟩
        intro x hx
        rcases List.mem_cons.mp hx with h | h
        · rw [h]; exact ha
        · exact hpre x h
      · rintro ⟨pre, post, hl, hr, hpre⟩
        cases pre with
        | nil =>
          simp only [List.nil_append, List.cons.injEq] at hl
          exact absurd (hl.1 ▸ hr) ha
        | cons b pre =>
          simp only [List.cons_append, List.cons.injEq] at hl
          exact ⟨pre, post, hl.2, hr, fun x hx => hpre x (by simp [hx])⟩

theorem find_runner_in_none (name : String) :
    ∀ (l : List teamd_runner), find_runner_in l name = none ↔ ∀ r ∈ l, r.name ≠ name := by
  intro l
  induction l with
  | nil => simp [find_runner_in]
  | cons a l ih =>
    by_cases ha : a.name = name
    · simp [find_runner_in, ha]
    · simp [find_runner_in, ha, ih]

theorem teamd_runner_init_unmatched (w : World) (ctx : teamd_context) (name : String)
    (hq : teamd_cfg_get_str w ctx "['runner']" = Except.ok name)
    (hf : teamd_find_runner w name = none) :
    teamd_runner_init w ctx =
      ⟨-ENOENT, { ctx with runner := none },
       [Event.log_err "No runner named \"%s\" available."]⟩ := by
  simp [teamd_runner_init, hq, hf]

theorem at_runner_config_jso (w : World) (ctx : teamd_context) (team_name : String) :
    (at_runner w ctx team_name).config_jso = (at_hwaddr_len w ctx team_name).config_jso := by
  unfold at_runner
  rw [teamd_runner_init_ctx]

/-- C2: `teamd_find_runner` returns a descriptor exactly when an entry of the
runner list bears the name, and then the first such entry; it returns `NULL`
exactly when no entry does.  For a configured runner name matching no entry,
`teamd_runner_init` returns `-ENOENT` having only logged an error (no team
mode set, nothing allocated, no runner `init` called), and `teamd_init` never
succeeds: when it gets to the runner stage it returns `-ENOENT` after
`team_destroy` and `team_free`. -/
theorem teamd_find_runner_exact_match (w : World) (name : String) :
    (∀ r, teamd_find_runner w name = some r ↔
      ∃ pre post, w.teamd_runner_list = pre ++ r :: post ∧ r.name = name ∧
        ∀ x ∈ pre, x.name ≠ name) ∧
    (teamd_find_runner w name = none ↔ ∀ r ∈ w.teamd_runner_list, r.name ≠ name) ∧
    (∀ ctx, teamd_cfg_get_str w ctx "['runner']" = Except.ok name →
      (∀ r ∈ w.teamd_runner_list, r.name ≠ name) →
      teamd_runner_init w ctx =
        ⟨-ENOENT, { ctx with runner := none },
         [Event.log_err "No runner named \"%s\" available."]⟩) ∧
    (∀ ctx r, teamd_init w ctx = some r →
      teamd_cfg_get_str w r.ctx "['runner']" = Except.ok name →
      (∀ x ∈ w.teamd_runner_list, x.name ≠ name) →
      r.err ≠ 0 ∧
      (Event.log_err "Failed to init runner." ∈ r.trace →
        r.err = -ENOENT ∧ r.ctx.runner = none ∧
        ∃ pre, quiet pre ∧
          r.trace = pre ++
            [Event.log_err "No runner named \"%s\" available.",
             Event.log_err "Failed to init runner.",
             Event.team_destroy r.ctx.th, Event.team_free r.ctx.th])) := by
  refine ⟨fun r => find_runner_in_some name r _, find_runner_in_none name _, ?_, ?_⟩
  · intro ctx hq hno
    exact teamd_runner_init_unmatched w ctx name hq ((find_runner_in_none name _).mpr hno)
  · intro ctx r hrun hq hno
    have hf : teamd_find_runner w name = none := (find_runner_in_none name _).mpr hno
    refine ⟨?_, ?_⟩
    · obtain ⟨st, r2, hr2, hp, hnone, hsome⟩ := teamd_init_exit w ctx
      rw [hrun] at hr2
      cases hr2
      cases st with
      | some stage => exact (hsome stage rfl).1
      | none =>
        cases hp with
        | success team_name h hh hr hp =>
          have hq2 : teamd_cfg_get_str w (at_hwaddr_len w ctx team_name) "['runner']" =
              Except.ok name := by
            rw [← hq]
            exact teamd_cfg_get_str_congr w _ _ _ (at_runner_config_jso w ctx team_name).symm
          rw [teamd_runner_init_unmatched w _ name hq2 hf] at hr
          simp [ENOENT] at hr
    · intro hm
      have hp := teamd_init_stage_of_message w ctx r hrun Stage.runner_init hm
      cases hp with
      | runner_init team_name h hh hr =>
        have hq2 : teamd_cfg_get_str w (at_hwaddr_len w ctx team_name) "['runner']" =
            Except.ok name := by
          rw [← hq]
          exact teamd_cfg_get_str_congr w _ _ _ (at_runner_config_jso w ctx team_name).symm
        have hu := teamd_runner_init_unmatched w _ name hq2 hf
        refine ⟨by rw [hu], by simp only [at_runner]; rw [hu], upto_hwaddr w ctx team_name,
          upto_hwaddr_quiet w ctx team_name, ?_⟩
        simp only [upto_runner, at_runner_th]
        rw [hu]
        simp

theorem teamd_find_runner_exact_match_witness :
    ∃ r, teamd_init sample_world_unknown_runner sample_ctx = some r ∧
      Event.log_err "Failed to init runner." ∈ r.trace ∧
      r.err ≠ 0 ∧ r.err = -ENOENT ∧ r.ctx.runner = none ∧
      ∃ pre, quiet pre ∧
        r.trace = pre ++
          [Event.log_err "No runner named \"%s\" available.",
           Event.log_err "Failed to init runner.",
           Event.team_destroy r.ctx.th, Event.team_free r.ctx.th] :=
  match h : teamd_init sample_world_unknown_runner sample_ctx with
  | none => absurd h (by decide)
  | some r =>
    have hm : Event.log_err "Failed to init runner." ∈ r.trace := by
      have h2 : (teamd_init sample_world_unknown_runner sample_ctx).map
          (fun r => decide (Event.log_err "Failed to init runner." ∈ r.trace)) =
          some true := by decide
      rw [h] at h2
      simpa using h2
    have hq : teamd_cfg_get_str sample_world_unknown_runner r.ctx "['runner']" =
        Except.ok "X" := by
      have h2 : (teamd_init sample_world_unknown_runner sample_ctx).map
          (fun r => teamd_cfg_get_str sample_world_unknown_runner r.ctx "['runner']") =
          some (Except.ok "X") := by rfl
      rw [h] at h2
      simpa using h2
    have key := (teamd_find_runner_exact_match sample_world_unknown_runner "X").2.2.2
      sample_ctx r h hq (by decide)
    ⟨r, rfl, hm, key.1, (key.2 hm).1, (key.2 hm).2.1, (key.2 hm).2.2⟩

theorem upto_runner_no_port_add (w : World) (ctx : teamd_context) (team_name : String) :
    ∀ e ∈ upto_runner w ctx team_name, e.is_release = false ∧ e.is_port_add = false := by
  intro e he
  refine ⟨(upto_runner_quiet w ctx team_name e he).1, ?_⟩
  rcases upto_runner_plain w ctx team_name e he with h | h
  · simp only [Event.plain, Bool.and_eq_true, Bool.not_eq_true', Bool.or_eq_false_iff] at h
    exact h.1.1.2
  · cases e <;> simp_all [Event.is_hwaddr_set, Event.is_port_add]

/-- C6: `teamd_add_ports` asks the kernel to add the configured ports in
configuration order and stops at the first failure: if the add of port `j` is
the first to fail, the adds requested are exactly those of ports `0..j`, once
each and in order, and that failure's error is returned; if no add fails, every
configured port is requested once, in order, and 0 is returned.  With ports
`p0`, `p1` and a failing add of `p1`, `teamd_init` cannot succeed, and when it
gets to the port stage it requests `p0` and `p1` once each, returns the error
of `p1`, and then runs the runner finalizer, `team_destroy` and `team_free`
once each. -/
theorem teamd_add_ports_stops_at_first_failure (w : World) (ctx : teamd_context) :
    (∀ (j : Nat) (pj : String), (teamd_for_each_port w ctx)[j]? = some pj →
      (∀ i p, i < j → (teamd_for_each_port w ctx)[i]? = some p →
        w.team_port_add i (w.team_ifname2ifindex p) = 0) →
      w.team_port_add j (w.team_ifname2ifindex pj) ≠ 0 →
      (teamd_add_ports w ctx).1 = w.team_port_add j (w.team_ifname2ifindex pj) ∧
      port_add_calls (teamd_add_ports w ctx).2 =
        ((teamd_for_each_port w ctx).take (j + 1)).map
          (fun p => Event.team_port_add ctx.th (w.team_ifname2ifindex p))) ∧
    ((∀ i p, (teamd_for_each_port w ctx)[i]? = some p →
        w.team_port_add i (w.team_ifname2ifindex p) = 0) →
      (teamd_add_ports w ctx).1 = 0 ∧
      port_add_calls (teamd_add_ports w ctx).2 =
        (teamd_for_each_port w ctx).map
          (fun p => Event.team_port_add ctx.th (w.team_ifname2ifindex p))) ∧
    (∀ r, teamd_init w ctx = some r → teamd_for_each_port w r.ctx = ["p0", "p1"] →
      w.team_port_add 0 (w.team_ifname2ifindex "p0") = 0 →
      w.team_port_add 1 (w.team_ifname2ifindex "p1") ≠ 0 →
      r.err ≠ 0 ∧
      (Event.log_err "Failed to add ports." ∈ r.trace →
        r.err = w.team_port_add 1 (w.team_ifname2ifindex "p1") ∧
        ∃ pre fini, teamd_runner_fini r.ctx = some fini ∧
          (∀ e ∈ pre, e.is_release = false ∧ e.is_port_add = false) ∧
          r.trace = pre ++
            [Event.team_ifname2ifindex r.ctx.th "p0",
             Event.team_port_add r.ctx.th (w.team_ifname2ifindex "p0"),
             Event.team_ifname2ifindex r.ctx.th "p1",
             Event.team_port_add r.ctx.th (w.team_ifname2ifindex "p1"),
             Event.log_err "Failed to add port \"%s\".",
             Event.log_err "Failed to add ports."] ++ fini ++
            [Event.team_destroy r.ctx.th, Event.team_free r.ctx.th])) := by
  refine ⟨?_, ?_, ?_⟩
  · intro j pj hj hok hfail
    have := teamd_add_ports_loop_first_failure w ctx.th (teamd_for_each_port w ctx) 0 j pj hj
      (by simpa using hok) (by simpa using hfail)
    simpa [teamd_add_ports] using this
  · intro hok
    have := teamd_add_ports_loop_all_added w ctx.th (teamd_for_each_port w ctx) 0
      (by simpa using hok)
    simpa [teamd_add_ports] using this
  · intro r hrun hports h0 h1
    have hadd : teamd_add_ports w r.ctx =
        (w.team_port_add 1 (w.team_ifname2ifindex "p1"),
         [Event.team_ifname2ifindex r.ctx.th "p0",
          Event.team_port_add r.ctx.th (w.team_ifname2ifindex "p0"),
          Event.team_ifname2ifindex r.ctx.th "p1",
          Event.team_port_add r.ctx.th (w.team_ifname2ifindex "p1"),
          Event.log_err "Failed to add port \"%s\"."]) := by
      simp [teamd_add_ports, hports, teamd_add_ports_loop, h0, h1]
    refine ⟨?_, ?_⟩
    · obtain ⟨st, r2, hr2, hp, hnone, hsome⟩ := teamd_init_exit w ctx
      rw [hrun] at hr2
      cases hr2
      cases st with
      | some stage => exact (hsome stage rfl).1
      | none =>
        cases hp with
        | success team_name h hh hr hp =>
          simp only [] at hadd
          rw [hadd] at hp
          exact absurd hp h1
    · intro hm
      have hp := teamd_init_stage_of_message w ctx r hrun Stage.add_ports hm
      cases hp with
      | add_ports team_name fini h hh hr hp hf =>
        simp only [] at hadd
        refine ⟨by rw [hadd], upto_runner w ctx team_name, fini, hf,
          upto_runner_no_port_add w ctx team_name, ?_⟩
        simp only [upto_ports, at_runner_th]
        rw [hadd]
        simp [at_runner_th]

theorem teamd_add_ports_stops_at_first_failure_witness :
    (teamd_init sample_world_port_fails sample_ctx).map
        (fun r => (r.err, port_add_calls r.trace, r.trace.filter Event.is_release)) =
      some (-16,
        [Event.team_port_add (some 1000) 2, Event.team_port_add (some 1000) 3],
        [Event.runner_fini "activebackup", Event.team_destroy (some 1000),
         Event.team_free (some 1000)]) ∧
    (teamd_add_ports sample_world_port_fails running_ctx).1 = -16 ∧
    port_add_calls (teamd_add_ports sample_world_port_fails running_ctx).2 =
      ((teamd_for_each_port sample_world_port_fails running_ctx).take (1 + 1)).map
        (fun p => Event.team_port_add running_ctx.th
          (sample_world_port_fails.team_ifname2ifindex p)) :=
  ⟨by decide,
   (teamd_add_ports_stops_at_first_failure sample_world_port_fails running_ctx).1 1 "p1"
     (by decide)
     (fun i p hi hp => by
       have hi0 : i = 0 := by omega
       subst hi0
       simp [sample_world_port_fails])
     (by decide)⟩

/-! ## Shutdown, the context after a failure, the hardware address -/

/-- C7: `teamd_fini` makes the release calls in the order runner finalizer
(when the descriptor has one), `free` of the runner private data,
`team_destroy`, `team_free`, each once; the rollback `teamd_init` performs
when `teamd_add_ports` fails is the same sequence: after the diagnostic of
that exit the trace is exactly what `teamd_fini` does on the context
returned, and no release call comes earlier. -/
theorem teamd_fini_same_as_rollback :
    (∀ (ctx : teamd_context) (runner : teamd_runner), ctx.runner = some runner →
      teamd_fini ctx =
        some ((if runner.fini then [Event.runner_fini runner.name] else []) ++
          [Event.free ctx.runner_priv, Event.team_destroy ctx.th, Event.team_free ctx.th])) ∧
    (∀ (w : World) (ctx : teamd_context) (r : Result), teamd_init w ctx = some r →
      Event.log_err "Failed to add ports." ∈ r.trace →
      ∃ pre fini, quiet pre ∧ teamd_fini r.ctx = some fini ∧
        r.trace = pre ++ Event.log_err "Failed to add ports." :: fini) ∧
    (∀ (w : World) (ctx : teamd_context) (r : Result), teamd_init w ctx = some r →
      r.err = 0 → ∃ fini, teamd_fini r.ctx = some fini) := by
  refine ⟨?_, ?_, ?_⟩
  · intro ctx runner hr
    simp [teamd_fini, teamd_runner_fini, hr]
  · intro w ctx r hrun hm
    have hp := teamd_init_stage_of_message w ctx r hrun Stage.add_ports hm
    cases hp with
    | add_ports team_name fini h hh hr hp hf =>
      refine ⟨upto_ports w ctx team_name,
        fini ++ [Event.team_destroy w.team_alloc, Event.team_free w.team_alloc],
        upto_ports_quiet w ctx team_name, ?_, ?_⟩
      · simp only [teamd_fini, hf, at_runner_th]
      · simp
  · intro w ctx r hrun herr
    obtain ⟨st, r2, hr2, hp, hnone, hsome⟩ := teamd_init_exit w ctx
    rw [hrun] at hr2
    cases hr2
    cases st with
    | some stage => exact absurd herr (hsome stage rfl).1
    | none =>
      cases hp with
      | success team_name h hh hr hp =>
        obtain ⟨rn, hrn⟩ := teamd_runner_init_runner w _ hr
        have hrn2 : (at_runner w ctx team_name).runner = some rn := hrn
        simp only [teamd_fini, teamd_runner_fini, hrn2]
        exact ⟨_, rfl⟩

theorem teamd_fini_same_as_rollback_witness :
    teamd_fini running_ctx =
      some ((if (⟨"activebackup", some "activebackup", 16, some 0, true⟩ : teamd_runner).fini
          then [Event.runner_fini "activebackup"] else []) ++
        [Event.free running_ctx.runner_priv, Event.team_destroy running_ctx.th,
         Event.team_free running_ctx.th]) ∧
    (teamd_init sample_world_port_fails sample_ctx).map
        (fun r => (r.trace.drop 18, teamd_fini r.ctx)) =
      some ([Event.runner_fini "activebackup", Event.free (some 2000),
             Event.team_destroy (some 1000), Event.team_free (some 1000)],
            some [Event.runner_fini "activebackup", Event.free (some 2000),
              Event.team_destroy (some 1000), Event.team_free (some 1000)]) :=
  ⟨teamd_fini_same_as_rollback.1 running_ctx _ rfl, by decide⟩

/-- C8 (as stated, refuted): when the device cannot be created, `teamd_init`
fails and leaves in the context the handle it has released, the text read from
the file and the parsed configuration, none of which were there before. -/
theorem teamd_init_failure_leaves_state :
    ∃ r, teamd_init sample_world_create_fails sample_ctx = some r ∧ r.err = -17 ∧
      Event.team_free (some 1000) ∈ r.trace ∧
      sample_ctx.th = none ∧ r.ctx.th = some 1000 ∧
      sample_ctx.config_text = none ∧ r.ctx.config_text = some "cfg" ∧
      sample_ctx.config_jso = none ∧ r.ctx.config_jso = some sample_doc := by
  refine ⟨_, rfl, ?_⟩
  decide

theorem at_config_frame (w : World) (ctx : teamd_context) :
    (at_config w ctx).cmd = ctx.cmd ∧ (at_config w ctx).daemonize = ctx.daemonize ∧
    (at_config w ctx).debug = ctx.debug ∧
    (at_config w ctx).force_recreate = ctx.force_recreate ∧
    (at_config w ctx).config_file = ctx.config_file ∧
    (at_config w ctx).pid_file = ctx.pid_file ∧ (at_config w ctx).argv0 = ctx.argv0 ∧
    (at_config w ctx).th = ctx.th := by
  unfold at_config
  rw [load_config_ctx]
  simp

theorem at_runner_frame (w : World) (ctx : teamd_context) (team_name : String) :
    (at_runner w ctx team_name).cmd = ctx.cmd ∧
    (at_runner w ctx team_name).daemonize = ctx.daemonize ∧
    (at_runner w ctx team_name).debug = ctx.debug ∧
    (at_runner w ctx team_name).force_recreate = ctx.force_recreate ∧
    (at_runner w ctx team_name).config_file = ctx.config_file ∧
    (at_runner w ctx team_name).pid_file = ctx.pid_file ∧
    (at_runner w ctx team_name).argv0 = ctx.argv0 ∧
    (at_runner w ctx team_name).config_text = (load_config w ctx).ctx.config_text ∧
    (at_runner w ctx team_name).config_jso = (load_config w ctx).ctx.config_jso := by
  have h := at_config_frame w ctx
  unfold at_runner
  rw [teamd_runner_init_ctx]
  simp only [at_hwaddr_len, at_ifindex, at_alloc, at_config] at h ⊢
  refine ⟨h.1, h.2.1, h.2.2.1, h.2.2.2.1, h.2.2.2.2.1, h.2.2.2.2.2.1, h.2.2.2.2.2.2.1,
    ?_, ?_⟩ <;> trivial

theorem mem_team_free_split (pre rest : List Event) (th : Option Nat) (hq : quiet pre)
    (h : Event.team_free th ∈ pre ++ rest) : Event.team_free th ∈ rest := by
  rcases List.mem_append.mp h with h1 | h1
  · have := (hq _ h1).1
    cases this
  · exact h1

/-- C8 (amended): a failing `teamd_init` does not put the context back.  The
fields initialization never writes (`cmd`, `daemonize`, `debug`,
`force_recreate`, `config_file`, `pid_file`, `argv0`) hold the values they had
before the call; `config_text` and `config_jso` keep what `load_config`
stored; `th` is either untouched or the value `team_alloc` returned, and
whenever `team_free` was called, `th` still holds the released handle, which
is the non-`NULL` handle `team_alloc` returned. -/
theorem teamd_init_failure_context (w : World) (ctx : teamd_context) (r : Result)
    (hrun : teamd_init w ctx = some r) (herr : r.err ≠ 0) :
    r.ctx.cmd = ctx.cmd ∧ r.ctx.daemonize = ctx.daemonize ∧ r.ctx.debug = ctx.debug ∧
    r.ctx.force_recreate = ctx.force_recreate ∧ r.ctx.config_file = ctx.config_file ∧
    r.ctx.pid_file = ctx.pid_file ∧ r.ctx.argv0 = ctx.argv0 ∧
    r.ctx.config_text = (load_config w ctx).ctx.config_text ∧
    r.ctx.config_jso = (load_config w ctx).ctx.config_jso ∧
    (r.ctx.th = ctx.th ∨ r.ctx.th = w.team_alloc) ∧
    (∀ th, Event.team_free th ∈ r.trace →
      th = r.ctx.th ∧ r.ctx.th = w.team_alloc ∧ w.team_alloc ≠ none) := by
  obtain ⟨st, r2, hr2, hp, hnone, hsome⟩ := teamd_init_exit w ctx
  rw [hrun] at hr2
  cases hr2
  have hc := at_config_frame w ctx
  cases hp with
  | success team_name h hh hr hp => exact absurd rfl herr
  | load_config h =>
    refine ⟨hc.1, hc.2.1, hc.2.2.1, hc.2.2.2.1, hc.2.2.2.2.1, hc.2.2.2.2.2.1,
      hc.2.2.2.2.2.2.1, rfl, rfl, Or.inl hc.2.2.2.2.2.2.2, ?_⟩
    intro th hth
    have := mem_team_free_split _ _ th (load_config_quiet w ctx) hth
    simp at this
  | device_name err h hd =>
    refine ⟨hc.1, hc.2.1, hc.2.2.1, hc.2.2.2.1, hc.2.2.2.2.1, hc.2.2.2.2.2.1,
      hc.2.2.2.2.2.2.1, rfl, rfl, Or.inl hc.2.2.2.2.2.2.2, ?_⟩
    intro th hth
    have := mem_team_free_split _ _ th (load_config_quiet w ctx) hth
    simp at this
  | team_alloc team_name h hd ha =>
    refine ⟨hc.1, hc.2.1, hc.2.2.1, hc.2.2.2.1, hc.2.2.2.2.1, hc.2.2.2.2.2.1,
      hc.2.2.2.2.2.2.1, rfl, rfl, Or.inr rfl, ?_⟩
    intro th hth
    have := mem_team_free_split _ _ th (load_config_quiet w ctx) hth
    simp at this
  | team_create team_name h hd ha hc2 =>
    refine ⟨hc.1, hc.2.1, hc.2.2.1, hc.2.2.2.1, hc.2.2.2.2.1, hc.2.2.2.2.2.1,
      hc.2.2.2.2.2.2.1, rfl, rfl, Or.inr rfl, ?_⟩
    intro th hth
    have := mem_team_free_split _ _ th (upto_create_quiet w ctx team_name) hth
    simp at this
    exact ⟨this, rfl, ha⟩
  | ifindex team_name h hi =>
    refine ⟨hc.1, hc.2.1, hc.2.2.1, hc.2.2.2.1, hc.2.2.2.2.1, hc.2.2.2.2.2.1,
      hc.2.2.2.2.2.2.1, rfl, rfl, Or.inr rfl, ?_⟩
    intro th hth
    have := mem_team_free_split _ _ th (upto_create_quiet w ctx team_name) hth
    simp at this
    exact ⟨this, rfl, h.2.2.1⟩
  | team_init team_name h hi ht =>
    refine ⟨hc.1, hc.2.1, hc.2.2.1, hc.2.2.2.1, hc.2.2.2.2.1, hc.2.2.2.2.2.1,
      hc.2.2.2.2.2.2.1, rfl, rfl, Or.inr rfl, ?_⟩
    intro th hth
    have := mem_team_free_split _ _ th (upto_create_quiet w ctx team_name) hth
    simp at this
    exact ⟨this, rfl, h.2.2.1⟩
  | hwaddr_reconcile team_name h hh =>
    refine ⟨hc.1, hc.2.1, hc.2.2.1, hc.2.2.2.1, hc.2.2.2.2.1, hc.2.2.2.2.2.1,
      hc.2.2.2.2.2.2.1, rfl, rfl, Or.inr rfl, ?_⟩
    intro th hth
    have := mem_team_free_split _ _ th (upto_hwaddr_quiet w ctx team_name) hth
    simp at this
    exact ⟨this, rfl, h.1.2.2.1⟩
  | runner_init team_name h hh hr =>
    have hf := at_runner_frame w ctx team_name
    refine ⟨hf.1, hf.2.1, hf.2.2.1, hf.2.2.2.1, hf.2.2.2.2.1, hf.2.2.2.2.2.1,
      hf.2.2.2.2.2.2.1, hf.2.2.2.2.2.2.2.1, hf.2.2.2.2.2.2.2.2,
      Or.inr (at_runner_th w ctx team_name), ?_⟩
    intro th hth
    have := mem_team_free_split _ _ th (upto_runner_quiet w ctx team_name) hth
    simp at this
    exact ⟨by rw [this]; exact (at_runner_th w ctx team_name).symm,
      at_runner_th w ctx team_name, h.1.2.2.1⟩
  | add_ports team_name fini h hh hr hp hf2 =>
    have hf := at_runner_frame w ctx team_name
    refine ⟨hf.1, hf.2.1, hf.2.2.1, hf.2.2.2.1, hf.2.2.2.2.1, hf.2.2.2.2.2.1,
      hf.2.2.2.2.2.2.1, hf.2.2.2.2.2.2.2.1, hf.2.2.2.2.2.2.2.2,
      Or.inr (at_runner_th w ctx team_name), ?_⟩
    intro th hth
    have hth2 : Event.team_free th ∈ upto_ports w ctx team_name ++
        (Event.log_err "Failed to add ports." :: fini ++
          [Event.team_destroy w.team_alloc, Event.team_free w.team_alloc]) := by
      simpa using hth
    have := mem_team_free_split _ _ th (upto_ports_quiet w ctx team_name) hth2
    have hth3 : th = w.team_alloc := by
      simp at this
      rcases this with h1 | h1
      · have hx : (teamd_runner_fini (at_runner w ctx team_name)).getD [] = fini := by
          rw [hf2]; rfl
        unfold teamd_runner_fini at hx
        split at hx
        · simp only [Option.getD_none] at hx
          rw [← hx] at h1
          cases h1
        · simp only [Option.getD_some] at hx
          rw [← hx] at h1
          simp only [List.mem_append, List.mem_singleton] at h1
          rcases h1 with h2 | h2
          · split at h2
            · simp only [List.mem_singleton] at h2
              cases h2
            · cases h2
          · cases h2
      · exact h1
    exact ⟨by rw [hth3]; exact (at_runner_th w ctx team_name).symm,
      at_runner_th w ctx team_name, h.1.2.2.1⟩

theorem teamd_init_failure_context_witness :
    ∃ r, teamd_init sample_world_create_fails sample_ctx = some r ∧ r.err ≠ 0 ∧
      r.ctx.cmd = sample_ctx.cmd ∧ r.ctx.config_file = sample_ctx.config_file ∧
      r.ctx.config_text = (load_config sample_world_create_fails sample_ctx).ctx.config_text ∧
      (∀ th, Event.team_free th ∈ r.trace →
        th = r.ctx.th ∧ r.ctx.th = sample_world_create_fails.team_alloc ∧
        sample_world_create_fails.team_alloc ≠ none) :=
  match h : teamd_init sample_world_create_fails sample_ctx with
  | none => absurd h (by decide)
  | some r =>
    have he : r.err ≠ 0 := by
      have h2 : (teamd_init sample_world_create_fails sample_ctx).map
          (fun r => decide (r.err ≠ 0)) = some true := by decide
      rw [h] at h2
      simpa using h2
    have key := teamd_init_failure_context sample_world_create_fails sample_ctx r h he
    ⟨r, rfl, he, key.1, key.2.2.2.2.1, key.2.2.2.2.2.2.2.1, key.2.2.2.2.2.2.2.2.2.2⟩

/-- C9 (the code departs from the claim): the exit for a failed query of the
hardware-address length is never taken, because the value is stored in the
unsigned `hwaddr_len` before it is tested against 0.  No run of `teamd_init`
logs its diagnostic; and in the sample world where `team_hwaddr_len_get`
returns -19, `teamd_init` stores 4294967277, goes on to initialize the runner
and add both ports, makes no release call and returns 0. -/
theorem teamd_init_ignores_hwaddr_len_failure :
    (∀ (w : World) (ctx : teamd_context) (r : Result), teamd_init w ctx = some r →
      Event.log_err "Failed to get hardware address length." ∉ r.trace) ∧
    sample_world_hwaddr_len_fails.team_hwaddr_len_get 5 = -19 ∧
    (teamd_init sample_world_hwaddr_len_fails sample_ctx).map
        (fun r => (r.err, r.ctx.hwaddr_len, r.trace.filter Event.is_release,
          port_add_calls r.trace, decide (Event.runner_init "activebackup" ∈ r.trace))) =
      some (0, 4294967277, [],
        [Event.team_port_add (some 1000) 2, Event.team_port_add (some 1000) 3], true) := by
  refine ⟨?_, by decide, by decide⟩
  intro w ctx r hrun hm
  have hp := teamd_init_stage_of_message w ctx r hrun Stage.hwaddr_len hm
  cases hp

theorem teamd_check_change_hwaddr_absent (w : World) (ctx : teamd_context)
    (h : w.json_object_simple_query ctx.config_jso "['hwaddr']" = none) :
    teamd_check_change_hwaddr w ctx = (0, []) := by
  unfold teamd_check_change_hwaddr teamd_cfg_get_str
  rw [h]
  split
  · rfl
  · rename_i s hs
    split at hs <;> simp at hs

/-- C10: when the configuration has no `hwaddr` entry,
`teamd_check_change_hwaddr` returns 0 and makes no call, so `teamd_init` never
leaves through the hardware-address exit on that account; and whenever
`teamd_check_change_hwaddr` calls `team_hwaddr_set`, it passes the device
handle and index, the bytes `parse_hwaddr` produced from the configured
string, and a length that is both the number of those bytes and the device's
hardware-address length `ctx->hwaddr_len`. -/
theorem teamd_check_change_hwaddr_optional (w : World) :
    (∀ ctx, w.json_object_simple_query ctx.config_jso "['hwaddr']" = none →
      teamd_check_change_hwaddr w ctx = (0, [])) ∧
    (∀ ctx r, teamd_init w ctx = some r →
      w.json_object_simple_query r.ctx.config_jso "['hwaddr']" = none →
      Event.log_err "Hardware address change failed." ∉ r.trace) ∧
    (∀ ctx th ifindex hwaddr len,
      Event.team_hwaddr_set th ifindex hwaddr len ∈ (teamd_check_change_hwaddr w ctx).2 →
      len = ctx.hwaddr_len ∧ hwaddr.length % 2 ^ 32 = len ∧
      th = ctx.th ∧ ifindex = ctx.ifindex ∧
      ∃ hwaddr_str, teamd_cfg_get_str w ctx "['hwaddr']" = Except.ok hwaddr_str ∧
        parse_hwaddr w.realloc_ok hwaddr_str = Except.ok hwaddr) := by
  refine ⟨teamd_check_change_hwaddr_absent w, ?_, ?_⟩
  · intro ctx r hrun hq hm
    have hp := teamd_init_stage_of_message w ctx r hrun Stage.hwaddr_reconcile hm
    cases hp with
    | hwaddr_reconcile team_name h hh =>
      rw [teamd_check_change_hwaddr_absent w _ hq] at hh
      exact hh rfl
  · intro ctx th ifindex hwaddr len hm
    unfold teamd_check_change_hwaddr at hm
    split at hm
    · simp at hm
    · rename_i hwaddr_str hs
      split at hm
      · simp at hm
      · rename_i hw hparse
        simp only [] at hm
        split at hm
        · simp at hm
        · rename_i hlen
          simp only [List.mem_singleton, Event.team_hwaddr_set.injEq] at hm
          obtain ⟨h1, h2, h3, h4⟩ := hm
          subst h1 h2 h3
          simp only [ne_eq, Decidable.not_not] at hlen
          exact ⟨by rw [h4]; exact hlen, h4.symm, rfl, rfl, hwaddr_str, hs, hparse⟩

theorem teamd_check_change_hwaddr_optional_witness :
    teamd_check_change_hwaddr sample_world running_ctx = (0, []) ∧
    (teamd_check_change_hwaddr sample_world_hwaddr running_ctx).2 =
      [Event.team_hwaddr_set (some 1000) 5 [0, 17, 34, 170, 187, 255] 6] ∧
    (6 = running_ctx.hwaddr_len ∧ [0, 17, 34, 170, 187, 255].length % 2 ^ 32 = 6 ∧
      some 1000 = running_ctx.th ∧ 5 = running_ctx.ifindex ∧
      ∃ hwaddr_str,
        teamd_cfg_get_str sample_world_hwaddr running_ctx "['hwaddr']" =
          Except.ok hwaddr_str ∧
        parse_hwaddr sample_world_hwaddr.realloc_ok hwaddr_str =
          Except.ok [0, 17, 34, 170, 187, 255]) :=
  ⟨(teamd_check_change_hwaddr_optional sample_world).1 running_ctx (by decide),
   by rfl,
   (teamd_check_change_hwaddr_optional sample_world_hwaddr).2.2 running_ctx (some 1000) 5
     [0, 17, 34, 170, 187, 255] 6 (by
       have h : (teamd_check_change_hwaddr sample_world_hwaddr running_ctx).2 =
           [Event.team_hwaddr_set (some 1000) 5 [0, 17, 34, 170, 187, 255] 6] := by rfl
       rw [h]
       exact List.mem_singleton.mpr rfl)⟩

/-! ## `parse_hwaddr` on well-formed and on oversized fields -/

theorem hexdigit_facts (upper : Bool) :
    ∀ d, d < 16 →
      hexval (hexdigit upper d) = some d ∧ isspace (hexdigit upper d) = false ∧
      hexdigit upper d ≠ Char.ofNat 45 ∧ hexdigit upper d ≠ Char.ofNat 43 ∧
      (hexdigit upper d).toNat ≠ 120 ∧ (hexdigit upper d).toNat ≠ 88 := by
  cases upper <;> decide

theorem strtoul_digits_two (c1 c2 : Char) (d1 d2 : Nat) (rest : List Char)
    (h1 : hexval c1 = some d1) (h2 : hexval c2 = some d2)
    (hrest : rest = [] ∨ ∃ r, rest = Char.ofNat 58 :: r) :
    strtoul_digits (c1 :: c2 :: rest) 0 = (d1 * 16 + d2, rest) := by
  rcases hrest with h | ⟨r, h⟩
  · subst h
    simp [strtoul_digits, h1, h2]
  · subst h
    have h58 : hexval (Char.ofNat 58) = none := by decide
    simp [strtoul_digits, h1, h2, h58]

theorem strtoul_two (c1 c2 : Char) (d1 d2 : Nat) (rest : List Char)
    (h1 : hexval c1 = some d1) (h2 : hexval c2 = some d2)
    (hs : isspace c1 = false) (hm : c1 ≠ Char.ofNat 45) (hp : c1 ≠ Char.ofNat 43)
    (hx : c2.toNat ≠ 120) (hX : c2.toNat ≠ 88) (hv : d1 * 16 + d2 ≤ 255)
    (hrest : rest = [] ∨ ∃ r, rest = Char.ofNat 58 :: r) :
    strtoul (c1 :: c2 :: rest) = (d1 * 16 + d2, rest, 0) := by
  have hd := strtoul_digits_two c1 c2 d1 d2 rest h1 h2 hrest
  have hdrop : (c1 :: c2 :: rest).dropWhile isspace = c1 :: c2 :: rest := by
    simp [List.dropWhile, hs]
  have hsign : strtoul_skip_sign (c1 :: c2 :: rest) = c1 :: c2 :: rest := by
    simp [strtoul_skip_sign, hm, hp]
  have h0x : strtoul_skip_0x (c1 :: c2 :: rest) = c1 :: c2 :: rest := by
    unfold strtoul_skip_0x
    split
    · rename_i z x h r heq
      simp only [List.cons.injEq] at heq
      have : x = c2 := heq.2.1.symm
      subst this
      simp [hx, hX]
    · rfl
  have hle : ¬ d1 * 16 + d2 > ULONG_MAX := by
    simp only [ULONG_MAX]
    omega
  unfold strtoul
  simp only [hdrop, hsign, h0x, h1, hd, Option.isSome_some, if_true, hle, if_false,
    List.head?_cons, Option.some.injEq, hm]

theorem strtoul_hex2 (upper : Bool) (b : Nat) (rest : List Char) (hb : b < 256)
    (hrest : rest = [] ∨ ∃ r, rest = Char.ofNat 58 :: r) :
    strtoul (hexdigit upper (b / 16) :: hexdigit upper (b % 16) :: rest) = (b, rest, 0) := by
  have f1 := hexdigit_facts upper (b / 16) (by omega)
  have f2 := hexdigit_facts upper (b % 16) (by omega)
  have h := strtoul_two _ _ (b / 16) (b % 16) rest f1.1 f2.1 f1.2.1 f1.2.2.1 f1.2.2.2.1
    f2.2.2.2.2.1 f2.2.2.2.2.2 (by omega) hrest
  rw [h]
  congr 1
  omega

theorem parse_hwaddr_loop_text (realloc_ok : Nat → Bool) (upper : Bool)
    (hr : ∀ k, realloc_ok k = true) :
    ∀ (bs : List Nat) (b : Nat) (acc : List Nat) (fuel : Nat),
      (∀ x ∈ b :: bs, x < 256) → (hwaddr_text upper (b :: bs)).length < fuel →
      parse_hwaddr_loop realloc_ok fuel (hwaddr_text upper (b :: bs)) acc =
        Except.ok (acc ++ b :: bs) := by
  intro bs
  induction bs with
  | nil =>
    intro b acc fuel hb hf
    cases fuel with
    | zero => omega
    | succ f =>
      have hs := strtoul_hex2 upper b [] (hb b (by simp)) (Or.inl rfl)
      have hb2 : b < 256 := hb b (by simp)
      simp only [hwaddr_text, hex2, parse_hwaddr_loop, hs, hr]
      have hmod : b % 4294967296 = b := Nat.mod_eq_of_lt (by omega)
      have hle : ¬ 255 < b := by omega
      simp [hmod, hle]
  | cons b2 bs ih =>
    intro b acc fuel hb hf
    cases fuel with
    | zero => omega
    | succ f =>
      have hb1 : b < 256 := hb b (by simp)
      have hs := strtoul_hex2 upper b (Char.ofNat 58 :: hwaddr_text upper (b2 :: bs)) hb1
        (Or.inr ⟨_, rfl⟩)
      have hmod : b % 4294967296 = b := Nat.mod_eq_of_lt (by omega)
      have hle : ¬ 255 < b := by omega
      have hsp : isspace (Char.ofNat 58) = false := by decide
      have h58 : (Char.ofNat 58).toNat = 58 := by decide
      have hlen : (hwaddr_text upper (b2 :: bs)).length < f := by
        simp only [hwaddr_text, hex2, List.cons_append, List.nil_append,
          List.length_cons] at hf
        omega
      have hrec := ih b2 (acc ++ [b]) f (fun x hx => hb x (by simp [List.mem_cons.mp hx]))
        hlen
      simp only [hwaddr_text, hex2, List.cons_append, List.nil_append, parse_hwaddr_loop, hs,
        hr]
      simp only [List.dropWhile, hsp, h58]
      simp [hmod, hle, hrec]

/-- C14: `parse_hwaddr` inverts the usual textual form of a hardware address.
For every non-empty sequence of bytes (fewer than `2^32` of them, so that the
`unsigned int` count is their number), applied to their two-digit hexadecimal
renderings (lower or upper case) joined by `:`, and with every `realloc`
succeeding, it returns 0 and stores exactly those bytes, their number being
the length stored through `plen`. -/
theorem parse_hwaddr_roundtrip (realloc_ok : Nat → Bool) (upper : Bool) (bytes : List Nat)
    (hne : bytes ≠ []) (hb : ∀ b ∈ bytes, b < 256) (hr : ∀ k, realloc_ok k = true)
    (hn : bytes.length < 2 ^ 32) :
    parse_hwaddr realloc_ok (String.mk (hwaddr_text upper bytes)) = Except.ok bytes ∧
    bytes.length % 2 ^ 32 = bytes.length := by
  refine ⟨?_, Nat.mod_eq_of_lt hn⟩
  cases bytes with
  | nil => exact absurd rfl hne
  | cons b bs =>
    have := parse_hwaddr_loop_text realloc_ok upper hr bs b []
      ((hwaddr_text upper (b :: bs)).length + 1) hb (Nat.lt_succ_self _)
    simpa [parse_hwaddr] using this

theorem parse_hwaddr_roundtrip_witness :
    String.mk (hwaddr_text false [0, 17, 34, 170, 187, 255]) = "00:11:22:aa:bb:ff" ∧
    parse_hwaddr (fun _ => true) (String.mk (hwaddr_text false [0, 17, 34, 170, 187, 255])) =
      Except.ok [0, 17, 34, 170, 187, 255] ∧
    [0, 17, 34, 170, 187, 255].length % 2 ^ 32 = [0, 17, 34, 170, 187, 255].length :=
  ⟨by decide,
   parse_hwaddr_roundtrip (fun _ => true) false [0, 17, 34, 170, 187, 255] (by decide)
     (by decide) (fun _ => rfl) (by decide)⟩

/-- C15 (the code departs from the claim): the value of a field is cut to 32
bits before it is compared with `0xFF`.  The field `100000012` denotes
`0x100000012`, which is above `0xFF`, yet `strtoul` returns it without error
and `parse_hwaddr` accepts it as the byte `0x12`; fields that stay above
`0xFF` after the cut, such as `100`, are rejected with `-EINVAL`. -/
theorem parse_hwaddr_accepts_truncated_field :
    strtoul "100000012".data = (4294967314, [], 0) ∧
    255 < 4294967314 ∧
    parse_hwaddr (fun _ => true) "100000012" = Except.ok [18] ∧
    parse_hwaddr (fun _ => true) "00:100000012:ff" = Except.ok [0, 18, 255] ∧
    parse_hwaddr (fun _ => true) "100" = Except.error (-EINVAL) := by
  refine ⟨by rfl, by decide, by rfl, by rfl, by rfl⟩

/-! ## Configuration source selection -/

theorem load_config_parse_text (w : World) (ctx : teamd_context) (tr : List Event)
    (text : String) (h : ctx.config_text = some text) :
    (load_config_parse w ctx tr).ctx = { ctx with config_jso := w.json_tokener_parse text } ∧
    (load_config_parse w ctx tr).err = (if (w.json_tokener_parse text).isSome then 0 else - EIO) ∧
    ∃ tail, (load_config_parse w ctx tr).trace = tr ++ Event.json_tokener_parse text :: tail ∧
      ∀ f, Event.fopen f ∉ tail := by
  unfold load_config_parse
  rw [h]
  simp only []
  cases hp : w.json_tokener_parse text with
  | none => exact ⟨rfl, rfl, _, rfl, by simp⟩
  | some j => exact ⟨rfl, rfl, [], rfl, by simp⟩

theorem load_config_parse_no_fopen (w : World) (ctx : teamd_context) (tr : List Event)
    (f : String) (h : Event.fopen f ∈ (load_config_parse w ctx tr).trace) :
    Event.fopen f ∈ tr := by
  unfold load_config_parse at h
  split at h
  · simp only [] at h
    split at h <;> simpa using h
  · simpa using h

theorem load_file_fopen (w : World) (filename f : String) :
    Event.fopen f ∈ (load_file w filename).2.2 ↔ f = filename := by
  unfold load_file
  simp only []
  repeat' split
  all_goals simp

/-- C11: in `load_config`, inline configuration text, when given, is the text
handed to the parser, and then no file is opened, whether or not a file path
was given too; a file is opened exactly when a path is given and no inline
text is, and it is the file of that path; with neither given `load_config`
returns `-ENOENT`. -/
theorem load_config_source_selection (w : World) (ctx : teamd_context) :
    (∀ text, ctx.config_text = some text →
      (load_config w ctx).ctx.config_text = some text ∧
      (load_config w ctx).ctx.config_jso = w.json_tokener_parse text ∧
      (load_config w ctx).err = (if (w.json_tokener_parse text).isSome then 0 else - EIO) ∧
      Event.json_tokener_parse text ∈ (load_config w ctx).trace ∧
      ∀ f, Event.fopen f ∉ (load_config w ctx).trace) ∧
    (∀ f, Event.fopen f ∈ (load_config w ctx).trace ↔
      ctx.config_file = some f ∧ ctx.config_text = none) ∧
    (ctx.config_file = none → ctx.config_text = none →
      load_config w ctx =
        ⟨-ENOENT, ctx, [Event.log_err
          "Either configuration file or command line configuration string must be present."]⟩) := by
  have hfree : ∀ text, ctx.config_text = some text →
      ∀ f, Event.fopen f ∉ (load_config w ctx).trace := by
    intro text ht f hm
    unfold load_config at hm
    split at hm
    · rw [ht] at hm
      simp only [] at hm
      have := load_config_parse_no_fopen w ctx _ f hm
      simp at this
    · have := load_config_parse_no_fopen w ctx _ f hm
      simp at this
  refine ⟨?_, ?_, ?_⟩
  · intro text ht
    have hctx : ∀ tr, (load_config w ctx) = load_config_parse w ctx tr →
        (load_config w ctx).ctx.config_text = some text ∧
        (load_config w ctx).ctx.config_jso = w.json_tokener_parse text ∧
        (load_config w ctx).err = (if (w.json_tokener_parse text).isSome then 0 else - EIO) ∧
        Event.json_tokener_parse text ∈ (load_config w ctx).trace := by
      intro tr he
      obtain ⟨h1, h2, tail, h3, _⟩ := load_config_parse_text w ctx tr text ht
      rw [he, h1, h2, h3]
      exact ⟨ht, rfl, rfl, by simp⟩
    have hsel : ∃ tr, load_config w ctx = load_config_parse w ctx tr := by
      unfold load_config
      split
      · rw [ht]
        exact ⟨_, rfl⟩
      · exact ⟨_, rfl⟩
    obtain ⟨tr, he⟩ := hsel
    obtain ⟨h1, h2, h3, h4⟩ := hctx tr he
    exact ⟨h1, h2, h3, h4, hfree text ht⟩
  · intro f
    constructor
    · intro hm
      cases ht : ctx.config_text with
      | some text => exact absurd hm (hfree text ht f)
      | none =>
        refine ⟨?_, rfl⟩
        unfold load_config at hm
        split at hm
        · rename_i config_file hcf
          rw [ht] at hm
          simp only [] at hm
          split at hm
          · simp only [List.mem_append, List.mem_singleton] at hm
            rcases hm with h | h
            · rw [hcf, (load_file_fopen w config_file f).mp h]
            · cases h
          · have := load_config_parse_no_fopen w _ _ f hm
            rw [hcf, (load_file_fopen w config_file f).mp this]
        · have := load_config_parse_no_fopen w ctx _ f hm
          simp at this
    · rintro ⟨hcf, ht⟩
      have hin : Event.fopen f ∈ (load_file w f).2.2 := (load_file_fopen w f f).mpr rfl
      unfold load_config
      rw [hcf, ht]
      simp only []
      split
      · exact List.mem_append_left _ hin
      · unfold load_config_parse
        split
        · simp only []
          split <;> exact List.mem_append_left _ hin
        · exact List.mem_append_left _ hin
  · intro hcf ht
    simp [load_config, load_config_parse, hcf, ht]

theorem load_config_source_selection_witness :
    (load_config sample_world
        { sample_ctx with config_text := some "inline" }).trace =
      [Event.log_warn "Command line configuration is present, ignoring given config file.",
       Event.json_tokener_parse "inline"] ∧
    (load_config sample_world sample_ctx).trace =
      [Event.fopen "/etc/teamd.conf", Event.fclose "/etc/teamd.conf",
       Event.json_tokener_parse "cfg"] ∧
    (Event.fopen "/etc/teamd.conf" ∈ (load_config sample_world sample_ctx).trace ↔
      sample_ctx.config_file = some "/etc/teamd.conf" ∧ sample_ctx.config_text = none) ∧
    load_config sample_world teamd_context_zero =
      ⟨-ENOENT, teamd_context_zero, [Event.log_err
        "Either configuration file or command line configuration string must be present."]⟩ :=
  ⟨by decide, by decide,
   (load_config_source_selection sample_world sample_ctx).2.1 "/etc/teamd.conf",
   (load_config_source_selection sample_world teamd_context_zero).2.2 rfl rfl⟩

/-! ## Starting the daemon: what the inner functions put on the trace -/

theorem no_start_nil : no_start [] := by
  intro e he
  cases he

theorem no_start_cons (e : Event) (tr : List Event) (h1 : e.is_start_event = false)
    (h2 : no_start tr) : no_start (e :: tr) := by
  intro x hx
  rcases List.mem_cons.mp hx with h | h
  · rw [h]; exact h1
  · exact h2 x h

theorem no_start_append (t1 t2 : List Event) (h1 : no_start t1) (h2 : no_start t2) :
    no_start (t1 ++ t2) := by
  intro x hx
  rcases List.mem_append.mp hx with h | h
  · exact h1 x h
  · exact h2 x h

theorem no_start_of_all_plain_or (ex : Event → Bool) (tr : List Event)
    (h : all_plain_or ex tr) (hex : ∀ e, ex e = true → e.is_start_event = false) :
    no_start tr := by
  intro e he
  rcases h e he with hp | hx
  · simp only [Event.plain, Bool.and_eq_true, Bool.not_eq_true'] at hp
    exact hp.2
  · exact hex e hx

theorem is_hwaddr_set_no_start (e : Event) (h : e.is_hwaddr_set = true) :
    e.is_start_event = false := by
  cases e <;> simp_all [Event.is_hwaddr_set, Event.is_start_event]

theorem is_port_add_no_start (e : Event) (h : e.is_port_add = true) :
    e.is_start_event = false := by
  cases e <;> simp_all [Event.is_port_add, Event.is_start_event]

theorem load_config_no_start (w : World) (ctx : teamd_context) :
    no_start (load_config w ctx).trace :=
  no_start_of_all_plain_or _ _ (load_config_plain w ctx) (by intro e he; cases he)

theorem upto_create_no_start (w : World) (ctx : teamd_context) (team_name : String) :
    no_start (upto_create w ctx team_name) :=
  no_start_of_all_plain_or _ _ (upto_create_plain w ctx team_name) (by intro e he; cases he)

theorem upto_hwaddr_no_start (w : World) (ctx : teamd_context) (team_name : String) :
    no_start (upto_hwaddr w ctx team_name) :=
  no_start_of_all_plain_or _ _ (upto_hwaddr_plain w ctx team_name) is_hwaddr_set_no_start

theorem upto_runner_no_start (w : World) (ctx : teamd_context) (team_name : String) :
    no_start (upto_runner w ctx team_name) :=
  no_start_of_all_plain_or _ _ (upto_runner_plain w ctx team_name) is_hwaddr_set_no_start

theorem upto_ports_no_start (w : World) (ctx : teamd_context) (team_name : String) :
    no_start (upto_ports w ctx team_name) := by
  refine no_start_of_all_plain_or _ _ (upto_ports_plain w ctx team_name) ?_
  intro e he
  simp only [Bool.or_eq_true] at he
  rcases he with h | h
  · exact is_hwaddr_set_no_start e h
  · exact is_port_add_no_start e h

theorem teamd_runner_fini_no_start (ctx : teamd_context) (fini : List Event)
    (h : teamd_runner_fini ctx = some fini) : no_start fini := by
  unfold teamd_runner_fini at h
  split at h
  · cases h
  · simp only [Option.some.injEq] at h
    subst h
    refine no_start_append _ _ ?_ (no_start_cons _ _ rfl no_start_nil)
    split
    · exact no_start_cons _ _ rfl no_start_nil
    · exact no_start_nil

theorem teamd_fini_no_start (ctx : teamd_context) (fini : List Event)
    (h : teamd_fini ctx = some fini) : no_start fini := by
  unfold teamd_fini at h
  split at h
  · cases h
  · rename_i t ht
    simp only [Option.some.injEq] at h
    subst h
    exact no_start_append _ _ (teamd_runner_fini_no_start ctx t ht)
      (no_start_cons _ _ rfl (no_start_cons _ _ rfl no_start_nil))

/-- No call of `teamd_start` itself is on the trace of `teamd_init`. -/
theorem teamd_init_no_start (w : World) (ctx : teamd_context) (r : Result)
    (hrun : teamd_init w ctx = some r) : no_start r.trace := by
  obtain ⟨st, r2, hr2, hp⟩ := teamd_init_path w ctx
  rw [hrun] at hr2
  cases hr2
  cases hp with
  | load_config h =>
    exact no_start_append _ _ (load_config_no_start w ctx)
      (no_start_cons _ _ rfl no_start_nil)
  | device_name err h hd =>
    exact no_start_append _ _ (load_config_no_start w ctx)
      (no_start_cons _ _ rfl no_start_nil)
  | team_alloc team_name h hd ha =>
    exact no_start_append _ _ (load_config_no_start w ctx)
      (no_start_cons _ _ rfl (no_start_cons _ _ rfl no_start_nil))
  | team_create team_name h hd ha hc =>
    exact no_start_append _ _ (upto_create_no_start w ctx team_name)
      (no_start_cons _ _ rfl (no_start_cons _ _ rfl no_start_nil))
  | ifindex team_name h hi =>
    exact no_start_append _ _ (upto_create_no_start w ctx team_name)
      (no_start_cons _ _ rfl (no_start_cons _ _ rfl (no_start_cons _ _ rfl
        (no_start_cons _ _ rfl no_start_nil))))
  | team_init team_name h hi ht =>
    exact no_start_append _ _ (upto_create_no_start w ctx team_name)
      (no_start_cons _ _ rfl (no_start_cons _ _ rfl (no_start_cons _ _ rfl
        (no_start_cons _ _ rfl (no_start_cons _ _ rfl no_start_nil)))))
  | hwaddr_reconcile team_name h hh =>
    exact no_start_append _ _ (upto_hwaddr_no_start w ctx team_name)
      (no_start_cons _ _ rfl (no_start_cons _ _ rfl (no_start_cons _ _ rfl no_start_nil)))
  | runner_init team_name h hh hr =>
    exact no_start_append _ _ (upto_runner_no_start w ctx team_name)
      (no_start_cons _ _ rfl (no_start_cons _ _ rfl (no_start_cons _ _ rfl no_start_nil)))
  | add_ports team_name fini h hh hr hp hf =>
    refine no_start_append _ _ (no_start_append _ _ (upto_ports_no_start w ctx team_name)
      (no_start_cons _ _ rfl (teamd_runner_fini_no_start _ fini hf))) ?_
    exact no_start_cons _ _ rfl (no_start_cons _ _ rfl no_start_nil)
  | success team_name h hh hr hp => exact upto_ports_no_start w ctx team_name

theorem teamd_run_loop_no_start (th : Option Nat) :
    ∀ (ws : List wakeup) (q : Bool), no_start (teamd_run_loop th q ws).2 := by
  intro ws
  induction ws with
  | nil =>
    intro q
    cases q <;> exact no_start_nil
  | cons wk ws ih =>
    intro q
    cases q
    swap
    · exact no_start_nil
    simp only [teamd_run_loop]
    split
    · split
      · exact no_start_cons _ _ rfl (ih false)
      · exact no_start_cons _ _ rfl (no_start_cons _ _ rfl no_start_nil)
    · split
      · exact no_start_cons _ _ rfl (no_start_cons _ _ rfl
          (no_start_cons _ _ rfl no_start_nil))
      · refine no_start_cons _ _ rfl (no_start_append _ _ (no_start_append _ _ ?_ ?_) (ih _))
        · split
          · refine no_start_cons _ _ rfl ?_
            split
            · exact no_start_cons _ _ rfl no_start_nil
            · exact no_start_nil
          · exact no_start_nil
        · split
          · exact no_start_cons _ _ rfl no_start_nil
          · exact no_start_nil

/-- The ways `teamd_start_child` returns. -/
theorem teamd_start_child_cases (d : daemon_world) (w : World) (ctx : teamd_context)
    (res : Result) (h : teamd_start_child d w ctx = some res) :
    (∃ e, d.close_all_errno = some e ∧
      res.trace = [Event.daemon_close_all,
        Event.log_err "Failed to close all file descriptors.",
        Event.daemon_retval_send e.val]) ∨
    (∃ e, d.close_all_errno = none ∧ d.pid_file_create_errno = some e ∧
      res.trace = [Event.daemon_close_all, Event.daemon_pid_file_create,
        Event.log_err "Could not create PID file.", Event.daemon_retval_send e.val]) ∨
    (∃ e, d.close_all_errno = none ∧ d.pid_file_create_errno = none ∧
      d.signal_init_errno = some e ∧
      res.trace = [Event.daemon_close_all, Event.daemon_pid_file_create,
        Event.daemon_signal_init, Event.log_err "Could not register signal handlers.",
        Event.daemon_retval_send e.val, Event.daemon_pid_file_remove]) ∨
    (∃ r, d.close_all_errno = none ∧ d.pid_file_create_errno = none ∧
      d.signal_init_errno = none ∧ teamd_init w ctx = some r ∧ r.err ≠ 0 ∧
      res.err = r.err ∧ res.ctx = r.ctx ∧
      res.trace = [Event.daemon_close_all, Event.daemon_pid_file_create,
          Event.daemon_signal_init] ++ r.trace ++
        [Event.log_err "teamd_init() failed.", Event.daemon_retval_send (-r.err),
         Event.daemon_signal_done, Event.daemon_pid_file_remove]) ∨
    (∃ r v fini, d.close_all_errno = none ∧ d.pid_file_create_errno = none ∧
      d.signal_init_errno = none ∧ teamd_init w ctx = some r ∧ r.err = 0 ∧
      (teamd_run r.ctx d.wakeups).1 = some v ∧ teamd_fini r.ctx = some fini ∧
      res.err = v ∧ res.ctx = r.ctx ∧
      res.trace = [Event.daemon_close_all, Event.daemon_pid_file_create,
          Event.daemon_signal_init] ++ r.trace ++ [Event.daemon_retval_send 0] ++
        (teamd_run r.ctx d.wakeups).2 ++ fini ++
        [Event.daemon_signal_done, Event.daemon_pid_file_remove]) := by
  unfold teamd_start_child at h
  cases hc : d.close_all_errno with
  | some e =>
    rw [hc] at h
    simp only [Option.some.injEq] at h
    subst h
    exact Or.inl ⟨e, rfl, rfl⟩
  | none =>
    rw [hc] at h
    cases hp : d.pid_file_create_errno with
    | some e =>
      rw [hp] at h
      simp only [Option.some.injEq] at h
      subst h
      exact Or.inr (Or.inl ⟨e, rfl, rfl, rfl⟩)
    | none =>
      rw [hp] at h
      cases hs : d.signal_init_errno with
      | some e =>
        rw [hs] at h
        simp only [Option.some.injEq] at h
        subst h
        exact Or.inr (Or.inr (Or.inl ⟨e, rfl, rfl, rfl, rfl⟩))
      | none =>
        rw [hs] at h
        cases hi : teamd_init w ctx with
        | none =>
          rw [hi] at h
          cases h
        | some r =>
          rw [hi] at h
          simp only [] at h
          by_cases he : r.err = 0
          · simp only [he, ne_eq, not_true_eq_false, if_false] at h
            cases hrun : (teamd_run r.ctx d.wakeups).1 with
            | none =>
              rw [hrun] at h
              cases h
            | some v =>
              rw [hrun] at h
              cases hf : teamd_fini r.ctx with
              | none =>
                rw [hf] at h
                cases h
              | some fini =>
                rw [hf] at h
                simp only [Option.some.injEq] at h
                subst h
                exact Or.inr (Or.inr (Or.inr (Or.inr
                  ⟨r, v, fini, rfl, rfl, rfl, rfl, he, hrun, hf, rfl, rfl, rfl⟩)))
          · simp only [he, ne_eq, not_false_eq_true, if_true, Option.some.injEq] at h
            subst h
            exact Or.inr (Or.inr (Or.inr (Or.inl
              ⟨r, rfl, rfl, rfl, rfl, he, rfl, rfl, rfl⟩)))

/-- The ways `teamd_start` returns: before `daemon_close_all`, or with what
`teamd_start_child` returns after the checks (and the fork). -/
theorem teamd_start_cases (d : daemon_world) (w : World) (ctx : teamd_context)
    (res : Result) (h : teamd_start d w ctx = some res) :
    (before_child res.trace ∧ res.err ≠ 0 ∨
      before_child res.trace ∧ ctx.daemonize = true ∧ d.fork ≠ 0) ∨
    ∃ pre rc, teamd_start_child d w ctx = some rc ∧ before_child pre ∧
      res.err = rc.err ∧ res.ctx = rc.ctx ∧ res.trace = pre ++ rc.trace := by
  have hchecks : before_child teamd_start_checks := by
    intro e he
    simp only [teamd_start_checks, List.mem_cons, List.mem_singleton, List.not_mem_nil,
      or_false] at he
    rcases he with h | h | h <;> subst h <;> exact ⟨rfl, Or.inl rfl⟩
  have happ : ∀ t1 t2, before_child t1 → before_child t2 → before_child (t1 ++ t2) := by
    intro t1 t2 h1 h2 e he
    rcases List.mem_append.mp he with h | h
    · exact h1 e h
    · exact h2 e h
  have hcons : ∀ e t, (e.is_child_call = false ∧
      (e.is_start_event = true ∨ ∃ m, e = Event.log_err m)) → before_child t →
      before_child (e :: t) := by
    intro e t h1 h2 x hx
    rcases List.mem_cons.mp hx with h | h
    · rw [h]; exact h1
    · exact h2 x h
  have hnil : before_child [] := by
    intro e he
    cases he
  unfold teamd_start at h
  split at h
  · simp only [Option.some.injEq] at h
    subst h
    exact Or.inl (Or.inl ⟨hcons _ _ ⟨rfl, Or.inr ⟨_, rfl⟩⟩ hnil, by simp [EPERM]⟩)
  · split at h
    · rename_i e _
      simp only [Option.some.injEq] at h
      subst h
      have := e.pos
      exact Or.inl (Or.inl ⟨hcons _ _ ⟨rfl, Or.inl rfl⟩ (hcons _ _ ⟨rfl, Or.inr ⟨_, rfl⟩⟩ hnil),
        by simp only [ne_eq, neg_eq_zero]; omega⟩)
    · split at h
      · rename_i e _
        simp only [Option.some.injEq] at h
        subst h
        have := e.pos
        exact Or.inl (Or.inl ⟨hcons _ _ ⟨rfl, Or.inl rfl⟩ (hcons _ _ ⟨rfl, Or.inl rfl⟩
          (hcons _ _ ⟨rfl, Or.inr ⟨_, rfl⟩⟩ hnil)),
          by simp only [ne_eq, neg_eq_zero]; omega⟩)
      · split at h
        · simp only [Option.some.injEq] at h
          subst h
          exact Or.inl (Or.inl ⟨happ _ _ hchecks (hcons _ _ ⟨rfl, Or.inr ⟨_, rfl⟩⟩ hnil),
            by simp [EEXIST]⟩)
        · split at h
          · rename_i hdz
            split at h
            · simp only [Option.some.injEq] at h
              subst h
              refine Or.inl (Or.inr ⟨?_, hdz, by omega⟩)
              exact happ _ _ hchecks (hcons _ _ ⟨rfl, Or.inl rfl⟩ (hcons _ _ ⟨rfl, Or.inl rfl⟩
                (hcons _ _ ⟨rfl, Or.inr ⟨_, rfl⟩⟩ (hcons _ _ ⟨rfl, Or.inl rfl⟩ hnil))))
            · split at h
              · rename_i hf
                split at h
                · simp only [Option.some.injEq] at h
                  subst h
                  refine Or.inl (Or.inr ⟨?_, hdz, hf⟩)
                  exact happ _ _ hchecks (hcons _ _ ⟨rfl, Or.inl rfl⟩
                    (hcons _ _ ⟨rfl, Or.inl rfl⟩ (hcons _ _ ⟨rfl, Or.inl rfl⟩
                      (hcons _ _ ⟨rfl, Or.inr ⟨_, rfl⟩⟩ hnil))))
                · simp only [Option.some.injEq] at h
                  subst h
                  refine Or.inl (Or.inr ⟨?_, hdz, hf⟩)
                  refine happ _ _ (happ _ _ hchecks (hcons _ _ ⟨rfl, Or.inl rfl⟩
                    (hcons _ _ ⟨rfl, Or.inl rfl⟩ (hcons _ _ ⟨rfl, Or.inl rfl⟩ hnil)))) ?_
                  split
                  · exact hcons _ _ ⟨rfl, Or.inr ⟨_, rfl⟩⟩ hnil
                  · exact hnil
              · split at h
                · cases h
                · rename_i rc hrc
                  simp only [Option.some.injEq] at h
                  subst h
                  exact Or.inr ⟨teamd_start_checks ++
                      [Event.daemon_retval_init, Event.daemon_fork], rc, hrc,
                    happ _ _ hchecks (hcons _ _ ⟨rfl, Or.inl rfl⟩
                      (hcons _ _ ⟨rfl, Or.inl rfl⟩ hnil)), rfl, rfl, rfl⟩
          · split at h
            · cases h
            · rename_i rc hrc
              simp only [Option.some.injEq] at h
              subst h
              exact Or.inr ⟨_, rc, hrc, hchecks, rfl, rfl, rfl⟩

/-! ## Starting the daemon: relaying failures, cleaning up -/

theorem before_child_facts (tr : List Event) (h : before_child tr) :
    retval_sends tr = [] ∧ tr.count Event.daemon_pid_file_remove = 0 ∧
    tr.count Event.daemon_signal_done = 0 ∧ Event.daemon_pid_file_create ∉ tr ∧
    Event.daemon_signal_init ∉ tr ∧ (∀ v, Event.daemon_retval_send v ∉ tr) := by
  have hno : ∀ e, e.is_child_call = true → e ∉ tr := by
    intro e he hm
    have := (h e hm).1
    rw [he] at this
    cases this
  refine ⟨?_, List.count_eq_zero.mpr (hno _ rfl), List.count_eq_zero.mpr (hno _ rfl),
    hno _ rfl, hno _ rfl, fun v => hno _ rfl⟩
  simp only [retval_sends, List.filter_eq_nil_iff]
  intro e hm hs
  have := (h e hm).1
  cases e <;> simp_all [Event.is_retval_send, Event.is_child_call]

theorem no_start_facts (tr : List Event) (h : no_start tr) :
    retval_sends tr = [] ∧ tr.count Event.daemon_pid_file_remove = 0 ∧
    tr.count Event.daemon_signal_done = 0 ∧ Event.daemon_pid_file_create ∉ tr ∧
    Event.daemon_signal_init ∉ tr ∧ (∀ v, Event.daemon_retval_send v ∉ tr) := by
  have hno : ∀ e, e.is_start_event = true → e ∉ tr := by
    intro e he hm
    have := h e hm
    rw [he] at this
    cases this
  refine ⟨?_, List.count_eq_zero.mpr (hno _ rfl), List.count_eq_zero.mpr (hno _ rfl),
    hno _ rfl, hno _ rfl, fun v => hno _ rfl⟩
  simp only [retval_sends, List.filter_eq_nil_iff]
  intro e hm hs
  have := h e hm
  cases e <;> simp_all [Event.is_retval_send, Event.is_start_event]

/-- C12: a startup failure never yields a zero exit status.  For the run
command `main` returns `EXIT_SUCCESS` only if `teamd_start` returned 0; and
whenever `teamd_init`, reached inside `teamd_start`, fails with error `e`,
`teamd_start` returns `e` after exactly one `daemon_retval_send`, whose
argument is the non-zero value `-e`; it never sends 0. -/
theorem teamd_start_failure_relayed :
    (∀ (d : daemon_world) (w : World) (c : cmdline_world) (argv : List String)
        (status : Int) (tr : List Event),
      main d w c argv = some (status, tr) →
      (parse_command_line c teamd_context_zero argv).ctx.cmd =
        teamd_command.DAEMON_CMD_RUN →
      status = EXIT_SUCCESS →
      ∃ r, teamd_start d w
          { (parse_command_line c teamd_context_zero argv).ctx with argv0 := argv.head? } =
            some r ∧ r.err = 0) ∧
    (∀ (d : daemon_world) (w : World) (ctx : teamd_context) (res r : Result),
      teamd_start d w ctx = some res → teamd_init w ctx = some r → r.err ≠ 0 →
      Event.daemon_signal_init ∈ res.trace → d.signal_init_errno = none →
      res.err = r.err ∧ -r.err ≠ 0 ∧
      retval_sends res.trace = [Event.daemon_retval_send (-r.err)] ∧
      Event.daemon_retval_send 0 ∉ res.trace) := by
  refine ⟨?_, ?_⟩
  · intro d w c argv status tr hmain hcmd hst
    unfold main at hmain
    split at hmain
    · simp only [Option.some.injEq, Prod.mk.injEq] at hmain
      rw [hst] at hmain
      exact absurd hmain.1 (by decide)
    · simp only [] at hmain
      split at hmain
      · simp only [Option.some.injEq, Prod.mk.injEq] at hmain
        rw [hst] at hmain
        exact absurd hmain.1 (by decide)
      · rw [hcmd] at hmain
        simp only [] at hmain
        split at hmain
        · cases hmain
        · rename_i r hr
          split at hmain
          · simp only [Option.some.injEq, Prod.mk.injEq] at hmain
            rw [hst] at hmain
            exact absurd hmain.1 (by decide)
          · rename_i he
            exact ⟨r, by simpa [hcmd] using hr, by simpa using he⟩
  · intro d w ctx res r hstart hinit herr hmem hsig
    have hneg : -r.err ≠ 0 := by simpa using herr
    rcases teamd_start_cases d w ctx res hstart with (⟨hb, _⟩ | ⟨hb, _⟩) | ⟨pre, rc, hrc, hpre, he, _, htr⟩
    · exact absurd hmem (before_child_facts _ hb).2.2.2.2.1
    · exact absurd hmem (before_child_facts _ hb).2.2.2.2.1
    · have hp := before_child_facts _ hpre
      rcases teamd_start_child_cases d w ctx rc hrc with
        ⟨e, _, h1⟩ | ⟨e, _, _, h1⟩ | ⟨e, _, _, h0, _⟩ | ⟨r2, _, _, _, hi, _, hre, _, h1⟩ |
        ⟨r2, v, fini, _, _, _, hi, h0, _⟩
      · rw [htr, h1] at hmem
        simp only [List.mem_append, List.mem_cons, List.mem_singleton, List.not_mem_nil,
          or_false] at hmem
        rcases hmem with h | h
        · exact absurd h hp.2.2.2.2.1
        · simp at h
      · rw [htr, h1] at hmem
        simp only [List.mem_append, List.mem_cons, List.mem_singleton, List.not_mem_nil,
          or_false] at hmem
        rcases hmem with h | h
        · exact absurd h hp.2.2.2.2.1
        · simp at h
      · rw [hsig] at h0
        cases h0
      · rw [hinit] at hi
        cases hi
        have hr := no_start_facts _ (teamd_init_no_start w ctx r hinit)
        refine ⟨by rw [he, hre], hneg, ?_, ?_⟩
        · rw [htr, h1]
          simp only [retval_sends] at hp hr ⊢
          simp only [List.filter_append, hp.1, hr.1]
          simp [List.filter_cons, Event.is_retval_send]
        · rw [htr, h1]
          simp only [List.mem_append, List.mem_cons, List.mem_singleton, List.not_mem_nil,
            or_false, not_or]
          refine ⟨hp.2.2.2.2.2 0, ⟨⟨by simp, hr.2.2.2.2.2 0⟩, ?_⟩⟩
          simp only [Event.daemon_retval_send.injEq, reduceCtorEq, false_or, or_false]
          refine ⟨not_false, ?_, not_false, not_false⟩
          intro h
          exact hneg h.symm
      · rw [hinit] at hi
        cases hi
        exact absurd h0 herr

theorem teamd_start_failure_relayed_witness :
    (main sample_daemon sample_world_create_fails sample_cmdline
        ["teamd", "-f", "/etc/teamd.conf"]).map (fun p => p.1) = some EXIT_FAILURE ∧
    ∃ res r, teamd_start sample_daemon sample_world_create_fails sample_ctx = some res ∧
      teamd_init sample_world_create_fails sample_ctx = some r ∧ r.err = -17 ∧
      res.err = r.err ∧ -r.err ≠ 0 ∧
      retval_sends res.trace = [Event.daemon_retval_send (-r.err)] ∧
      Event.daemon_retval_send 0 ∉ res.trace :=
  ⟨by decide,
   match h1 : teamd_start sample_daemon sample_world_create_fails sample_ctx,
         h2 : teamd_init sample_world_create_fails sample_ctx with
   | none, _ => absurd h1 (by decide)
   | some _, none => absurd h2 (by decide)
   | some res, some r =>
     have he : r.err = -17 := by
       have h3 : (teamd_init sample_world_create_fails sample_ctx).map (fun r => r.err) =
           some (-17) := by decide
       rw [h2] at h3
       simpa using h3
     have hm : Event.daemon_signal_init ∈ res.trace := by
       have h3 : (teamd_start sample_daemon sample_world_create_fails sample_ctx).map
           (fun r => decide (Event.daemon_signal_init ∈ r.trace)) = some true := by decide
       rw [h1] at h3
       simpa using h3
     have key := teamd_start_failure_relayed.2 sample_daemon sample_world_create_fails
       sample_ctx res r h1 h2 (by rw [he]; decide) hm rfl
     ⟨res, r, rfl, rfl, he, key.1, key.2.1, key.2.2.1, key.2.2.2⟩⟩

/-! ## What `teamd_start` leaves behind -/

/-- After a successful `teamd_init` the runner is set, so `teamd_fini` is
defined. -/
theorem teamd_fini_after_init (w : World) (ctx : teamd_context) (r : Result)
    (hrun : teamd_init w ctx = some r) (herr : r.err = 0) :
    ∃ fini, teamd_fini r.ctx = some fini := by
  obtain ⟨st, r2, hr2, hp, hnone, hsome⟩ := teamd_init_exit w ctx
  rw [hrun] at hr2
  cases hr2
  cases st with
  | some stage => exact absurd herr (hsome stage rfl).1
  | none =>
    cases hp with
    | success team_name h hh hr hp =>
      obtain ⟨rn, hrn⟩ := teamd_runner_init_runner w _ hr
      have hrn2 : (at_runner w ctx team_name).runner = some rn := hrn
      simp only [teamd_fini, teamd_runner_fini, hrn2]
      exact ⟨_, rfl⟩

/-- The function `teamd_start_child` fails to return only when the main loop
does. -/
theorem teamd_start_child_none (d : daemon_world) (w : World) (ctx : teamd_context)
    (h : teamd_start_child d w ctx = none) :
    ∃ r, teamd_init w ctx = some r ∧ r.err = 0 ∧ (teamd_run r.ctx d.wakeups).1 = none := by
  obtain ⟨_, r, hr, _⟩ := teamd_init_path w ctx
  refine ⟨r, hr, ?_⟩
  unfold teamd_start_child at h
  cases hc : d.close_all_errno with
  | some e => rw [hc] at h; cases h
  | none =>
    rw [hc] at h
    cases hp : d.pid_file_create_errno with
    | some e => rw [hp] at h; cases h
    | none =>
      rw [hp] at h
      cases hs : d.signal_init_errno with
      | some e => rw [hs] at h; cases h
      | none =>
        rw [hs, hr] at h
        simp only [] at h
        by_cases he : r.err = 0
        · refine ⟨he, ?_⟩
          simp only [he, ne_eq, not_true_eq_false, if_false] at h
          cases hrun : (teamd_run r.ctx d.wakeups).1 with
          | none => rfl
          | some v =>
            rw [hrun] at h
            obtain ⟨fini, hf⟩ := teamd_fini_after_init w ctx r hr he
            rw [hf] at h
            cases h
        · simp only [he, ne_eq, not_false_eq_true, if_true] at h
          cases h

/-- The function `teamd_start` fails to return only when the main loop does. -/
theorem teamd_start_none (d : daemon_world) (w : World) (ctx : teamd_context)
    (h : teamd_start d w ctx = none) :
    ∃ r, teamd_init w ctx = some r ∧ r.err = 0 ∧ (teamd_run r.ctx d.wakeups).1 = none := by
  cases hc : teamd_start_child d w ctx with
  | none => exact teamd_start_child_none d w ctx hc
  | some rc =>
    exfalso
    unfold teamd_start at h
    rw [hc] at h
    repeat' split at h
    all_goals simp_all

theorem getLast_of_eq_concat (t pre : List Event) (e : Event) (h : t = pre ++ [e]) :
    t.getLast? = some e := by
  rw [h]
  simp

/-- What the part of `teamd_start` from `daemon_close_all` on leaves behind. -/
theorem teamd_start_child_cleanup (d : daemon_world) (w : World) (ctx : teamd_context)
    (rc : Result) (h : teamd_start_child d w ctx = some rc) :
    rc.trace.count Event.daemon_pid_file_remove =
      (if Event.daemon_pid_file_create ∈ rc.trace ∧ d.pid_file_create_errno = none
       then 1 else 0) ∧
    (Event.daemon_pid_file_create ∈ rc.trace → d.pid_file_create_errno = none →
      rc.trace.getLast? = some Event.daemon_pid_file_remove) ∧
    rc.trace.count Event.daemon_signal_done =
      (if Event.daemon_signal_init ∈ rc.trace ∧ d.signal_init_errno = none
       then 1 else 0) ∧
    (Event.daemon_signal_init ∈ rc.trace → d.signal_init_errno = none →
      ∃ r, teamd_init w ctx = some r ∧
        ((r.err ≠ 0 ∧ rc.err = r.err ∧
          rc.trace = [Event.daemon_close_all, Event.daemon_pid_file_create,
              Event.daemon_signal_init] ++ r.trace ++
            [Event.log_err "teamd_init() failed.", Event.daemon_retval_send (-r.err),
             Event.daemon_signal_done, Event.daemon_pid_file_remove]) ∨
         (r.err = 0 ∧ ∃ fini, teamd_fini r.ctx = some fini ∧
          (teamd_run r.ctx d.wakeups).1 = some rc.err ∧
          rc.trace = [Event.daemon_close_all, Event.daemon_pid_file_create,
              Event.daemon_signal_init] ++ r.trace ++ [Event.daemon_retval_send 0] ++
            (teamd_run r.ctx d.wakeups).2 ++ fini ++
            [Event.daemon_signal_done, Event.daemon_pid_file_remove]))) := by
  rcases teamd_start_child_cases d w ctx rc h with
    ⟨e, hc, htr⟩ | ⟨e, hc, hp, htr⟩ | ⟨e, hc, hp, hs, htr⟩ |
    ⟨r, hc, hp, hs, hi, he, herr, _, htr⟩ | ⟨r, v, fini, hc, hp, hs, hi, he, hrun, hf, herr, _, htr⟩
  · rw [htr]
    refine ⟨by simp, fun hm => ?_, by simp, fun hm => ?_⟩ <;> simp at hm
  · rw [htr]
    refine ⟨by simp [hp], fun _ hn => ?_, by simp, fun hm => ?_⟩
    · rw [hp] at hn; cases hn
    · simp at hm
  · rw [htr]
    refine ⟨by simp [hp], fun _ _ => by simp, by simp [hs], fun _ hn => ?_⟩
    rw [hs] at hn; cases hn
  · have hf := no_start_facts _ (teamd_init_no_start w ctx r hi)
    rw [htr]
    refine ⟨?_, fun _ _ => ?_, ?_, fun _ _ => ⟨r, hi, Or.inl ⟨he, herr, rfl⟩⟩⟩
    · simp [List.count_append, List.count_cons, hf.2.1, hp]
    · exact getLast_of_eq_concat _ ([Event.daemon_close_all, Event.daemon_pid_file_create,
        Event.daemon_signal_init] ++ r.trace ++ [Event.log_err "teamd_init() failed.",
        Event.daemon_retval_send (-r.err), Event.daemon_signal_done]) _ (by simp)
    · simp [List.count_append, List.count_cons, hf.2.2.1, hs]
  · have hf1 := no_start_facts _ (teamd_init_no_start w ctx r hi)
    have hf2 := no_start_facts _ (teamd_run_loop_no_start r.ctx.th d.wakeups false)
    have hf3 := no_start_facts _ (teamd_fini_no_start r.ctx fini hf)
    have hrun2 : (teamd_run r.ctx d.wakeups).2 = (teamd_run_loop r.ctx.th false d.wakeups).2 := rfl
    rw [htr]
    refine ⟨?_, fun _ _ => ?_, ?_, fun _ _ =>
      ⟨r, hi, Or.inr ⟨he, fini, hf, by rw [hrun, herr], rfl⟩⟩⟩
    · simp [List.count_append, List.count_cons, hf1.2.1, hrun2, hf2.2.1, hf3.2.1, hp]
    · exact getLast_of_eq_concat _ ([Event.daemon_close_all, Event.daemon_pid_file_create,
        Event.daemon_signal_init] ++ r.trace ++ [Event.daemon_retval_send 0] ++
        (teamd_run r.ctx d.wakeups).2 ++ fini ++ [Event.daemon_signal_done]) _ (by simp)
    · simp [List.count_append, List.count_cons, hf1.2.2.1, hrun2, hf2.2.2.1, hf3.2.2.1, hs]

/-- C16: `teamd_start` leaves no PID file or signal handling behind.  It fails
to return only when the main loop does not return.  For every run that
returns: `daemon_pid_file_remove` is called exactly once, as the last call, if
`daemon_pid_file_create` was called and succeeded, and not at all otherwise;
`daemon_signal_done` is called exactly once if `daemon_signal_init` was called
and succeeded, and not at all otherwise; and once `daemon_signal_init` has
succeeded `teamd_init` runs, and the calls of `teamd_fini` follow (after
`daemon_retval_send(0)` and the main loop) exactly when `teamd_init` returned
0: after a failed `teamd_init` only the diagnostic, `daemon_retval_send`,
`daemon_signal_done` and `daemon_pid_file_remove` follow its trace. -/
theorem teamd_start_cleanup (d : daemon_world) (w : World) (ctx : teamd_context) :
    (teamd_start d w ctx = none →
      ∃ r, teamd_init w ctx = some r ∧ r.err = 0 ∧
        (teamd_run r.ctx d.wakeups).1 = none) ∧
    ∀ res, teamd_start d w ctx = some res →
      res.trace.count Event.daemon_pid_file_remove =
        (if Event.daemon_pid_file_create ∈ res.trace ∧ d.pid_file_create_errno = none
         then 1 else 0) ∧
      (Event.daemon_pid_file_create ∈ res.trace → d.pid_file_create_errno = none →
        res.trace.getLast? = some Event.daemon_pid_file_remove) ∧
      res.trace.count Event.daemon_signal_done =
        (if Event.daemon_signal_init ∈ res.trace ∧ d.signal_init_errno = none
         then 1 else 0) ∧
      (Event.daemon_signal_init ∈ res.trace → d.signal_init_errno = none →
        ∃ r pre, teamd_init w ctx = some r ∧ before_child pre ∧
          ((r.err ≠ 0 ∧ res.err = r.err ∧
            res.trace = pre ++ [Event.daemon_close_all, Event.daemon_pid_file_create,
                Event.daemon_signal_init] ++ r.trace ++
              [Event.log_err "teamd_init() failed.", Event.daemon_retval_send (-r.err),
               Event.daemon_signal_done, Event.daemon_pid_file_remove]) ∨
           (r.err = 0 ∧ ∃ fini, teamd_fini r.ctx = some fini ∧
            (teamd_run r.ctx d.wakeups).1 = some res.err ∧
            res.trace = pre ++ [Event.daemon_close_all, Event.daemon_pid_file_create,
                Event.daemon_signal_init] ++ r.trace ++ [Event.daemon_retval_send 0] ++
              (teamd_run r.ctx d.wakeups).2 ++ fini ++
              [Event.daemon_signal_done, Event.daemon_pid_file_remove]))) := by
  refine ⟨teamd_start_none d w ctx, ?_⟩
  intro res h
  rcases teamd_start_cases d w ctx res h with (⟨hb, _⟩ | ⟨hb, _⟩) | ⟨pre, rc, hrc, hpre, he, _, htr⟩
  · have hf := before_child_facts _ hb
    exact ⟨by simp [hf.2.1, hf.2.2.2.1], fun hm => absurd hm hf.2.2.2.1,
      by simp [hf.2.2.1, hf.2.2.2.2.1], fun hm => absurd hm hf.2.2.2.2.1⟩
  · have hf := before_child_facts _ hb
    exact ⟨by simp [hf.2.1, hf.2.2.2.1], fun hm => absurd hm hf.2.2.2.1,
      by simp [hf.2.2.1, hf.2.2.2.2.1], fun hm => absurd hm hf.2.2.2.2.1⟩
  · have hp := before_child_facts _ hpre
    obtain ⟨c1, c2, c3, c4⟩ := teamd_start_child_cleanup d w ctx rc hrc
    have hmem1 : Event.daemon_pid_file_create ∈ res.trace ↔
        Event.daemon_pid_file_create ∈ rc.trace := by
      rw [htr, List.mem_append]
      exact ⟨fun x => x.resolve_left hp.2.2.2.1, Or.inr⟩
    have hmem2 : Event.daemon_signal_init ∈ res.trace ↔
        Event.daemon_signal_init ∈ rc.trace := by
      rw [htr, List.mem_append]
      exact ⟨fun x => x.resolve_left hp.2.2.2.2.1, Or.inr⟩
    refine ⟨?_, ?_, ?_, ?_⟩
    · have hcnt : res.trace.count Event.daemon_pid_file_remove =
          rc.trace.count Event.daemon_pid_file_remove := by
        rw [htr, List.count_append, hp.2.1, Nat.zero_add]
      rw [hcnt, c1]
      simp only [hmem1]
    · intro hm hn
      have := c2 (hmem1.mp hm) hn
      rw [htr, List.getLast?_append, this]
      rfl
    · have hcnt : res.trace.count Event.daemon_signal_done =
          rc.trace.count Event.daemon_signal_done := by
        rw [htr, List.count_append, hp.2.2.1, Nat.zero_add]
      rw [hcnt, c3]
      simp only [hmem2]
    · intro hm hn
      obtain ⟨r, hi, hcase⟩ := c4 (hmem2.mp hm) hn
      refine ⟨r, pre, hi, hpre, ?_⟩
      rcases hcase with ⟨h1, h2, h3⟩ | ⟨h1, fini, h2, h3, h4⟩
      · exact Or.inl ⟨h1, by rw [he, h2], by rw [htr, h3]; simp⟩
      · exact Or.inr ⟨h1, fini, h2, by rw [he, h3], by rw [htr, h4]; simp⟩

theorem teamd_start_cleanup_witness :
    (teamd_start sample_daemon sample_world sample_ctx).map
        (fun r => (r.err, r.trace.count Event.daemon_pid_file_remove,
          r.trace.count Event.daemon_signal_done, r.trace.getLast?)) =
      some (0, 1, 1, some Event.daemon_pid_file_remove) ∧
    ∃ res, teamd_start sample_daemon sample_world sample_ctx = some res ∧
      res.trace.count Event.daemon_pid_file_remove =
        (if Event.daemon_pid_file_create ∈ res.trace ∧
            sample_daemon.pid_file_create_errno = none then 1 else 0) ∧
      res.trace.count Event.daemon_signal_done =
        (if Event.daemon_signal_init ∈ res.trace ∧
            sample_daemon.signal_init_errno = none then 1 else 0) :=
  ⟨by decide,
   match h : teamd_start sample_daemon sample_world sample_ctx with
   | none => absurd h (by decide)
   | some res =>
     have key := (teamd_start_cleanup sample_daemon sample_world sample_ctx).2 res h
     ⟨res, rfl, key.1, key.2.2.1⟩⟩

/-! ## Command selection -/

/-- C13: the option `-V` the help text documents is not in the option string
`"hdkevf:c:p:gr"`: `parse_command_line` on `teamd -V` reaches the `default`
case and returns -1 with the command left at `DAEMON_CMD_RUN`, and `main`
exits with `EXIT_FAILURE` without printing the version.  The other documented
command options select their commands, `--version` and the undocumented `-v`
select the version command, and with no option the command is run. -/
theorem parse_command_line_version_option (c : cmdline_world) (ctx : teamd_context) :
    (parse_command_line c ctx ["teamd", "-V"]).err = -1 ∧
    (parse_command_line c ctx ["teamd", "-V"]).ctx.cmd = ctx.cmd ∧
    (parse_command_line c teamd_context_zero ["teamd", "-V"]).ctx.cmd =
      teamd_command.DAEMON_CMD_RUN ∧
    (∀ (d : daemon_world) (w : World), d.context_malloc_ok = true →
      main d w c ["teamd", "-V"] = some (EXIT_FAILURE, [])) ∧
    (∀ opt ∈ ["-h", "--help"],
      (parse_command_line c ctx ["teamd", opt]).err = 0 ∧
      (parse_command_line c ctx ["teamd", opt]).ctx.cmd = teamd_command.DAEMON_CMD_HELP) ∧
    (∀ opt ∈ ["-k", "--kill"],
      (parse_command_line c ctx ["teamd", opt]).err = 0 ∧
      (parse_command_line c ctx ["teamd", opt]).ctx.cmd = teamd_command.DAEMON_CMD_KILL) ∧
    (∀ opt ∈ ["-e", "--check"],
      (parse_command_line c ctx ["teamd", opt]).err = 0 ∧
      (parse_command_line c ctx ["teamd", opt]).ctx.cmd = teamd_command.DAEMON_CMD_CHECK) ∧
    (∀ opt ∈ ["-v", "--version"],
      (parse_command_line c ctx ["teamd", opt]).err = 0 ∧
      (parse_command_line c ctx ["teamd", opt]).ctx.cmd =
        teamd_command.DAEMON_CMD_VERSION) ∧
    (parse_command_line c teamd_context_zero ["teamd"]).err = 0 ∧
    (parse_command_line c teamd_context_zero ["teamd"]).ctx.cmd =
      teamd_command.DAEMON_CMD_RUN := by
  refine ⟨rfl, rfl, rfl, ?_, ?_, ?_, ?_, ?_, rfl, rfl⟩
  · intro d w hd
    simp only [main, hd]
    rfl
  all_goals
    intro opt hm
    simp only [List.mem_cons, List.mem_singleton, List.not_mem_nil, or_false] at hm
    rcases hm with h | h <;> subst h <;> exact ⟨rfl, rfl⟩

/-! ## The main loop -/

/-- While the loop has not ended on the wake-ups seen so far, later wake-ups
are handled as if the loop had started with them. -/
theorem teamd_run_loop_append (th : Option Nat) (rest : List wakeup) :
    ∀ (pre : List wakeup) (q : Bool), (teamd_run_loop th q pre).1 = none →
      teamd_run_loop th q (pre ++ rest) =
        ((teamd_run_loop th false rest).1,
         (teamd_run_loop th q pre).2 ++ (teamd_run_loop th false rest).2) := by
  intro pre
  induction pre with
  | nil =>
    intro q h
    cases q
    · simp [teamd_run_loop]
    · simp [teamd_run_loop] at h
  | cons wk pre ih =>
    intro q h
    cases q
    swap
    · simp [teamd_run_loop] at h
    simp only [List.cons_append, teamd_run_loop] at h ⊢
    split
    · rename_i errno he
      rw [he] at h
      simp only [] at h
      split
      · rename_i hint
        simp only [hint, if_true] at h
        have e := ih false h
        simp only [List.append_eq] at e ⊢
        rw [e]
        simp
      · rename_i hint
        simp [hint] at h
    · rename_i he
      rw [he] at h
      simp only [] at h
      split
      · rename_i hs
        simp [hs] at h
      · rename_i hs
        simp only [hs, if_false] at h
        have e := ih _ h
        simp only [List.append_eq] at e ⊢
        rw [e]
        simp

/-- C3: when a wake-up delivers SIGINT, SIGQUIT or SIGTERM while the device
event source is ready, `teamd_run` still processes the device events in that
pass (one `team_process_event`, after the signal was fetched and reported) and
then returns 0 without another `select`. -/
theorem teamd_run_quit_after_device_events (ctx : teamd_context) (pre rest : List wakeup)
    (wk : wakeup) (hpre : (teamd_run ctx pre).1 = none)
    (hsel : wk.select_errno = none) (hsig : wk.sig_ready = true)
    (hev : wk.event_ready = true)
    (hs : wk.sig = SIGINT ∨ wk.sig = SIGQUIT ∨ wk.sig = SIGTERM) :
    teamd_run ctx (pre ++ wk :: rest) =
      (some 0, (teamd_run ctx pre).2 ++
        [Event.select, Event.daemon_signal_next,
         Event.log_warn "Got SIGINT, SIGQUIT or SIGTERM.",
         Event.team_process_event ctx.th]) := by
  unfold teamd_run at hpre ⊢
  rw [teamd_run_loop_append ctx.th (wk :: rest) pre false hpre]
  have hpos : ¬ wk.sig ≤ 0 := by
    rcases hs with h | h | h <;> simp [h, SIGINT, SIGQUIT, SIGTERM]
  simp [teamd_run_loop, hsel, hsig, hev, hs, hpos]

theorem teamd_run_quit_after_device_events_witness :
    (teamd_run running_ctx [wake_event]).1 = none ∧
    teamd_run running_ctx ([wake_event] ++ wake_term :: [wake_event]) =
      (some 0, (teamd_run running_ctx [wake_event]).2 ++
        [Event.select, Event.daemon_signal_next,
         Event.log_warn "Got SIGINT, SIGQUIT or SIGTERM.",
         Event.team_process_event running_ctx.th]) :=
  ⟨by decide,
   teamd_run_quit_after_device_events running_ctx [wake_event] [wake_event] wake_term
     (by decide) (by decide) (by decide) (by decide) (by decide)⟩

/-- A run that reports a failed `select` was stopped by a wake-up whose
`select` failed with an errno other than `EINTR`, all earlier failures of
`select` having been `EINTR`. -/
theorem teamd_run_loop_select_failed (th : Option Nat) :
    ∀ (ws : List wakeup) (q : Bool) (v : Int), (teamd_run_loop th q ws).1 = some v →
      Event.log_err "select() failed." ∈ (teamd_run_loop th q ws).2 →
      q = false ∧ ∃ pre wk e rest, ws = pre ++ wk :: rest ∧ wk.select_errno = some e ∧
        e.val ≠ EINTR ∧ v = -(e.val : Int) ∧ (teamd_run_loop th false pre).1 = none ∧
        ∀ x ∈ pre, ∀ e2, x.select_errno = some e2 → e2.val = EINTR := by
  intro ws
  induction ws with
  | nil =>
    intro q v _ hm
    cases q <;> simp [teamd_run_loop] at hm
  | cons wk ws ih =>
    intro q v hv hm
    cases q
    swap
    · simp [teamd_run_loop] at hm
    refine ⟨rfl, ?_⟩
    cases he : wk.select_errno with
    | some e =>
      by_cases hint : e.val = EINTR
      · simp only [teamd_run_loop, he, hint, if_true] at hv hm
        simp only [List.mem_cons, false_or] at hm
        have hm2 : Event.log_err "select() failed." ∈ (teamd_run_loop th false ws).2 := by
          rcases hm with h | h
          · cases h
          · exact h
        obtain ⟨_, pre, wk2, e2, rest, hws, hsel, hne, hv2, hnone, hall⟩ := ih false v hv hm2
        refine ⟨wk :: pre, wk2, e2, rest, by simp [hws], hsel, hne, hv2, ?_, ?_⟩
        · simp [teamd_run_loop, he, hint, hnone]
        · intro x hx e3 hx3
          rcases List.mem_cons.mp hx with h | h
          · subst h
            rw [he] at hx3
            cases hx3
            exact hint
          · exact hall x h e3 hx3
      · simp only [teamd_run_loop, he, hint, if_false] at hv
        refine ⟨[], wk, e, ws, rfl, he, hint, ?_, by simp [teamd_run_loop], by simp⟩
        simp at hv
        exact hv.symm
    | none =>
      by_cases hs : wk.sig_ready = true ∧ wk.sig ≤ 0
      · simp [teamd_run_loop, he, hs] at hm
      · simp only [teamd_run_loop, he, hs, if_false] at hv hm
        have hm2 : Event.log_err "select() failed." ∈
            (teamd_run_loop th
              (decide (wk.sig_ready = true ∧
                (wk.sig = SIGINT ∨ wk.sig = SIGQUIT ∨ wk.sig = SIGTERM))) ws).2 := by
          simp only [List.mem_cons, List.mem_append] at hm
          rcases hm with h | (h | h) | h
          · cases h
          · split at h
            · simp only [List.mem_cons] at h
              rcases h with h | h
              · cases h
              · split at h <;> simp at h
            · simp at h
          · split at h <;> simp at h
          · exact h
        obtain ⟨hq, pre, wk2, e2, rest, hws, hsel, hne, hv2, hnone, hall⟩ := ih _ v hv hm2
        refine ⟨wk :: pre, wk2, e2, rest, by simp [hws], hsel, hne, hv2, ?_, ?_⟩
        · simp only [teamd_run_loop, he, hs, if_false, hq]
          exact hnone
        · intro x hx e3 hx3
          rcases List.mem_cons.mp hx with h | h
          · subst h
            rw [he] at hx3
            cases hx3
          · exact hall x h e3 hx3

/-- C4: in `teamd_run` a `select` failing with `EINTR` is retried (only the
`select` call is made for that wake-up and the loop goes on with the wake-ups
that follow); a `select` failing with any other errno ends the loop with the
negative value `-errno`; and a run that returns from a failed `select` does so
at the first failure that is not `EINTR`. -/
theorem teamd_run_select_failure (ctx : teamd_context) :
    (∀ (pre rest : List wakeup) (wk : wakeup) (e : Errno),
      (teamd_run ctx pre).1 = none → wk.select_errno = some e → e.val = EINTR →
      teamd_run ctx (pre ++ wk :: rest) =
        ((teamd_run ctx rest).1,
         (teamd_run ctx pre).2 ++ Event.select :: (teamd_run ctx rest).2)) ∧
    (∀ (pre rest : List wakeup) (wk : wakeup) (e : Errno),
      (teamd_run ctx pre).1 = none → wk.select_errno = some e → e.val ≠ EINTR →
      teamd_run ctx (pre ++ wk :: rest) =
        (some (-(e.val : Int)),
         (teamd_run ctx pre).2 ++ [Event.select, Event.log_err "select() failed."]) ∧
      -(e.val : Int) < 0) ∧
    (∀ (ws : List wakeup) (v : Int), (teamd_run ctx ws).1 = some v →
      Event.log_err "select() failed." ∈ (teamd_run ctx ws).2 →
      ∃ pre wk e rest, ws = pre ++ wk :: rest ∧ wk.select_errno = some e ∧
        e.val ≠ EINTR ∧ v = -(e.val : Int) ∧ (teamd_run ctx pre).1 = none ∧
        ∀ x ∈ pre, ∀ e2, x.select_errno = some e2 → e2.val = EINTR) := by
  refine ⟨?_, ?_, ?_⟩
  · intro pre rest wk e hpre hsel hint
    unfold teamd_run at hpre ⊢
    rw [teamd_run_loop_append ctx.th (wk :: rest) pre false hpre]
    simp [teamd_run_loop, hsel, hint]
  · intro pre rest wk e hpre hsel hint
    unfold teamd_run at hpre ⊢
    rw [teamd_run_loop_append ctx.th (wk :: rest) pre false hpre]
    have := e.pos
    refine ⟨by simp [teamd_run_loop, hsel, hint], by omega⟩
  · intro ws v hv hm
    exact (teamd_run_loop_select_failed ctx.th ws false v hv hm).2

theorem teamd_run_select_failure_witness :
    teamd_run running_ctx ([wake_event] ++ wake_eintr :: [wake_event, wake_ebadf, wake_term]) =
      (some (-9),
       [Event.select, Event.team_process_event (some 1000), Event.select, Event.select,
        Event.team_process_event (some 1000), Event.select,
        Event.log_err "select() failed."]) ∧
    teamd_run running_ctx ([wake_event] ++ wake_eintr :: [wake_event, wake_ebadf, wake_term]) =
      ((teamd_run running_ctx [wake_event, wake_ebadf, wake_term]).1,
       (teamd_run running_ctx [wake_event]).2 ++
         Event.select :: (teamd_run running_ctx [wake_event, wake_ebadf, wake_term]).2) :=
  ⟨by decide,
   (teamd_run_select_failure running_ctx).1 [wake_event] [wake_event, wake_ebadf, wake_term]
     wake_eintr ⟨4, by decide⟩ (by decide) (by decide) (by decide)⟩

/-- C5 (as stated, refuted): a pass in which `team_process_event` fails is
followed by another `select`, and the run ends with 0 at the next termination
signal. -/
theorem teamd_run_process_event_failure_not_fatal :
    wake_event_fail.process_event = -1 ∧
    teamd_run running_ctx [wake_event_fail] =
      (none, [Event.select, Event.team_process_event (some 1000)]) ∧
    teamd_run running_ctx [wake_event_fail, wake_term] =
      (some 0,
       [Event.select, Event.team_process_event (some 1000), Event.select,
        Event.daemon_signal_next, Event.log_warn "Got SIGINT, SIGQUIT or SIGTERM.",
        Event.team_process_event (some 1000)]) := by
  decide

theorem teamd_run_loop_ignores_process_event (th : Option Nat) (f : wakeup → Int) :
    ∀ (ws : List wakeup) (q : Bool),
      teamd_run_loop th q (ws.map (fun wk => { wk with process_event := f wk })) =
        teamd_run_loop th q ws := by
  intro ws
  induction ws with
  | nil => intro q; cases q <;> simp [teamd_run_loop]
  | cons wk ws ih =>
    intro q
    cases q
    · simp only [List.map_cons, teamd_run_loop, ih]
    · simp [teamd_run_loop]

/-- C5 (amended): the value `team_process_event` returns is discarded.  Whatever
it returns in each pass, `teamd_run` makes the same calls and returns the same
value; after a pass without signal in which it failed, the loop goes on with
the next `select`. -/
theorem teamd_run_ignores_process_event_result (ctx : teamd_context) :
    (∀ (ws : List wakeup) (f : wakeup → Int),
      teamd_run ctx (ws.map (fun wk => { wk with process_event := f wk })) =
        teamd_run ctx ws) ∧
    (∀ (pre rest : List wakeup) (wk : wakeup),
      (teamd_run ctx pre).1 = none → wk.select_errno = none → wk.sig_ready = false →
      wk.event_ready = true → wk.process_event ≠ 0 →
      teamd_run ctx (pre ++ wk :: rest) =
        ((teamd_run ctx rest).1,
         (teamd_run ctx pre).2 ++
           [Event.select, Event.team_process_event ctx.th] ++ (teamd_run ctx rest).2)) := by
  refine ⟨?_, ?_⟩
  · intro ws f
    exact teamd_run_loop_ignores_process_event ctx.th f ws false
  · intro pre rest wk hpre hsel hsig hev _
    unfold teamd_run at hpre ⊢
    rw [teamd_run_loop_append ctx.th (wk :: rest) pre false hpre]
    simp [teamd_run_loop, hsel, hsig, hev]

theorem teamd_run_ignores_process_event_result_witness :
    teamd_run running_ctx ([wake_event] ++ wake_event_fail :: [wake_term]) =
      ((teamd_run running_ctx [wake_term]).1,
       (teamd_run running_ctx [wake_event]).2 ++
         [Event.select, Event.team_process_event running_ctx.th] ++
           (teamd_run running_ctx [wake_term]).2) :=
  (teamd_run_ignores_process_event_result running_ctx).2 [wake_event] [wake_term]
    wake_event_fail (by decide) (by decide) (by decide) (by decide) (by decide)

end Teamd
